import Mathlib

/-! # AI-engine timer driver (`xaie_timer.c`): shallow embedding

The driver talks to the hardware and to the rest of the library only through
calls (`XAie_Write32`, `XAie_Read32`, `XAie_EventBroadcast`, ...).  The embedding
threads a *trace* of those calls through every function: each call is appended to
the trace together with the source line of its call site and the response it
received.  Responses come from an environment `Env`, an arbitrary function of the
trace so far, the call site and the call, so every deterministic behaviour of the
hardware and of the absent library functions is covered.

Machine integers are natural numbers, reduced modulo `2 ^ w` where the C code
stores into a `w`-bit variable or parameter.
-/

namespace XAie

/-! ## Data model -/

/-- Return codes of the driver (`AieRC`).  The constructors named after the C
enumerators are the ones `xaie_timer.c` and `xaie_locks_aieml.c` mention; `other`
stands for every further enumerator.  The enumerators are small consecutive
numbers, so a status kept in a `u8` variable (`u8 RC`) is the status itself. -/
inductive AieRC where
  | XAIE_OK
  | XAIE_ERR
  | XAIE_INVALID_ARGS
  | XAIE_INVALID_TILE
  | XAIE_LOCK_RESULT_FAILED
  | other (code : Nat)
deriving DecidableEq, Repr

open AieRC

/-- Tile location `XAie_LocType`: a row and a column. -/
structure XAie_LocType where
  Row : Nat
  Col : Nat
deriving DecidableEq, Repr

/-- Modelled from the spec: `XAie_TileLoc(col, row)` (declared in a header that is
not part of the sources) builds the tile location "(column, row) coordinate,
zero-based". -/
def XAie_TileLoc (col row : Nat) : XAie_LocType := ⟨row, col⟩

/-- Resource record `XAie_UserRsc`: location, module, resource type and id. -/
structure XAie_UserRsc where
  Loc : XAie_LocType
  Mod : Nat
  RscType : Nat
  RscId : Nat
deriving DecidableEq, Repr

instance : Inhabited XAie_UserRsc := ⟨⟨⟨0, 0⟩, 0, 0, 0⟩⟩

/-- Register field attribute `XAie_RegFldAttr`: least significant bit and mask. -/
structure XAie_RegFldAttr where
  Lsb : Nat
  Mask : Nat

/-- Timer module descriptor `XAie_TimerMod`. -/
structure XAie_TimerMod where
  TrigEventLowValOff : Nat
  TrigEventHighValOff : Nat
  LowOff : Nat
  HighOff : Nat
  CtrlOff : Nat
  CtrlReset : XAie_RegFldAttr
  CtrlResetEvent : XAie_RegFldAttr

/-- Event module descriptor `XAie_EvntMod`, with the fields the timer code reads.
`BroadcastEventMapEvent` is `BroadcastEventMap->Event`. -/
structure XAie_EvntMod where
  EventMin : Nat
  EventMax : Nat
  XAie_EventNumber : Nat → Nat
  BroadcastEventMapEvent : Nat

/-- Per tile type module table `XAie_TileMod` (`DevProp.DevMod[TileType]`). -/
structure XAie_TileMod where
  NumModules : Nat
  TimerMod : Nat → XAie_TimerMod
  EvntMod : Nat → XAie_EvntMod

/-- Lock module descriptor `XAie_LockMod`. -/
structure XAie_LockMod where
  BaseAddr : Nat
  LockIdOff : Nat
  RelAcqOff : Nat

/-- Lock request `XAie_Lock`.  `LockVal` is the bit pattern of the lock value
(two's complement for a negative value), which is what `&` in the lock code
operates on. -/
structure XAie_Lock where
  LockId : Nat
  LockVal : Nat

/-- Constants of the headers `xaiegbl.h`, `xaiegbl_defs.h` and `xaie_events.h`,
which are not part of the sources; they are parameters of the embedding. -/
structure Defs where
  XAIEGBL_TILE_TYPE_MAX : Nat
  XAIEGBL_TILE_TYPE_SHIMNOC : Nat
  XAIE_PL_MOD : Nat
  XAIE_EVENT_NONE_PL : Nat
  XAIE_EVENT_INVALID : Nat
  XAIE_RESETENABLE : Nat
  XAIE_RESETDISABLE : Nat
  XAIE_COMPONENT_IS_READY : Nat

/-- Device instance `XAie_DevInst`.  `DevMod` is `DevProp.DevMod`.  The last four
fields stand for the geometry helpers `_XAie_GetTileTypefromLoc`,
`_XAie_CheckModule`, `_XAie_GetTileAddr` and `_XAie_GetNumRows`, which are pure
functions of the device instance defined outside the sources. -/
structure XAie_DevInst where
  IsReady : Nat
  NumCols : Nat
  BaseAddr : Nat
  DevMod : Nat → XAie_TileMod
  GetTileTypefromLoc : XAie_LocType → Nat
  CheckModule : XAie_LocType → Nat → AieRC
  GetTileAddr : Nat → Nat → Nat
  GetNumRows : Nat → Nat

/-! ## Calls, responses, traces -/

/-- Calls that leave the embedded code: the register back end, the event and
resource libraries, and `malloc`/`free` (`malloc` is recorded with the number
of records requested; the byte count is that number times the record size).  `SetTimerResetEvent` records a call of
`XAie_SetTimerResetEvent` made by the synchronisation code; its body is embedded
below and its register write is recorded as well. -/
inductive Call where
  | Read32 (RegAddr : Nat)
  | Write32 (RegAddr Value : Nat)
  | MaskWrite32 (RegAddr Mask Value : Nat)
  | MaskPoll (RegAddr Mask Value TimeOut : Nat)
  | malloc (Count : Nat)
  | free
  | RequestBroadcastChannel (UserRscNum BroadcastAll : Nat)
  | ReleaseBroadcastChannel (UserRscNum : Nat) (Rscs : List XAie_UserRsc)
  | EventBroadcast (Loc : XAie_LocType) (Module BroadcastId Event : Nat)
  | EventGenerate (Loc : XAie_LocType) (Module Event : Nat)
  | SetTimerResetEvent (Loc : XAie_LocType) (Module Event Reset : Nat)
deriving DecidableEq, Repr

/-- Response to a call: the returned status `rc`; `val` is the scalar the call
hands back (the word read by `XAie_Read32`, the result of `XAieGbl_MaskPoll`, the
pointer returned by `malloc` with `0` for `NULL`, the record count stored by
`XAie_RequestBroadcastChannel`); `rscs` is the content of the record array after
`XAie_RequestBroadcastChannel`. -/
structure Resp where
  rc : AieRC
  val : Nat
  rscs : List XAie_UserRsc
deriving DecidableEq, Repr

/-- Trace entry: source line of the call site in its file, the call, and the
response.  An entry is appended when the call returns. -/
structure Ev where
  line : Nat
  call : Call
  resp : Resp
deriving DecidableEq, Repr

/-- Environment: the response to a call, given everything that happened before. -/
abbrev Env := List Ev → Nat → Call → Resp

/-- Issue a call from the given source line and record it. -/
def issue (E : Env) (tr : List Ev) (line : Nat) (c : Call) : Resp × List Ev :=
  (E tr line c, tr ++ [⟨line, c, E tr line c⟩])

/-- Modelled from the spec: the macro `XAie_SetField(Val, Lsb, Mask)` of
`xaie_helper.h` (not part of the sources) is `(Val << Lsb) & Mask`. -/
def XAie_SetField (Val Lsb Mask : Nat) : Nat := (Val <<< Lsb) &&& Mask

/-- Constant `XAIE_TIMER_32BIT_SHIFT`. -/
def XAIE_TIMER_32BIT_SHIFT : Nat := 32

/-- Constant `XAIE_WAIT_CYCLE_MAX_VAL`. -/
def XAIE_WAIT_CYCLE_MAX_VAL : Nat := 0xFFFFFFFFFFFF

/-- Constant `XAIEML_LOCK_VALUE_MASK`. -/
def XAIEML_LOCK_VALUE_MASK : Nat := 0x7F

/-- Constant `XAIEML_LOCK_VALUE_SHIFT`. -/
def XAIEML_LOCK_VALUE_SHIFT : Nat := 0x2

/-- Constant `XAIEML_LOCK_RESULT_SUCCESS`. -/
def XAIEML_LOCK_RESULT_SUCCESS : Nat := 1

/-- Constant `XAIEML_LOCK_RESULT_LSB`. -/
def XAIEML_LOCK_RESULT_LSB : Nat := 0x0

/-- Constant `XAIEML_LOCK_RESULT_MASK`. -/
def XAIEML_LOCK_RESULT_MASK : Nat := 0x1

/-! ## Timer engine -/

/-- The timer descriptor selected by `Module`: entry `0` for `XAIE_PL_MOD`,
entry `Module` otherwise (the `if(Module == XAIE_PL_MOD)` block of every timer
function). -/
def selTimerMod (K : Defs) (D : XAie_DevInst) (TileType Module : Nat) : XAie_TimerMod :=
  if Module = K.XAIE_PL_MOD then (D.DevMod TileType).TimerMod 0
  else (D.DevMod TileType).TimerMod Module

/-- The event descriptor selected by `Module`: entry `0` for `XAIE_PL_MOD`,
entry `Module` otherwise. -/
def selEvntMod (K : Defs) (D : XAie_DevInst) (TileType Module : Nat) : XAie_EvntMod :=
  if Module = K.XAIE_PL_MOD then (D.DevMod TileType).EvntMod 0
  else (D.DevMod TileType).EvntMod Module

/-- Embedding of `XAie_SetTimerTrigEventVal` (lines 68-114). -/
def XAie_SetTimerTrigEventVal (K : Defs) (D : XAie_DevInst) (E : Env)
    (Loc : XAie_LocType) (Module LowEventValue HighEventValue : Nat)
    (tr : List Ev) : AieRC × List Ev :=
  if D.IsReady ≠ K.XAIE_COMPONENT_IS_READY then (XAIE_INVALID_ARGS, tr) else
  let TileType := D.GetTileTypefromLoc Loc
  if TileType = K.XAIEGBL_TILE_TYPE_MAX then (XAIE_INVALID_TILE, tr) else
  if D.CheckModule Loc Module ≠ XAIE_OK then (XAIE_INVALID_ARGS, tr) else
  let TimerMod := selTimerMod K D TileType Module
  let RegAddr := (D.GetTileAddr Loc.Row Loc.Col + TimerMod.TrigEventLowValOff) % 2 ^ 64
  let w1 := issue E tr 105 (.Write32 RegAddr LowEventValue)
  if w1.1.rc ≠ XAIE_OK then (w1.1.rc, w1.2) else
  let RegAddr := (D.GetTileAddr Loc.Row Loc.Col + TimerMod.TrigEventHighValOff) % 2 ^ 64
  let w2 := issue E w1.2 113 (.Write32 RegAddr HighEventValue)
  (w2.1.rc, w2.2)

/-- Embedding of `XAie_ResetTimer` (lines 134-175); `Mask` and `RegVal` are `u32`
variables. -/
def XAie_ResetTimer (K : Defs) (D : XAie_DevInst) (E : Env)
    (Loc : XAie_LocType) (Module : Nat) (tr : List Ev) : AieRC × List Ev :=
  if D.IsReady ≠ K.XAIE_COMPONENT_IS_READY then (XAIE_INVALID_ARGS, tr) else
  let TileType := D.GetTileTypefromLoc Loc
  if TileType = K.XAIEGBL_TILE_TYPE_MAX then (XAIE_INVALID_TILE, tr) else
  if D.CheckModule Loc Module ≠ XAIE_OK then (XAIE_INVALID_ARGS, tr) else
  let TimerMod := selTimerMod K D TileType Module
  let RegAddr := (D.GetTileAddr Loc.Row Loc.Col + TimerMod.CtrlOff) % 2 ^ 64
  let Mask := TimerMod.CtrlReset.Mask % 2 ^ 32
  let RegVal := (XAie_SetField K.XAIE_RESETENABLE TimerMod.CtrlReset.Lsb Mask) % 2 ^ 32
  let w := issue E tr 174 (.MaskWrite32 RegAddr Mask RegVal)
  (w.1.rc, w.2)

/-- Embedding of `XAie_SetTimerResetEvent` (lines 199-271). -/
def XAie_SetTimerResetEvent (K : Defs) (D : XAie_DevInst) (E : Env)
    (Loc : XAie_LocType) (Module Event Reset : Nat)
    (tr : List Ev) : AieRC × List Ev :=
  if D.IsReady ≠ K.XAIE_COMPONENT_IS_READY then (XAIE_INVALID_ARGS, tr) else
  if Reset > K.XAIE_RESETENABLE then (XAIE_INVALID_ARGS, tr) else
  let TileType := D.GetTileTypefromLoc Loc
  if TileType = K.XAIEGBL_TILE_TYPE_MAX then (XAIE_INVALID_TILE, tr) else
  if D.CheckModule Loc Module ≠ XAIE_OK then (XAIE_INVALID_ARGS, tr) else
  let TimerMod := selTimerMod K D TileType Module
  let EvntMod := selEvntMod K D TileType Module
  if Event < EvntMod.EventMin ∨ Event > EvntMod.EventMax then (XAIE_INVALID_ARGS, tr) else
  let Event := Event - EvntMod.EventMin
  let IntEvent := EvntMod.XAie_EventNumber Event % 2 ^ 8
  if IntEvent = K.XAIE_EVENT_INVALID then (XAIE_INVALID_ARGS, tr) else
  let RegVal := (XAie_SetField IntEvent TimerMod.CtrlResetEvent.Lsb
    TimerMod.CtrlResetEvent.Mask) % 2 ^ 32
  let RegVal := (RegVal ||| XAie_SetField Reset TimerMod.CtrlReset.Lsb
    TimerMod.CtrlReset.Mask) % 2 ^ 32
  let RegAddr := (D.GetTileAddr Loc.Row Loc.Col + TimerMod.CtrlOff) % 2 ^ 64
  let w := issue E tr 270 (.Write32 RegAddr RegVal)
  (w.1.rc, w.2)

/-- Embedding of `XAie_ReadTimer` (lines 292-343).  The third component is `*TimerVal` after
the call: `none` when the function did not store through the pointer. -/
def XAie_ReadTimer (K : Defs) (D : XAie_DevInst) (E : Env)
    (Loc : XAie_LocType) (Module : Nat) (tr : List Ev) : AieRC × List Ev × Option Nat :=
  if D.IsReady ≠ K.XAIE_COMPONENT_IS_READY then (XAIE_INVALID_ARGS, tr, none) else
  let TileType := D.GetTileTypefromLoc Loc
  if TileType = K.XAIEGBL_TILE_TYPE_MAX then (XAIE_INVALID_TILE, tr, none) else
  if D.CheckModule Loc Module ≠ XAIE_OK then (XAIE_INVALID_ARGS, tr, none) else
  let TimerMod := selTimerMod K D TileType Module
  let r1 := issue E tr 328 (.Read32 ((D.GetTileAddr Loc.Row Loc.Col + TimerMod.LowOff) % 2 ^ 64))
  if r1.1.rc ≠ XAIE_OK then (r1.1.rc, r1.2, none) else
  let CurValLow := r1.1.val % 2 ^ 32
  let r2 := issue E r1.2 334 (.Read32 ((D.GetTileAddr Loc.Row Loc.Col + TimerMod.HighOff) % 2 ^ 64))
  if r2.1.rc ≠ XAIE_OK then (r2.1.rc, r2.2, none) else
  let CurValHigh := r2.1.val % 2 ^ 32
  (XAIE_OK, r2.2, some ((CurValHigh <<< XAIE_TIMER_32BIT_SHIFT) % 2 ^ 64 ||| CurValLow))

/-- The polling loop of `XAie_WaitCycles` (lines 421-438).  The first argument
bounds the number of iterations the embedding follows; `none` means the loop was
still running when the bound was reached. -/
def waitLoop (E : Env) (AddrLow AddrHigh EndVal : Nat) :
    Nat → Nat → List Ev → Option (AieRC × List Ev)
  | 0, CurVal, tr => if CurVal < EndVal then none else some (XAIE_OK, tr)
  | fuel + 1, CurVal, tr =>
    if CurVal < EndVal then
      let r1 := issue E tr 423 (.Read32 AddrLow)
      if r1.1.rc ≠ XAIE_OK then some (r1.1.rc, r1.2) else
      let CurLow := r1.1.val % 2 ^ 32
      let r2 := issue E r1.2 430 (.Read32 AddrHigh)
      if r2.1.rc ≠ XAIE_OK then some (r2.1.rc, r2.2) else
      let CurHigh := r2.1.val % 2 ^ 32
      waitLoop E AddrLow AddrHigh EndVal fuel
        ((CurHigh <<< XAIE_TIMER_32BIT_SHIFT) % 2 ^ 64 ||| CurLow) r2.2
    else some (XAIE_OK, tr)

/-- Embedding of `XAie_WaitCycles` (lines 365-441); `fuel` bounds the polling loop. -/
def XAie_WaitCycles (K : Defs) (D : XAie_DevInst) (E : Env) (fuel : Nat)
    (Loc : XAie_LocType) (Module CycleCnt : Nat) (tr : List Ev) :
    Option (AieRC × List Ev) :=
  if D.IsReady ≠ K.XAIE_COMPONENT_IS_READY then some (XAIE_INVALID_ARGS, tr) else
  let TileType := D.GetTileTypefromLoc Loc
  if TileType = K.XAIEGBL_TILE_TYPE_MAX then some (XAIE_INVALID_TILE, tr) else
  if D.CheckModule Loc Module ≠ XAIE_OK then some (XAIE_INVALID_ARGS, tr) else
  if CycleCnt > XAIE_WAIT_CYCLE_MAX_VAL then some (XAIE_INVALID_ARGS, tr) else
  let TimerMod := selTimerMod K D TileType Module
  let AddrLow := (D.GetTileAddr Loc.Row Loc.Col + TimerMod.LowOff) % 2 ^ 64
  let AddrHigh := (D.GetTileAddr Loc.Row Loc.Col + TimerMod.HighOff) % 2 ^ 64
  let r1 := issue E tr 406 (.Read32 AddrLow)
  if r1.1.rc ≠ XAIE_OK then some (r1.1.rc, r1.2) else
  let CurLow := r1.1.val % 2 ^ 32
  let r2 := issue E r1.2 412 (.Read32 AddrHigh)
  if r2.1.rc ≠ XAIE_OK then some (r2.1.rc, r2.2) else
  let CurHigh := r2.1.val % 2 ^ 32
  let StartVal := (CurHigh <<< XAIE_TIMER_32BIT_SHIFT) % 2 ^ 64 ||| CurLow
  let EndVal := (StartVal + CycleCnt) % 2 ^ 64
  waitLoop E AddrLow AddrHigh EndVal fuel 0 r2.2

/-! ## Lock engine (`xaie_locks_aieml.c`) -/

/-- Embedding of `_XAieMl_LockRelease` (lines 62-83). -/
def _XAieMl_LockRelease (D : XAie_DevInst) (E : Env) (LockMod : XAie_LockMod)
    (Loc : XAie_LocType) (Lock : XAie_Lock) (TimeOut : Nat) (tr : List Ev) :
    AieRC × List Ev :=
  let RegOff := (LockMod.BaseAddr + Lock.LockId * LockMod.LockIdOff +
    ((Lock.LockVal &&& XAIEML_LOCK_VALUE_MASK) <<< XAIEML_LOCK_VALUE_SHIFT)) % 2 ^ 32
  let RegAddr := (D.BaseAddr + D.GetTileAddr Loc.Row Loc.Col + RegOff) % 2 ^ 64
  let p := issue E tr 75 (.MaskPoll RegAddr XAIEML_LOCK_RESULT_MASK
    (XAIEML_LOCK_RESULT_SUCCESS <<< XAIEML_LOCK_RESULT_LSB) TimeOut)
  if p.1.val ≠ 0 then (XAIE_LOCK_RESULT_FAILED, p.2) else (XAIE_OK, p.2)

/-- Embedding of `_XAieMl_LockAcquire` (lines 109-131). -/
def _XAieMl_LockAcquire (D : XAie_DevInst) (E : Env) (LockMod : XAie_LockMod)
    (Loc : XAie_LocType) (Lock : XAie_Lock) (TimeOut : Nat) (tr : List Ev) :
    AieRC × List Ev :=
  let RegOff := (LockMod.BaseAddr + Lock.LockId * LockMod.LockIdOff +
    LockMod.RelAcqOff +
    ((Lock.LockVal &&& XAIEML_LOCK_VALUE_MASK) <<< XAIEML_LOCK_VALUE_SHIFT)) % 2 ^ 32
  let RegAddr := (D.BaseAddr + D.GetTileAddr Loc.Row Loc.Col + RegOff) % 2 ^ 64
  let p := issue E tr 123 (.MaskPoll RegAddr XAIEML_LOCK_RESULT_MASK
    (XAIEML_LOCK_RESULT_SUCCESS <<< XAIEML_LOCK_RESULT_LSB) TimeOut)
  if p.1.val ≠ 0 then (XAIE_LOCK_RESULT_FAILED, p.2) else (XAIE_OK, p.2)

/-! ## Sync orchestrator -/

/-- Embedding of `_XAie_GetBroadcastEventfromRscId` (lines 458-472); the parameter `RscId` is
a `u8`. -/
def _XAie_GetBroadcastEventfromRscId (K : Defs) (D : XAie_DevInst)
    (Loc : XAie_LocType) (Mod RscId : Nat) : Nat :=
  let RscId := RscId % 2 ^ 8
  let TileType := D.GetTileTypefromLoc Loc
  let EvntMod := selEvntMod K D TileType Mod
  EvntMod.BroadcastEventMapEvent + RscId

/-- The loop of `_XAie_ClearShimBroadcast` (lines 494-498): `n` iterations remain
and the loop variable is `i`.  The status of `XAie_EventBroadcast` is dropped. -/
def clearShimLoop (K : Defs) (E : Env) (BcastChannelId : Nat) :
    Nat → Nat → List Ev → List Ev
  | 0, _, tr => tr
  | n + 1, i, tr =>
    clearShimLoop K E BcastChannelId n (i + 1)
      (issue E tr 496 (.EventBroadcast (XAie_TileLoc i 0) K.XAIE_PL_MOD
        BcastChannelId K.XAIE_EVENT_NONE_PL)).2

/-- Embedding of `_XAie_ClearShimBroadcast` (lines 491-499); `StartCol` and `EndCol` are `u8`
parameters, `BcastChannelId` is a `u32` parameter. -/
def _XAie_ClearShimBroadcast (K : Defs) (E : Env)
    (StartCol EndCol BcastChannelId : Nat) (tr : List Ev) : List Ev :=
  let StartCol := StartCol % 2 ^ 8
  let EndCol := EndCol % 2 ^ 8
  let BcastChannelId := BcastChannelId % 2 ^ 32
  clearShimLoop K E BcastChannelId (EndCol - StartCol) StartCol tr

/-- A call of `XAie_SetTimerResetEvent` from the given source line: the body runs
(recording its register write), then the call and its status are recorded. -/
def callSetTimerResetEvent (K : Defs) (D : XAie_DevInst) (E : Env) (line : Nat)
    (Loc : XAie_LocType) (Module Event Reset : Nat) (tr : List Ev) : AieRC × List Ev :=
  let r := XAie_SetTimerResetEvent K D E Loc Module Event Reset tr
  (r.1, r.2 ++ [⟨line, .SetTimerResetEvent Loc Module Event Reset, ⟨r.1, 0, []⟩⟩])

/-- The loop of `_XAie_ClearTimerConfig` (lines 521-533): `n` iterations remain
and the loop variable is `k`.  The status of `XAie_SetTimerResetEvent` is
dropped. -/
def clearTimerLoop (K : Defs) (D : XAie_DevInst) (E : Env) (RscsBC : List XAie_UserRsc) :
    Nat → Nat → List Ev → List Ev
  | 0, _, tr => tr
  | n + 1, k, tr =>
    let R := RscsBC.getD k default
    let TileType := D.GetTileTypefromLoc R.Loc
    let EvntMod := selEvntMod K D TileType R.Mod
    clearTimerLoop K D E RscsBC n (k + 1)
      (callSetTimerResetEvent K D E 531 R.Loc R.Mod EvntMod.EventMin
        K.XAIE_RESETDISABLE tr).2

/-- Embedding of `_XAie_ClearTimerConfig` (lines 515-534); `Index` is a `u32` parameter. -/
def _XAie_ClearTimerConfig (K : Defs) (D : XAie_DevInst) (E : Env)
    (Index : Nat) (RscsBC : List XAie_UserRsc) (tr : List Ev) : List Ev :=
  clearTimerLoop K D E RscsBC (Index % 2 ^ 32) 0 tr

/-- The sizing loop of `XAie_SyncTimer` (lines 556-561): `n` iterations remain,
the loop variable is `i` and `UserRscNum` is the running 32-bit sum. -/
def sizeLoop (K : Defs) (D : XAie_DevInst) : Nat → Nat → Nat → Nat
  | 0, _, UserRscNum => UserRscNum
  | n + 1, i, UserRscNum =>
    if i = K.XAIEGBL_TILE_TYPE_SHIMNOC then sizeLoop K D n (i + 1) UserRscNum
    else sizeLoop K D n (i + 1)
      ((UserRscNum + (D.DevMod i).NumModules * D.GetNumRows i * D.NumCols) % 2 ^ 32)

/-- The tail of `XAie_SyncTimer` from the trigger on (lines 608-633). -/
def syncTrigger (K : Defs) (D : XAie_DevInst) (E : Env) (RscsBC : List XAie_UserRsc)
    (UserRscNum BcastChannelId ShimBcastEvent : Nat) (tr : List Ev) : AieRC × List Ev :=
  let g := issue E tr 610 (.EventGenerate (XAie_TileLoc 0 0) K.XAIE_PL_MOD ShimBcastEvent)
  if g.1.rc ≠ XAIE_OK then (g.1.rc, g.2) else
  let tr := _XAie_ClearTimerConfig K D E UserRscNum RscsBC g.2
  let tr := _XAie_ClearShimBroadcast K E D.NumCols BcastChannelId K.XAIE_EVENT_NONE_PL tr
  let rl := issue E tr 624 (.ReleaseBroadcastChannel UserRscNum RscsBC)
  if rl.1.rc ≠ XAIE_OK then (rl.1.rc, rl.2) else
  let f := issue E rl.2 630 .free
  (XAIE_OK, f.2)

/-- The arming loop of `XAie_SyncTimer` (lines 593-606) followed by the rest of
the function: `n` iterations remain and the loop variable is `j`. -/
def armLoop (K : Defs) (D : XAie_DevInst) (E : Env) (RscsBC : List XAie_UserRsc)
    (UserRscNum BcastChannelId ShimBcastEvent : Nat) :
    Nat → Nat → List Ev → AieRC × List Ev
  | 0, _, tr => syncTrigger K D E RscsBC UserRscNum BcastChannelId ShimBcastEvent tr
  | n + 1, j, tr =>
    let R := RscsBC.getD j default
    let BcastEvent := _XAie_GetBroadcastEventfromRscId K D R.Loc R.Mod BcastChannelId
    let a := callSetTimerResetEvent K D E 597 R.Loc R.Mod BcastEvent K.XAIE_RESETDISABLE tr
    if a.1 ≠ XAIE_OK then
      let tr := _XAie_ClearTimerConfig K D E j RscsBC a.2
      let tr := _XAie_ClearShimBroadcast K E 0 D.NumCols BcastChannelId tr
      (a.1, tr)
    else armLoop K D E RscsBC UserRscNum BcastChannelId ShimBcastEvent n (j + 1) a.2

/-- The shim fan-out loop of `XAie_SyncTimer` (lines 580-590) followed by the
rest of the function: `n` iterations remain and the loop variable is `i`. -/
def shimLoop (K : Defs) (D : XAie_DevInst) (E : Env) (RscsBC : List XAie_UserRsc)
    (UserRscNum BcastChannelId ShimBcastEvent : Nat) :
    Nat → Nat → List Ev → AieRC × List Ev
  | 0, _, tr =>
    armLoop K D E RscsBC UserRscNum BcastChannelId ShimBcastEvent UserRscNum 0 tr
  | n + 1, i, tr =>
    let b := issue E tr 583 (.EventBroadcast (XAie_TileLoc i 0) K.XAIE_PL_MOD
      BcastChannelId ShimBcastEvent)
    if b.1.rc ≠ XAIE_OK then
      (b.1.rc, _XAie_ClearShimBroadcast K E 0 i BcastChannelId b.2)
    else shimLoop K D E RscsBC UserRscNum BcastChannelId ShimBcastEvent n (i + 1) b.2

/-- Embedding of `XAie_SyncTimer` (lines 549-633).  `XAie_RequestBroadcastChannel` stores the
granted record count through `&UserRscNum` (a `u32`) and fills `RscsBC`;
`RscsBC[k]` beyond the records the environment supplied reads as a zero record. -/
def XAie_SyncTimer (K : Defs) (D : XAie_DevInst) (E : Env) (tr : List Ev) :
    AieRC × List Ev :=
  let UserRscNum := sizeLoop K D K.XAIEGBL_TILE_TYPE_MAX 0 0
  let m := issue E tr 563 (.malloc UserRscNum)
  if m.1.val = 0 then (XAIE_ERR, m.2) else
  let rq := issue E m.2 570 (.RequestBroadcastChannel UserRscNum 1)
  if rq.1.rc ≠ XAIE_OK then (rq.1.rc, rq.2) else
  let UserRscNum := rq.1.val % 2 ^ 32
  let RscsBC := rq.1.rscs
  let BcastChannelId := (RscsBC.getD 0 default).RscId % 2 ^ 32
  let ShimBcastEvent := _XAie_GetBroadcastEventfromRscId K D (XAie_TileLoc 0 0)
    K.XAIE_PL_MOD BcastChannelId
  shimLoop K D E RscsBC UserRscNum BcastChannelId ShimBcastEvent D.NumCols 0 rq.2

/-! ## Reading traces -/

/-- The status recorded in a trace entry. -/
def Ev.rc (e : Ev) : AieRC := e.resp.rc

/-- The calls recorded at a given source line, in order. -/
def callsAt (line : Nat) (tr : List Ev) : List Call :=
  (tr.filter (fun e => e.line = line)).map Ev.call

/-- The 64-bit timer values composed from consecutive pairs of successful
register reads (low word first, then high word) recorded in a trace. -/
def timerValues : List Ev → List Nat
  | lo :: hi :: rest =>
    (((hi.resp.val % 2 ^ 32) <<< XAIE_TIMER_32BIT_SHIFT) % 2 ^ 64 ||| (lo.resp.val % 2 ^ 32)) ::
      timerValues rest
  | _ => []

/-- Header constants as the AI-engine headers define them, for concrete runs. -/
def stdDefs : Defs := ⟨4, 1, 2, 2000, 255, 1, 0, 1⟩

/-! ## Vocabulary for statements about runs of `XAie_SyncTimer` -/

/-- The shim configuration call of line 583 for column `i`. -/
def cfgCall (K : Defs) (ch ev i : Nat) : Call :=
  .EventBroadcast (XAie_TileLoc i 0) K.XAIE_PL_MOD ch ev

/-- The clearing call of line 496 for column `i`: broadcast channel `ch` of the
shim tile `(i, 0)` is set to `XAIE_EVENT_NONE_PL`. -/
def clrCall (K : Defs) (ch i : Nat) : Call :=
  .EventBroadcast (XAie_TileLoc i 0) K.XAIE_PL_MOD ch K.XAIE_EVENT_NONE_PL

/-- The arming call of line 597 for record `j`. -/
def armCall (K : Defs) (D : XAie_DevInst) (rscs : List XAie_UserRsc) (ch j : Nat) : Call :=
  .SetTimerResetEvent (rscs.getD j default).Loc (rscs.getD j default).Mod
    (_XAie_GetBroadcastEventfromRscId K D (rscs.getD j default).Loc
      (rscs.getD j default).Mod ch) K.XAIE_RESETDISABLE

/-- The disarming call of line 531 for record `k`: the reset event is set back to
`EventMin` of the record's event module, with `XAIE_RESETDISABLE`. -/
def disCall (K : Defs) (D : XAie_DevInst) (rscs : List XAie_UserRsc) (k : Nat) : Call :=
  .SetTimerResetEvent (rscs.getD k default).Loc (rscs.getD k default).Mod
    (selEvntMod K D (D.GetTileTypefromLoc (rscs.getD k default).Loc)
      (rscs.getD k default).Mod).EventMin K.XAIE_RESETDISABLE

/-- Calls of `XAie_SetTimerResetEvent`. -/
def Call.isSetTimerResetEvent : Call → Bool
  | .SetTimerResetEvent _ _ _ _ => true
  | _ => false

/-- Calls of `XAie_EventGenerate`. -/
def Call.isEventGenerate : Call → Bool
  | .EventGenerate _ _ _ => true
  | _ => false

/-- Calls of `XAie_EventBroadcast`. -/
def Call.isEventBroadcast : Call → Bool
  | .EventBroadcast _ _ _ _ => true
  | _ => false

/-- Calls of `XAie_ReleaseBroadcastChannel`. -/
def Call.isRelease : Call → Bool
  | .ReleaseBroadcastChannel _ _ => true
  | _ => false

/-- Calls of the register back end. -/
def Call.isRegister : Call → Bool
  | .Read32 _ => true
  | .Write32 _ _ => true
  | .MaskWrite32 _ _ _ => true
  | .MaskPoll _ _ _ _ => true
  | _ => false

/-- Successful shim configurations of columns `i, ..., i + n - 1`. -/
def IsCfgSeg (K : Defs) (ch ev i n : Nat) (s : List Ev) : Prop :=
  s.map Ev.call = (List.range' i n).map (cfgCall K ch ev) ∧
  ∀ e ∈ s, e.line = 583 ∧ e.rc = XAIE_OK

/-- Shim clearing calls for columns `i, ..., i + n - 1`. -/
def IsClrSeg (K : Defs) (ch i n : Nat) (s : List Ev) : Prop :=
  s.map Ev.call = (List.range' i n).map (clrCall K ch) ∧ ∀ e ∈ s, e.line = 496

/-- Successful armings of records `j, ..., j + n - 1` with their register writes. -/
def IsArmSeg (K : Defs) (D : XAie_DevInst) (rscs : List XAie_UserRsc) (ch j n : Nat)
    (s : List Ev) : Prop :=
  callsAt 597 s = (List.range' j n).map (armCall K D rscs ch) ∧
  ∀ e ∈ s, (e.line = 597 ∧ e.rc = XAIE_OK ∧ e.call.isSetTimerResetEvent = true) ∨
    (e.line = 270 ∧ e.call.isRegister = true)

/-- Disarming calls for records `k, ..., k + n - 1` with their register writes. -/
def IsDisSeg (K : Defs) (D : XAie_DevInst) (rscs : List XAie_UserRsc) (k n : Nat)
    (s : List Ev) : Prop :=
  callsAt 531 s = (List.range' k n).map (disCall K D rscs) ∧
  ∀ e ∈ s, (e.line = 531 ∧ e.call.isSetTimerResetEvent = true) ∨
    (e.line = 270 ∧ e.call.isRegister = true)

/-- Register writes of one call of `XAie_SetTimerResetEvent`. -/
def IsWriteSeg (s : List Ev) : Prop :=
  ∀ e ∈ s, e.line = 270 ∧ e.call.isRegister = true

/-- Shape of a run from the trigger on. -/
inductive TrigShape (K : Defs) (D : XAie_DevInst) (rscs : List XAie_UserRsc)
    (U ch ev : Nat) : AieRC → List Ev → Prop
  | fail (g : Ev) :
      g.line = 610 → g.call = .EventGenerate (XAie_TileLoc 0 0) K.XAIE_PL_MOD ev →
      g.rc ≠ XAIE_OK → TrigShape K D rscs U ch ev g.rc [g]
  | released (g rl : Ev) (dis clr fin : List Ev) :
      g.line = 610 → g.call = .EventGenerate (XAie_TileLoc 0 0) K.XAIE_PL_MOD ev →
      g.rc = XAIE_OK →
      IsDisSeg K D rscs 0 U dis →
      IsClrSeg K (K.XAIE_EVENT_NONE_PL % 2 ^ 32) (D.NumCols % 2 ^ 8)
        (ch % 2 ^ 8 - D.NumCols % 2 ^ 8) clr →
      rl.line = 624 → rl.call = .ReleaseBroadcastChannel U rscs →
      (∀ e ∈ fin, e.line = 630 ∧ e.call = .free) →
      TrigShape K D rscs U ch ev rl.rc ([g] ++ dis ++ clr ++ [rl] ++ fin)

/-- Shape of a run from the arming of record `j` on. -/
inductive ArmShape (K : Defs) (D : XAie_DevInst) (rscs : List XAie_UserRsc)
    (U ch ev : Nat) : Nat → AieRC → List Ev → Prop
  | fail (j q : Nat) (f : Ev) (arms ws dis clr : List Ev) :
      j ≤ q → q < U → IsArmSeg K D rscs ch j (q - j) arms → IsWriteSeg ws →
      f.line = 597 → f.call = armCall K D rscs ch q → f.rc ≠ XAIE_OK →
      IsDisSeg K D rscs 0 q dis → IsClrSeg K ch 0 (D.NumCols % 2 ^ 8) clr →
      ArmShape K D rscs U ch ev j f.rc (arms ++ ws ++ [f] ++ dis ++ clr)
  | done (j : Nat) (rc : AieRC) (arms t : List Ev) :
      IsArmSeg K D rscs ch j (U - j) arms → TrigShape K D rscs U ch ev rc t →
      ArmShape K D rscs U ch ev j rc (arms ++ t)

/-- Shape of a run from the shim configuration of column `i` on. -/
inductive ShimShape (K : Defs) (D : XAie_DevInst) (rscs : List XAie_UserRsc)
    (U ch ev : Nat) : Nat → AieRC → List Ev → Prop
  | fail (i k : Nat) (f : Ev) (cfgs clr : List Ev) :
      i ≤ k → k < D.NumCols → IsCfgSeg K ch ev i (k - i) cfgs →
      f.line = 583 → f.call = cfgCall K ch ev k → f.rc ≠ XAIE_OK →
      IsClrSeg K ch 0 (k % 2 ^ 8) clr →
      ShimShape K D rscs U ch ev i f.rc (cfgs ++ [f] ++ clr)
  | done (i : Nat) (rc : AieRC) (cfgs t : List Ev) :
      IsCfgSeg K ch ev i (D.NumCols - i) cfgs → ArmShape K D rscs U ch ev 0 rc t →
      ShimShape K D rscs U ch ev i rc (cfgs ++ t)

/-- The record count computed by the sizing loop of `XAie_SyncTimer`. -/
def syncSize (K : Defs) (D : XAie_DevInst) : Nat :=
  sizeLoop K D K.XAIEGBL_TILE_TYPE_MAX 0 0

/-- The broadcast channel read from `RscsBC[0].RscId` into the `u32` variable
`BcastChannelId` after a request answered by `rq`. -/
def chanOf (rq : Ev) : Nat := (rq.resp.rscs.getD 0 default).RscId % 2 ^ 32

/-- The event `ShimBcastEvent` computed at lines 577-578 for channel `ch`. -/
def shimEventOf (K : Defs) (D : XAie_DevInst) (ch : Nat) : Nat :=
  _XAie_GetBroadcastEventfromRscId K D (XAie_TileLoc 0 0) K.XAIE_PL_MOD ch

/-- Shape of a complete run of `XAie_SyncTimer`. -/
inductive SyncShape (K : Defs) (D : XAie_DevInst) : AieRC → List Ev → Prop
  | mallocFail (m : Ev) :
      m.line = 563 → m.call = .malloc (syncSize K D) → m.resp.val = 0 →
      SyncShape K D XAIE_ERR [m]
  | requestFail (m rq : Ev) :
      m.line = 563 → m.call = .malloc (syncSize K D) →
      rq.line = 570 → rq.call = .RequestBroadcastChannel (syncSize K D) 1 →
      rq.rc ≠ XAIE_OK → SyncShape K D rq.rc [m, rq]
  | started (m rq : Ev) (rc : AieRC) (t : List Ev) :
      m.line = 563 → m.call = .malloc (syncSize K D) →
      rq.line = 570 → rq.call = .RequestBroadcastChannel (syncSize K D) 1 →
      rq.rc = XAIE_OK →
      ShimShape K D rq.resp.rscs (rq.resp.val % 2 ^ 32) (chanOf rq)
        (shimEventOf K D (chanOf rq)) 0 rc t →
      SyncShape K D rc ([m, rq] ++ t)

/-- Source lines at which `XAie_SyncTimer` and its helpers issue each kind of
call: `malloc` at 563, the channel request at 570, `XAie_EventBroadcast` at 583
(configuration) and 496 (clearing), `XAie_SetTimerResetEvent` at 597 (arming)
and 531 (disarming), its register write at 270, `XAie_EventGenerate` at 610, the
channel release at 624 and `free` at 630. -/
def Ev.tagged (e : Ev) : Bool :=
  match e.call with
  | .malloc _ => e.line == 563
  | .RequestBroadcastChannel _ _ => e.line == 570
  | .EventBroadcast _ _ _ _ => e.line == 583 || e.line == 496
  | .SetTimerResetEvent _ _ _ _ => e.line == 597 || e.line == 531
  | .EventGenerate _ _ _ => e.line == 610
  | .ReleaseBroadcastChannel _ _ => e.line == 624
  | .free => e.line == 630
  | _ => e.line == 270

/-- Calls of `XAie_RequestBroadcastChannel`. -/
def Call.isRequest : Call → Bool
  | .RequestBroadcastChannel _ _ => true
  | _ => false

/-- Timer registers of the example device. -/
def exTimerMod : XAie_TimerMod :=
  ⟨0x34004, 0x34008, 0x340F8, 0x340FC, 0x34000, ⟨31, 0x80000000⟩, ⟨8, 0x7F00⟩⟩

/-- Event module of the example device whose event ids start at `base`. -/
def exEvntMod (base : Nat) : XAie_EvntMod :=
  ⟨base, base + 127, fun e => e, base + 107⟩

/-- Example device with `cols` columns: row 0 holds shim tiles (tile type 2, module
`XAIE_PL_MOD`), row 1 holds AIE tiles (tile type 0, memory module 0 and core
module 1). -/
def exDev (cols : Nat) : XAie_DevInst :=
  ⟨1, cols, 0x20000000000,
   fun t => ⟨if t = 0 then 2 else 1, fun _ => exTimerMod,
     fun m => if t = 0 then (if m = 0 then exEvntMod 1000 else exEvntMod 0) else exEvntMod 2000⟩,
   fun l => if cols ≤ l.Col ∨ 1 < l.Row then 4 else if l.Row = 0 then 2 else 0,
   fun l m => if l.Row = 0 then (if m = 2 then XAIE_OK else XAIE_INVALID_ARGS)
     else (if m < 2 then XAIE_OK else XAIE_INVALID_ARGS),
   fun r c => (c <<< 23) ||| (r <<< 18),
   fun t => if t = 3 then 0 else 1⟩

/-- The records the allocator grants on the example device with `cols` columns:
for each column the shim tile with `XAIE_PL_MOD` and the AIE tile with its memory
and core modules, all carrying the granted channel `ch`. -/
def exRscs : Nat → Nat → List XAie_UserRsc
  | 0, _ => []
  | c + 1, ch =>
    exRscs c ch ++ [⟨⟨0, c⟩, 2, 0, ch⟩, ⟨⟨1, c⟩, 0, 0, ch⟩, ⟨⟨1, c⟩, 1, 0, ch⟩]

/-- Environment in which every call succeeds except those selected by `bad`,
which return `XAIE_ERR`; the allocator grants `rscs`. -/
def exEnv (rscs : List XAie_UserRsc) (bad : List Ev → Nat → Call → Bool) : Env :=
  fun tr line c =>
    ⟨if bad tr line c then XAIE_ERR else XAIE_OK,
     match c with
     | .malloc _ => 1
     | .RequestBroadcastChannel _ _ => rscs.length
     | _ => 0,
     match c with
     | .RequestBroadcastChannel _ _ => rscs
     | _ => []⟩

/-- Environment for the timer: every register read succeeds and the `k`-th pair
of reads (low word, then high word) returns the two halves of `vals[k]`. -/
def timerEnv (vals : List Nat) : Env :=
  fun tr _ _ =>
    ⟨XAIE_OK,
     if tr.length % 2 = 0 then vals.getD (tr.length / 2) 0 % 2 ^ 32
     else vals.getD (tr.length / 2) 0 / 2 ^ 32,
     []⟩

/-- Environment in which every call succeeds; channel 1 is granted. -/
def exEnvOk : Env := exEnv (exRscs 1 1) (fun _ _ _ => false)

/-- Environment in which the shim configuration of column 2 fails; channel 5 is
granted. -/
def exEnvShimFail : Env :=
  exEnv (exRscs 3 5) (fun _ l c => l == 583 && c == .EventBroadcast ⟨0, 2⟩ 2 5 2112)

/-- Environment in which every shim configuration fails. -/
def exEnvShimFail0 : Env := exEnv (exRscs 1 1) (fun _ l _ => l == 583)

/-- Environment in which the register write of the third arming (record 2)
fails; channel 3 is granted. -/
def exEnvArmFail : Env :=
  exEnv (exRscs 2 3) (fun tr l _ => l == 270 && (callsAt 597 tr).length == 2)

/-- Environment in which the trigger fails. -/
def exEnvTrigFail : Env := exEnv (exRscs 1 1) (fun _ l _ => l == 610)

/-- Environment in which the channel request fails. -/
def exEnvReqFail : Env := exEnv (exRscs 1 1) (fun _ l _ => l == 570)

/-- Environment in which every register write issued after the trigger fails, so
that every disarming call returns an error. -/
def exEnvDisarmFail : Env :=
  exEnv (exRscs 1 1) (fun tr l _ => l == 270 && tr.any (fun e => e.line == 610))

/-- A successful run on the one-column example device. -/
def exRunOk : AieRC × List Ev := XAie_SyncTimer stdDefs (exDev 1) exEnvOk []

/-- A run on a three-column device in which the shim configuration of column 2
fails. -/
def exRunShimFail : AieRC × List Ev := XAie_SyncTimer stdDefs (exDev 3) exEnvShimFail []

/-- A run on the one-column device in which the shim configuration of column 0
fails. -/
def exRunShimFail0 : AieRC × List Ev := XAie_SyncTimer stdDefs (exDev 1) exEnvShimFail0 []

/-- A run on a two-column device in which the arming of record 2 fails. -/
def exRunArmFail : AieRC × List Ev := XAie_SyncTimer stdDefs (exDev 2) exEnvArmFail []

/-- A run on the one-column device in which the trigger fails. -/
def exRunTrigFail : AieRC × List Ev := XAie_SyncTimer stdDefs (exDev 1) exEnvTrigFail []

/-- A run on the one-column device in which the channel request fails. -/
def exRunReqFail : AieRC × List Ev := XAie_SyncTimer stdDefs (exDev 1) exEnvReqFail []

/-- A run on the one-column device in which every disarming call fails. -/
def exRunDisarmFail : AieRC × List Ev :=
  XAie_SyncTimer stdDefs (exDev 1) exEnvDisarmFail []

/-! ## Example data for the timer and lock operations -/

/-- Event module of an example device whose table has no hardware event for the
event id `base + 5` (entry 255, the value of `XAIE_EVENT_INVALID`). -/
def exEvntModGap (base : Nat) : XAie_EvntMod :=
  ⟨base, base + 127, fun e => if e = 5 then 255 else e, base + 107⟩

/-- One-column example device as `exDev 1`, with the event tables of
`exEvntModGap`. -/
def exDevGap : XAie_DevInst :=
  ⟨1, 1, 0x20000000000,
   fun t => ⟨if t = 0 then 2 else 1, fun _ => exTimerMod,
     fun m => if t = 0 then (if m = 0 then exEvntModGap 1000 else exEvntModGap 0)
       else exEvntModGap 2000⟩,
   fun l => if 1 ≤ l.Col ∨ 1 < l.Row then 4 else if l.Row = 0 then 2 else 0,
   fun l m => if l.Row = 0 then (if m = 2 then XAIE_OK else XAIE_INVALID_ARGS)
     else (if m < 2 then XAIE_OK else XAIE_INVALID_ARGS),
   fun r c => (c <<< 23) ||| (r <<< 18),
   fun t => if t = 3 then 0 else 1⟩

/-- One-column example device that has not been initialised (`IsReady = 0`). -/
def exDevNotReady : XAie_DevInst :=
  ⟨0, 1, 0x20000000000, (exDev 1).DevMod, (exDev 1).GetTileTypefromLoc,
   (exDev 1).CheckModule, (exDev 1).GetTileAddr, (exDev 1).GetNumRows⟩

/-- Environment in which every call succeeds and returns no data. -/
def exEnvPlain : Env := exEnv [] (fun _ _ _ => false)

/-- Environment in which the write of the trigger-low register (line 105)
fails. -/
def exEnvLowFail : Env := exEnv [] (fun _ l _ => l == 105)

/-- Environment in which the write of the trigger-high register (line 113)
fails. -/
def exEnvHighFail : Env := exEnv [] (fun _ l _ => l == 113)

/-- Environment in which the second register read of `XAie_ReadTimer` (line 334)
fails. -/
def exEnvHighReadFail : Env := exEnv [] (fun _ l _ => l == 334)

/-- Lock module of the example device. -/
def exLockMod : XAie_LockMod := ⟨0xC0000, 0x10, 0x400⟩

/-- Environment in which `XAieGbl_MaskPoll` returns `v`. -/
def pollEnv (v : Nat) : Env := fun _ _ _ => ⟨XAIE_OK, v, []⟩

/-! ## Vocabulary for the mask-write and for the polls of `XAie_WaitCycles` -/

/-- Modelled from the spec: `XAie_MaskWrite32(addr, Mask, Value)` is a
"read-modify-write (mask write)" of a 32-bit register; the register back end is
not part of the sources.  With `old` the content before the call, the content
after it is `(old & ~Mask) | (Value & Mask)`. -/
def maskWrite32Result (old Mask Value : Nat) : Nat :=
  (old &&& (Mask ^^^ (2 ^ 32 - 1))) ||| (Value &&& Mask)

/-- The trace after `k` complete polls (a read at line 423 followed by a read at
line 430, each answered by the environment) appended to `tr0`. -/
def pollTrace (E : Env) (AddrLow AddrHigh : Nat) (tr0 : List Ev) : Nat → List Ev
  | 0 => tr0
  | k + 1 =>
    (issue E (issue E (pollTrace E AddrLow AddrHigh tr0 k) 423 (.Read32 AddrLow)).2 430
      (.Read32 AddrHigh)).2

/-- The environment's answer to the low-word read of poll number `k + 1`, after
`k` complete polls. -/
def pollLow (E : Env) (AddrLow AddrHigh : Nat) (tr0 : List Ev) (k : Nat) : Resp :=
  (issue E (pollTrace E AddrLow AddrHigh tr0 k) 423 (.Read32 AddrLow)).1

/-- The environment's answer to the high-word read of poll number `k + 1`. -/
def pollHigh (E : Env) (AddrLow AddrHigh : Nat) (tr0 : List Ev) (k : Nat) : Resp :=
  (issue E (issue E (pollTrace E AddrLow AddrHigh tr0 k) 423 (.Read32 AddrLow)).2 430
    (.Read32 AddrHigh)).1

/-- The 64-bit timer value composed from the two words read by poll number
`k + 1`. -/
def pollVal (E : Env) (AddrLow AddrHigh : Nat) (tr0 : List Ev) (k : Nat) : Nat :=
  (((pollHigh E AddrLow AddrHigh tr0 k).val % 2 ^ 32) <<< XAIE_TIMER_32BIT_SHIFT) % 2 ^ 64 |||
    ((pollLow E AddrLow AddrHigh tr0 k).val % 2 ^ 32)

/-- Environment for the timer as `timerEnv`, except that the register read number
`bad` (counted from 0) fails with `XAIE_ERR`. -/
def timerEnvFail (vals : List Nat) (bad : Nat) : Env :=
  fun tr l c => ⟨if tr.length = bad then XAIE_ERR else XAIE_OK, (timerEnv vals tr l c).val, []⟩

/-- Environment in which every call succeeds; channel 3 is granted. -/
def exEnvOk3 : Env := exEnv (exRscs 1 3) (fun _ _ _ => false)

/-- A successful run on the one-column example device with channel 3 granted. -/
def exRunOk3 : AieRC × List Ev := XAie_SyncTimer stdDefs (exDev 1) exEnvOk3 []

/-- Environment in which every call succeeds; channel 256 is granted. -/
def exEnvOk256 : Env := exEnv (exRscs 1 256) (fun _ _ _ => false)

/-- A successful run on the one-column example device with channel 256 granted. -/
def exRunOk256 : AieRC × List Ev := XAie_SyncTimer stdDefs (exDev 1) exEnvOk256 []

/-! # Theorems -/

/-! ## Lemmas -/

theorem callsAt_append (l : Nat) (a b : List Ev) :
    callsAt l (a ++ b) = callsAt l a ++ callsAt l b := by
  simp [callsAt]

theorem callsAt_nil (l : Nat) : callsAt l [] = [] := rfl

theorem callsAt_cons (l : Nat) (e : Ev) (s : List Ev) :
    callsAt l (e :: s) = if e.line = l then e.call :: callsAt l s else callsAt l s := by
  by_cases h : e.line = l <;> simp [callsAt, h]

theorem callsAt_eq_nil_of {l : Nat} {s : List Ev} (h : ∀ e ∈ s, e.line ≠ l) :
    callsAt l s = [] := by
  simp only [callsAt, List.map_eq_nil_iff, List.filter_eq_nil_iff]
  intro e he
  simpa using h e he

theorem callsAt_eq_map_of {l : Nat} {s : List Ev} (h : ∀ e ∈ s, e.line = l) :
    callsAt l s = s.map Ev.call := by
  have : s.filter (fun e => e.line = l) = s := by
    rw [List.filter_eq_self]
    intro e he
    simpa using h e he
  simp [callsAt, this]

theorem mem_call_of_map_eq {α : Type} {s : List Ev} {l : List α} {f : α → Call}
    (h : s.map Ev.call = l.map f) {e : Ev} (he : e ∈ s) : ∃ a ∈ l, e.call = f a := by
  have : e.call ∈ s.map Ev.call := List.mem_map_of_mem _ he
  rw [h] at this
  obtain ⟨a, ha, hfa⟩ := List.mem_map.1 this
  exact ⟨a, ha, hfa.symm⟩

theorem issue_fst (E : Env) (tr : List Ev) (l : Nat) (c : Call) :
    (issue E tr l c).1 = E tr l c := rfl

theorem issue_snd (E : Env) (tr : List Ev) (l : Nat) (c : Call) :
    (issue E tr l c).2 = tr ++ [⟨l, c, E tr l c⟩] := rfl

theorem setTimerResetEvent_trace (K : Defs) (D : XAie_DevInst) (E : Env)
    (Loc : XAie_LocType) (Module Event Reset : Nat) (tr : List Ev) :
    ∃ ws, (XAie_SetTimerResetEvent K D E Loc Module Event Reset tr).2 = tr ++ ws ∧
      IsWriteSeg ws := by
  unfold XAie_SetTimerResetEvent
  simp only [issue_fst, issue_snd]
  split_ifs
  all_goals first
    | (refine ⟨[], ?_, ?_⟩ <;> simp [IsWriteSeg] <;> done)
    | (refine ⟨[_], rfl, ?_⟩; simp [IsWriteSeg, Call.isRegister])

theorem callSetTimerResetEvent_trace (K : Defs) (D : XAie_DevInst) (E : Env) (line : Nat)
    (Loc : XAie_LocType) (Module Event Reset : Nat) (tr : List Ev) :
    ∃ ws r, (callSetTimerResetEvent K D E line Loc Module Event Reset tr).2 =
        tr ++ ws ++ [⟨line, .SetTimerResetEvent Loc Module Event Reset, r⟩] ∧
      r.rc = (callSetTimerResetEvent K D E line Loc Module Event Reset tr).1 ∧
      IsWriteSeg ws := by
  obtain ⟨ws, h, hw⟩ := setTimerResetEvent_trace K D E Loc Module Event Reset tr
  exact ⟨ws, ⟨_, 0, []⟩, by simp [callSetTimerResetEvent, h], rfl, hw⟩

theorem clearShimLoop_trace (K : Defs) (E : Env) (ch : Nat) :
    ∀ (n i : Nat) (tr : List Ev),
      ∃ s, clearShimLoop K E ch n i tr = tr ++ s ∧ IsClrSeg K ch i n s := by
  intro n
  induction n with
  | zero => intro i tr; exact ⟨[], by simp [clearShimLoop], by simp [IsClrSeg]⟩
  | succ n ih =>
    intro i tr
    obtain ⟨s, hs, hc, hl⟩ := ih (i + 1) (issue E tr 496 (clrCall K ch i)).2
    refine ⟨⟨496, clrCall K ch i, E tr 496 (clrCall K ch i)⟩ :: s, ?_, ?_, ?_⟩
    · simp only [clearShimLoop]
      simp only [clrCall] at hs
      rw [hs]; simp [issue, clrCall]
    · simp [List.range'_succ, hc]
    · intro e he
      rcases List.mem_cons.1 he with h | h
      · rw [h]
      · exact hl e h

theorem clearTimerLoop_trace (K : Defs) (D : XAie_DevInst) (E : Env)
    (rscs : List XAie_UserRsc) :
    ∀ (n k : Nat) (tr : List Ev),
      ∃ s, clearTimerLoop K D E rscs n k tr = tr ++ s ∧ IsDisSeg K D rscs k n s := by
  intro n
  induction n with
  | zero => intro k tr; exact ⟨[], by simp [clearTimerLoop], by simp [IsDisSeg, callsAt]⟩
  | succ n ih =>
    intro k tr
    obtain ⟨ws, r, hw, -, hws⟩ := callSetTimerResetEvent_trace K D E 531
      (rscs.getD k default).Loc (rscs.getD k default).Mod
      (selEvntMod K D (D.GetTileTypefromLoc (rscs.getD k default).Loc)
        (rscs.getD k default).Mod).EventMin K.XAIE_RESETDISABLE tr
    obtain ⟨s, hs, hc, hl⟩ := ih (k + 1) (callSetTimerResetEvent K D E 531
      (rscs.getD k default).Loc (rscs.getD k default).Mod
      (selEvntMod K D (D.GetTileTypefromLoc (rscs.getD k default).Loc)
        (rscs.getD k default).Mod).EventMin K.XAIE_RESETDISABLE tr).2
    refine ⟨ws ++ [⟨531, disCall K D rscs k, r⟩] ++ s, ?_, ?_, ?_⟩
    · simp only [clearTimerLoop]
      rw [hs, hw]; simp [disCall]
    · have h270 : callsAt 531 ws = [] := callsAt_eq_nil_of (fun e he => by
        have := (hws e he).1; omega)
      simp [callsAt_append, callsAt_cons, callsAt_nil, h270, hc, List.range'_succ]
    · intro e he
      simp only [List.mem_append, List.mem_singleton] at he
      rcases he with (h | h) | h
      · exact Or.inr (hws e h)
      · subst h; exact Or.inl ⟨rfl, by simp [disCall, Call.isSetTimerResetEvent]⟩
      · exact hl e h

theorem clearTimerConfig_trace (K : Defs) (D : XAie_DevInst) (E : Env) (Index : Nat)
    (rscs : List XAie_UserRsc) (tr : List Ev) (h : Index < 2 ^ 32) :
    ∃ s, _XAie_ClearTimerConfig K D E Index rscs tr = tr ++ s ∧
      IsDisSeg K D rscs 0 Index s := by
  unfold _XAie_ClearTimerConfig
  rw [Nat.mod_eq_of_lt h]
  exact clearTimerLoop_trace K D E rscs Index 0 tr

theorem clearShimBroadcast_trace (K : Defs) (E : Env) (a b ch : Nat) (tr : List Ev) :
    ∃ s, _XAie_ClearShimBroadcast K E a b ch tr = tr ++ s ∧
      IsClrSeg K (ch % 2 ^ 32) (a % 2 ^ 8) (b % 2 ^ 8 - a % 2 ^ 8) s :=
  clearShimLoop_trace K E (ch % 2 ^ 32) (b % 2 ^ 8 - a % 2 ^ 8) (a % 2 ^ 8) tr

theorem IsArmSeg.arm_cons {K : Defs} {D : XAie_DevInst} {rscs : List XAie_UserRsc}
    {ch j n : Nat} {ws arms : List Ev} {r : Resp} (hws : IsWriteSeg ws)
    (hr : r.rc = XAIE_OK) (h : IsArmSeg K D rscs ch (j + 1) n arms) :
    IsArmSeg K D rscs ch j (n + 1) (ws ++ [⟨597, armCall K D rscs ch j, r⟩] ++ arms) := by
  obtain ⟨hc, hl⟩ := h
  constructor
  · have h270 : callsAt 597 ws = [] := callsAt_eq_nil_of (fun e he => by
      have := (hws e he).1; omega)
    simp [callsAt_append, callsAt_cons, callsAt_nil, h270, hc, List.range'_succ]
  · intro e he
    simp only [List.mem_append, List.mem_singleton] at he
    rcases he with (h | h) | h
    · exact Or.inr (hws e h)
    · subst h; exact Or.inl ⟨rfl, hr, by simp [armCall, Call.isSetTimerResetEvent]⟩
    · exact hl e h

theorem IsArmSeg.arm_nil (K : Defs) (D : XAie_DevInst) (rscs : List XAie_UserRsc)
    (ch j : Nat) : IsArmSeg K D rscs ch j 0 [] := by
  simp [IsArmSeg, callsAt]

theorem IsCfgSeg.cfg_cons {K : Defs} {ch ev i n : Nat} {cfgs : List Ev} {r : Resp}
    (hr : r.rc = XAIE_OK) (h : IsCfgSeg K ch ev (i + 1) n cfgs) :
    IsCfgSeg K ch ev i (n + 1) (⟨583, cfgCall K ch ev i, r⟩ :: cfgs) := by
  obtain ⟨hc, hl⟩ := h
  constructor
  · simp [hc, List.range'_succ]
  · intro e he
    rcases List.mem_cons.1 he with h | h
    · subst h; exact ⟨rfl, hr⟩
    · exact hl e h

theorem IsCfgSeg.cfg_nil (K : Defs) (ch ev i : Nat) : IsCfgSeg K ch ev i 0 [] := by
  simp [IsCfgSeg]

theorem syncTrigger_shape (K : Defs) (D : XAie_DevInst) (E : Env)
    (rscs : List XAie_UserRsc) (U ch ev : Nat) (hU : U < 2 ^ 32) (tr : List Ev)
    (rc : AieRC) (tr' : List Ev)
    (h : syncTrigger K D E rscs U ch ev tr = (rc, tr')) :
    ∃ t, tr' = tr ++ t ∧ TrigShape K D rscs U ch ev rc t := by
  unfold syncTrigger at h
  simp only [issue_fst, issue_snd] at h
  generalize hg : E tr 610 (.EventGenerate (XAie_TileLoc 0 0) K.XAIE_PL_MOD ev) = g at h
  by_cases h1 : g.rc = XAIE_OK
  · obtain ⟨dis, hd, hdis⟩ := clearTimerConfig_trace K D E U rscs
      (tr ++ [⟨610, .EventGenerate (XAie_TileLoc 0 0) K.XAIE_PL_MOD ev, g⟩]) hU
    obtain ⟨clr, hc, hclr⟩ := clearShimBroadcast_trace K E D.NumCols ch K.XAIE_EVENT_NONE_PL
      (tr ++ [⟨610, .EventGenerate (XAie_TileLoc 0 0) K.XAIE_PL_MOD ev, g⟩] ++ dis)
    simp only [h1, ne_eq, not_true_eq_false, if_false, hd, hc] at h
    generalize hrl : E (tr ++ [⟨610, .EventGenerate (XAie_TileLoc 0 0) K.XAIE_PL_MOD ev, g⟩]
      ++ dis ++ clr) 624 (.ReleaseBroadcastChannel U rscs) = rl at h
    by_cases h2 : rl.rc = XAIE_OK
    · simp only [h2, ne_eq, not_true_eq_false, if_false, Prod.mk.injEq] at h
      obtain ⟨h3, h4⟩ := h
      subst h3 h4
      have := @TrigShape.released K D rscs U ch ev ⟨610, .EventGenerate (XAie_TileLoc 0 0) K.XAIE_PL_MOD ev, g⟩
        ⟨624, .ReleaseBroadcastChannel U rscs, rl⟩ dis clr
        [⟨630, .free, E (tr ++ [⟨610, .EventGenerate (XAie_TileLoc 0 0) K.XAIE_PL_MOD ev, g⟩]
          ++ dis ++ clr ++ [⟨624, .ReleaseBroadcastChannel U rscs, rl⟩]) 630 .free⟩]
        rfl rfl h1 hdis hclr rfl rfl (by simp)
      simp only [Ev.rc, h2] at this
      exact ⟨_, by simp only [List.append_assoc], this⟩
    · simp only [h2, ne_eq, not_false_eq_true, if_true, Prod.mk.injEq] at h
      obtain ⟨h3, h4⟩ := h
      subst h3 h4
      have := @TrigShape.released K D rscs U ch ev ⟨610, .EventGenerate (XAie_TileLoc 0 0) K.XAIE_PL_MOD ev, g⟩
        ⟨624, .ReleaseBroadcastChannel U rscs, rl⟩ dis clr [] rfl rfl h1 hdis hclr rfl rfl
        (by simp)
      exact ⟨_, by simp only [List.append_assoc, List.append_nil], this⟩
  · simp only [h1, ne_eq, not_false_eq_true, if_true, Prod.mk.injEq] at h
    obtain ⟨h3, h4⟩ := h
    subst h3 h4
    exact ⟨_, rfl, TrigShape.fail ⟨610, _, g⟩ rfl rfl h1⟩

theorem armLoop_shape (K : Defs) (D : XAie_DevInst) (E : Env)
    (rscs : List XAie_UserRsc) (U ch ev : Nat) (hU : U < 2 ^ 32) (hch : ch < 2 ^ 32) :
    ∀ (n j : Nat) (tr : List Ev), n + j = U → ∀ (rc : AieRC) (tr' : List Ev),
      armLoop K D E rscs U ch ev n j tr = (rc, tr') →
      ∃ t, tr' = tr ++ t ∧ ArmShape K D rscs U ch ev j rc t := by
  intro n
  induction n with
  | zero =>
    intro j tr hj rc tr' h
    simp only [armLoop] at h
    obtain ⟨t, ht, hsh⟩ := syncTrigger_shape K D E rscs U ch ev hU tr rc tr' h
    refine ⟨[] ++ t, by simpa using ht, ArmShape.done j rc [] t ?_ hsh⟩
    have : U - j = 0 := by omega
    rw [this]; exact IsArmSeg.arm_nil K D rscs ch j
  | succ n ih =>
    intro j tr hj rc tr' h
    simp only [armLoop] at h
    obtain ⟨ws, r, hw, hr, hws⟩ := callSetTimerResetEvent_trace K D E 597
      (rscs.getD j default).Loc (rscs.getD j default).Mod
      (_XAie_GetBroadcastEventfromRscId K D (rscs.getD j default).Loc
        (rscs.getD j default).Mod ch) K.XAIE_RESETDISABLE tr
    rw [hw] at h
    by_cases ha : r.rc = XAIE_OK
    · rw [← hr] at h
      simp only [ha, ne_eq, not_true_eq_false, if_false] at h
      obtain ⟨t, ht, hsh⟩ := ih (j + 1) _ (by omega) rc tr' h
      cases hsh with
      | fail q f arms ws' dis clr hjq hq harm hws' hfl hfc hfr hdis hclr =>
        have h1 : IsArmSeg K D rscs ch j (q - j)
            (ws ++ [⟨597, armCall K D rscs ch j, r⟩] ++ arms) := by
          have : q - j = (q - (j + 1)) + 1 := by omega
          rw [this]; exact IsArmSeg.arm_cons hws ha harm
        have := @ArmShape.fail K D rscs U ch ev j q f _ ws' dis clr (by omega) hq h1 hws' hfl hfc
          hfr hdis hclr
        exact ⟨_, by rw [ht]; simp only [List.append_assoc, armCall], this⟩
      | done =>
        rename_i arms t' harm htr
        have h1 : IsArmSeg K D rscs ch j (U - j)
            (ws ++ [⟨597, armCall K D rscs ch j, r⟩] ++ arms) := by
          have : U - j = (U - (j + 1)) + 1 := by omega
          rw [this]; exact IsArmSeg.arm_cons hws ha harm
        have := ArmShape.done j rc _ t' h1 htr
        exact ⟨_, by rw [ht]; simp only [List.append_assoc, armCall], this⟩
    · rw [← hr] at h
      simp only [ha, ne_eq, not_false_eq_true, if_true] at h
      obtain ⟨dis, hd, hdis⟩ := clearTimerConfig_trace K D E j rscs
        (tr ++ ws ++ [⟨597, armCall K D rscs ch j, r⟩]) (by omega)
      obtain ⟨clr, hc, hclr⟩ := clearShimBroadcast_trace K E 0 D.NumCols ch
        (tr ++ ws ++ [⟨597, armCall K D rscs ch j, r⟩] ++ dis)
      simp only [armCall] at hd hc
      rw [hd, hc] at h
      simp only [Prod.mk.injEq] at h
      obtain ⟨h3, h4⟩ := h
      subst h3 h4
      have hclr' : IsClrSeg K ch 0 (D.NumCols % 2 ^ 8) clr := by
        rw [Nat.mod_eq_of_lt hch] at hclr
        simpa using hclr
      have := @ArmShape.fail K D rscs U ch ev j j ⟨597, armCall K D rscs ch j, r⟩ [] ws dis
        clr (le_refl j) (by omega) (by simpa using IsArmSeg.arm_nil K D rscs ch j) hws rfl rfl
        ha hdis hclr'
      exact ⟨_, by simp only [List.append_assoc, List.nil_append, armCall], this⟩

theorem shimLoop_shape (K : Defs) (D : XAie_DevInst) (E : Env)
    (rscs : List XAie_UserRsc) (U ch ev : Nat) (hU : U < 2 ^ 32) (hch : ch < 2 ^ 32) :
    ∀ (n i : Nat) (tr : List Ev), n + i = D.NumCols → ∀ (rc : AieRC) (tr' : List Ev),
      shimLoop K D E rscs U ch ev n i tr = (rc, tr') →
      ∃ t, tr' = tr ++ t ∧ ShimShape K D rscs U ch ev i rc t := by
  intro n
  induction n with
  | zero =>
    intro i tr hi rc tr' h
    simp only [shimLoop] at h
    obtain ⟨t, ht, hsh⟩ := armLoop_shape K D E rscs U ch ev hU hch U 0 tr rfl rc tr' h
    refine ⟨[] ++ t, by simpa using ht, ShimShape.done i rc [] t ?_ hsh⟩
    have : D.NumCols - i = 0 := by omega
    rw [this]; exact IsCfgSeg.cfg_nil K ch ev i
  | succ n ih =>
    intro i tr hi rc tr' h
    simp only [shimLoop, issue_fst, issue_snd] at h
    generalize hb : E tr 583 (.EventBroadcast (XAie_TileLoc i 0) K.XAIE_PL_MOD ch ev) = b at h
    by_cases hok : b.rc = XAIE_OK
    · simp only [hok, ne_eq, not_true_eq_false, if_false] at h
      obtain ⟨t, ht, hsh⟩ := ih (i + 1) _ (by omega) rc tr' h
      cases hsh with
      | fail k f cfgs clr hik hk hcfg hfl hfc hfr hclr =>
        have h1 : IsCfgSeg K ch ev i (k - i) (⟨583, cfgCall K ch ev i, b⟩ :: cfgs) := by
          have : k - i = (k - (i + 1)) + 1 := by omega
          rw [this]; exact IsCfgSeg.cfg_cons hok hcfg
        have := @ShimShape.fail K D rscs U ch ev i k f _ clr (by omega) hk h1
          hfl hfc hfr hclr
        exact ⟨_, by rw [ht]; simp only [List.append_assoc, List.cons_append, List.nil_append,
          List.singleton_append, cfgCall], this⟩
      | done =>
        rename_i cfgs t' hcfg htr
        have h1 : IsCfgSeg K ch ev i (D.NumCols - i) (⟨583, cfgCall K ch ev i, b⟩ :: cfgs) := by
          have : D.NumCols - i = (D.NumCols - (i + 1)) + 1 := by omega
          rw [this]; exact IsCfgSeg.cfg_cons hok hcfg
        have := ShimShape.done i rc _ t' h1 htr
        exact ⟨_, by rw [ht]; simp only [List.append_assoc, List.cons_append, List.nil_append,
          List.singleton_append, cfgCall], this⟩
    · simp only [hok, ne_eq, not_false_eq_true, if_true] at h
      obtain ⟨clr, hc, hclr⟩ := clearShimBroadcast_trace K E 0 i ch
        (tr ++ [⟨583, .EventBroadcast (XAie_TileLoc i 0) K.XAIE_PL_MOD ch ev, b⟩])
      rw [hc] at h
      simp only [Prod.mk.injEq] at h
      obtain ⟨h3, h4⟩ := h
      subst h3 h4
      have hclr' : IsClrSeg K ch 0 (i % 2 ^ 8) clr := by
        rw [Nat.mod_eq_of_lt hch] at hclr
        simpa using hclr
      have := @ShimShape.fail K D rscs U ch ev i i
        ⟨583, cfgCall K ch ev i, b⟩ [] clr (le_refl i) (by omega)
        (by simpa using IsCfgSeg.cfg_nil K ch ev i) rfl rfl hok hclr'
      exact ⟨_, by simp only [List.append_assoc, List.nil_append, cfgCall], this⟩

theorem sync_shape (K : Defs) (D : XAie_DevInst) (E : Env) (rc : AieRC) (tr : List Ev)
    (h : XAie_SyncTimer K D E [] = (rc, tr)) : SyncShape K D rc tr := by
  unfold XAie_SyncTimer at h
  simp only [issue_fst, issue_snd, List.nil_append] at h
  generalize hm : E [] 563 (.malloc (sizeLoop K D K.XAIEGBL_TILE_TYPE_MAX 0 0)) = m at h
  by_cases h0 : m.val = 0
  · simp only [h0, if_true, Prod.mk.injEq] at h
    obtain ⟨h3, h4⟩ := h
    subst h3 h4
    exact SyncShape.mallocFail ⟨563, _, m⟩ rfl rfl h0
  · simp only [h0, if_false] at h
    generalize hq : E [⟨563, .malloc (sizeLoop K D K.XAIEGBL_TILE_TYPE_MAX 0 0), m⟩] 570
      (.RequestBroadcastChannel (sizeLoop K D K.XAIEGBL_TILE_TYPE_MAX 0 0) 1) = rq at h
    by_cases h1 : rq.rc = XAIE_OK
    · simp only [h1, ne_eq, not_true_eq_false, if_false] at h
      obtain ⟨t, ht, hsh⟩ := shimLoop_shape K D E rq.rscs (rq.val % 2 ^ 32)
        ((rq.rscs.getD 0 default).RscId % 2 ^ 32)
        (_XAie_GetBroadcastEventfromRscId K D (XAie_TileLoc 0 0) K.XAIE_PL_MOD
          ((rq.rscs.getD 0 default).RscId % 2 ^ 32))
        (Nat.mod_lt _ (by norm_num)) (Nat.mod_lt _ (by norm_num)) D.NumCols 0 _ rfl rc tr h
      subst ht
      exact SyncShape.started ⟨563, _, m⟩ ⟨570, _, rq⟩ rc t rfl rfl rfl rfl h1 hsh
    · simp only [h1, ne_eq, not_false_eq_true, if_true, Prod.mk.injEq] at h
      obtain ⟨h3, h4⟩ := h
      subst h3 h4
      exact SyncShape.requestFail ⟨563, _, m⟩ ⟨570, _, rq⟩ rfl rfl rfl rfl h1

theorem IsCfgSeg.cfg_isBroadcast {K : Defs} {ch ev i n : Nat} {s : List Ev}
    (h : IsCfgSeg K ch ev i n s) {e : Ev} (he : e ∈ s) : e.call.isEventBroadcast = true := by
  obtain ⟨a, -, ha⟩ := mem_call_of_map_eq h.1 he
  rw [ha]; rfl

theorem IsClrSeg.clr_isBroadcast {K : Defs} {ch i n : Nat} {s : List Ev}
    (h : IsClrSeg K ch i n s) {e : Ev} (he : e ∈ s) : e.call.isEventBroadcast = true := by
  obtain ⟨a, -, ha⟩ := mem_call_of_map_eq h.1 he
  rw [ha]; rfl

theorem IsCfgSeg.cfg_callsAt_583 {K : Defs} {ch ev i n : Nat} {s : List Ev}
    (h : IsCfgSeg K ch ev i n s) : callsAt 583 s = (List.range' i n).map (cfgCall K ch ev) := by
  rw [callsAt_eq_map_of (fun e he => (h.2 e he).1), h.1]

theorem IsCfgSeg.cfg_callsAt_ne {K : Defs} {ch ev i n : Nat} {s : List Ev}
    (h : IsCfgSeg K ch ev i n s) {l : Nat} (hl : l ≠ 583) : callsAt l s = [] :=
  callsAt_eq_nil_of (fun e he => by rw [(h.2 e he).1]; exact fun h' => hl h'.symm)

theorem IsClrSeg.clr_callsAt_496 {K : Defs} {ch i n : Nat} {s : List Ev}
    (h : IsClrSeg K ch i n s) : callsAt 496 s = (List.range' i n).map (clrCall K ch) := by
  rw [callsAt_eq_map_of h.2, h.1]

theorem IsClrSeg.clr_callsAt_ne {K : Defs} {ch i n : Nat} {s : List Ev}
    (h : IsClrSeg K ch i n s) {l : Nat} (hl : l ≠ 496) : callsAt l s = [] :=
  callsAt_eq_nil_of (fun e he => by rw [h.2 e he]; exact fun h' => hl h'.symm)

theorem TrigShape.trig_lines {K : Defs} {D : XAie_DevInst} {rscs : List XAie_UserRsc}
    {U ch ev : Nat} {rc : AieRC} {t : List Ev} (h : TrigShape K D rscs U ch ev rc t) :
    ∀ e ∈ t, e.line = 610 ∨ e.line = 531 ∨ e.line = 270 ∨ e.line = 496 ∨ e.line = 624 ∨
      e.line = 630 := by
  intro e he
  cases h with
  | fail g h1 h2 h3 =>
    simp only [List.mem_singleton] at he
    subst he; exact Or.inl h1
  | released g rl dis clr fin h1 h2 h3 hdis hclr h4 h5 hfin =>
    simp only [List.mem_append, List.mem_singleton] at he
    rcases he with (((h | h) | h) | h) | h
    · subst h; exact Or.inl h1
    · rcases hdis.2 e h with h' | h'
      · exact Or.inr (Or.inl h'.1)
      · exact Or.inr (Or.inr (Or.inl h'.1))
    · exact Or.inr (Or.inr (Or.inr (Or.inl (hclr.2 e h))))
    · subst h; exact Or.inr (Or.inr (Or.inr (Or.inr (Or.inl h4))))
    · exact Or.inr (Or.inr (Or.inr (Or.inr (Or.inr (hfin e h).1))))

theorem ArmShape.armsh_lines {K : Defs} {D : XAie_DevInst} {rscs : List XAie_UserRsc}
    {U ch ev j : Nat} {rc : AieRC} {t : List Ev} (h : ArmShape K D rscs U ch ev j rc t) :
    ∀ e ∈ t, e.line = 597 ∨ e.line = 610 ∨ e.line = 531 ∨ e.line = 270 ∨ e.line = 496 ∨
      e.line = 624 ∨ e.line = 630 := by
  intro e he
  cases h with
  | fail q f arms ws dis clr hjq hq harm hws hfl hfc hfr hdis hclr =>
    simp only [List.mem_append, List.mem_singleton] at he
    rcases he with (((h | h) | h) | h) | h
    · rcases harm.2 e h with h' | h'
      · exact Or.inl h'.1
      · simp [h'.1]
    · simp [(hws e h).1]
    · subst h; exact Or.inl hfl
    · rcases hdis.2 e h with h' | h'
      · simp [h'.1]
      · simp [h'.1]
    · simp [hclr.2 e h]
  | done _ arms t' harm htr =>
    simp only [List.mem_append] at he
    rcases he with h | h
    · rcases harm.2 e h with h' | h'
      · exact Or.inl h'.1
      · simp [h'.1]
    · exact Or.inr (htr.trig_lines e h)

theorem tagged_of_broadcast {e : Ev} (hc : e.call.isEventBroadcast = true)
    (hl : e.line = 583 ∨ e.line = 496) : e.tagged = true := by
  cases e with
  | mk l c r =>
    cases c <;> simp_all [Ev.tagged, Call.isEventBroadcast]

theorem tagged_of_set {e : Ev} (hc : e.call.isSetTimerResetEvent = true)
    (hl : e.line = 597 ∨ e.line = 531) : e.tagged = true := by
  cases e with
  | mk l c r =>
    cases c <;> simp_all [Ev.tagged, Call.isSetTimerResetEvent]

theorem tagged_of_register {e : Ev} (hc : e.call.isRegister = true)
    (hl : e.line = 270) : e.tagged = true := by
  cases e with
  | mk l c r =>
    cases c <;> simp_all [Ev.tagged, Call.isRegister]

theorem IsCfgSeg.cfg_tagged {K : Defs} {ch ev i n : Nat} {s : List Ev}
    (h : IsCfgSeg K ch ev i n s) : ∀ e ∈ s, e.tagged = true :=
  fun e he => tagged_of_broadcast (h.cfg_isBroadcast he) (Or.inl (h.2 e he).1)

theorem IsClrSeg.clr_tagged {K : Defs} {ch i n : Nat} {s : List Ev}
    (h : IsClrSeg K ch i n s) : ∀ e ∈ s, e.tagged = true :=
  fun e he => tagged_of_broadcast (h.clr_isBroadcast he) (Or.inr (h.2 e he))

theorem IsArmSeg.arm_tagged {K : Defs} {D : XAie_DevInst} {rscs : List XAie_UserRsc}
    {ch j n : Nat} {s : List Ev} (h : IsArmSeg K D rscs ch j n s) :
    ∀ e ∈ s, e.tagged = true := by
  intro e he
  rcases h.2 e he with h' | h'
  · exact tagged_of_set h'.2.2 (Or.inl h'.1)
  · exact tagged_of_register h'.2 h'.1

theorem IsDisSeg.dis_tagged {K : Defs} {D : XAie_DevInst} {rscs : List XAie_UserRsc}
    {k n : Nat} {s : List Ev} (h : IsDisSeg K D rscs k n s) :
    ∀ e ∈ s, e.tagged = true := by
  intro e he
  rcases h.2 e he with h' | h'
  · exact tagged_of_set h'.2 (Or.inr h'.1)
  · exact tagged_of_register h'.2 h'.1

theorem TrigShape.trig_tagged {K : Defs} {D : XAie_DevInst} {rscs : List XAie_UserRsc}
    {U ch ev : Nat} {rc : AieRC} {t : List Ev} (h : TrigShape K D rscs U ch ev rc t) :
    ∀ e ∈ t, e.tagged = true := by
  intro e he
  cases h with
  | fail g h1 h2 h3 =>
    simp only [List.mem_singleton] at he
    subst he; simp [Ev.tagged, h1, h2]
  | released g rl dis clr fin h1 h2 h3 hdis hclr h4 h5 hfin =>
    simp only [List.mem_append, List.mem_singleton] at he
    rcases he with (((h | h) | h) | h) | h
    · subst h; simp [Ev.tagged, h1, h2]
    · exact hdis.dis_tagged e h
    · exact hclr.clr_tagged e h
    · subst h; simp [Ev.tagged, h4, h5]
    · simp [Ev.tagged, (hfin e h).1, (hfin e h).2]

theorem ArmShape.armsh_tagged {K : Defs} {D : XAie_DevInst} {rscs : List XAie_UserRsc}
    {U ch ev j : Nat} {rc : AieRC} {t : List Ev} (h : ArmShape K D rscs U ch ev j rc t) :
    ∀ e ∈ t, e.tagged = true := by
  intro e he
  cases h with
  | fail q f arms ws dis clr hjq hq harm hws hfl hfc hfr hdis hclr =>
    simp only [List.mem_append, List.mem_singleton] at he
    rcases he with (((h | h) | h) | h) | h
    · exact harm.arm_tagged e h
    · exact tagged_of_register (hws e h).2 (hws e h).1
    · subst h; simp [Ev.tagged, hfl, hfc, armCall]
    · exact hdis.dis_tagged e h
    · exact hclr.clr_tagged e h
  | done _ arms t' harm htr =>
    simp only [List.mem_append] at he
    rcases he with h | h
    · exact harm.arm_tagged e h
    · exact htr.trig_tagged e h

theorem ShimShape.shim_tagged {K : Defs} {D : XAie_DevInst} {rscs : List XAie_UserRsc}
    {U ch ev i : Nat} {rc : AieRC} {t : List Ev} (h : ShimShape K D rscs U ch ev i rc t) :
    ∀ e ∈ t, e.tagged = true := by
  intro e he
  cases h with
  | fail k f cfgs clr hik hk hcfg hfl hfc hfr hclr =>
    simp only [List.mem_append, List.mem_singleton] at he
    rcases he with (h | h) | h
    · exact hcfg.cfg_tagged e h
    · subst h; simp [Ev.tagged, hfl, hfc, cfgCall]
    · exact hclr.clr_tagged e h
  | done _ cfgs t' hcfg harm =>
    simp only [List.mem_append] at he
    rcases he with h | h
    · exact hcfg.cfg_tagged e h
    · exact harm.armsh_tagged e h

theorem SyncShape.sync_tagged {K : Defs} {D : XAie_DevInst} {rc : AieRC} {tr : List Ev}
    (h : SyncShape K D rc tr) : ∀ e ∈ tr, e.tagged = true := by
  intro e he
  cases h with
  | mallocFail m h1 h2 h3 =>
    simp only [List.mem_singleton] at he
    subst he; simp [Ev.tagged, h1, h2]
  | requestFail m rq h1 h2 h3 h4 h5 =>
    simp only [List.mem_cons, List.mem_singleton, List.not_mem_nil, or_false] at he
    rcases he with h | h <;> subst h
    · simp [Ev.tagged, h1, h2]
    · simp [Ev.tagged, h3, h4]
  | started m rq _ t h1 h2 h3 h4 h5 hsh =>
    simp only [List.mem_append, List.mem_cons, List.mem_singleton, List.not_mem_nil,
      or_false, or_assoc] at he
    rcases he with h | h | h
    · subst h; simp [Ev.tagged, h1, h2]
    · subst h; simp [Ev.tagged, h3, h4]
    · exact hsh.shim_tagged e h

theorem line_of_generate {e : Ev} (ht : e.tagged = true)
    (hc : e.call.isEventGenerate = true) : e.line = 610 := by
  cases e with
  | mk l c r =>
    cases c <;> simp_all [Ev.tagged, Call.isEventGenerate]

theorem generate_of_line {e : Ev} (ht : e.tagged = true) (hl : e.line = 610) :
    e.call.isEventGenerate = true := by
  cases e with
  | mk l c r =>
    cases c <;> simp_all [Ev.tagged, Call.isEventGenerate]

theorem line_of_set {e : Ev} (ht : e.tagged = true)
    (hc : e.call.isSetTimerResetEvent = true) : e.line = 597 ∨ e.line = 531 := by
  cases e with
  | mk l c r =>
    cases c <;> simp_all [Ev.tagged, Call.isSetTimerResetEvent]

theorem line_of_broadcast {e : Ev} (ht : e.tagged = true)
    (hc : e.call.isEventBroadcast = true) : e.line = 583 ∨ e.line = 496 := by
  cases e with
  | mk l c r =>
    cases c <;> simp_all [Ev.tagged, Call.isEventBroadcast]

theorem line_of_release {e : Ev} (ht : e.tagged = true)
    (hc : e.call.isRelease = true) : e.line = 624 := by
  cases e with
  | mk l c r =>
    cases c <;> simp_all [Ev.tagged, Call.isRelease]

theorem not_set_of_line {e : Ev} (ht : e.tagged = true)
    (hl : e.line ≠ 597 ∧ e.line ≠ 531) : e.call.isSetTimerResetEvent = false := by
  cases e with
  | mk l c r =>
    cases c <;> simp_all [Ev.tagged, Call.isSetTimerResetEvent]

theorem not_generate_of_line {e : Ev} (ht : e.tagged = true)
    (hl : e.line ≠ 610) : e.call.isEventGenerate = false := by
  cases e with
  | mk l c r =>
    cases c <;> simp_all [Ev.tagged, Call.isEventGenerate]

theorem not_broadcast_of_line {e : Ev} (ht : e.tagged = true)
    (hl : e.line ≠ 583 ∧ e.line ≠ 496) : e.call.isEventBroadcast = false := by
  cases e with
  | mk l c r =>
    cases c <;> simp_all [Ev.tagged, Call.isEventBroadcast]

theorem not_release_of_line {e : Ev} (ht : e.tagged = true)
    (hl : e.line ≠ 624) : e.call.isRelease = false := by
  cases e with
  | mk l c r =>
    cases c <;> simp_all [Ev.tagged, Call.isRelease]

theorem IsWriteSeg.wr_callsAt_ne {s : List Ev} (h : IsWriteSeg s) {l : Nat} (hl : l ≠ 270) :
    callsAt l s = [] :=
  callsAt_eq_nil_of (fun e he => by rw [(h e he).1]; exact fun h' => hl h'.symm)

theorem IsDisSeg.dis_callsAt_ne {K : Defs} {D : XAie_DevInst} {rscs : List XAie_UserRsc}
    {k n : Nat} {s : List Ev} (h : IsDisSeg K D rscs k n s) {l : Nat}
    (hl : l ≠ 531 ∧ l ≠ 270) : callsAt l s = [] :=
  callsAt_eq_nil_of (fun e he => by
    rcases h.2 e he with h' | h'
    · rw [h'.1]; exact fun hx => hl.1 hx.symm
    · rw [h'.1]; exact fun hx => hl.2 hx.symm)

theorem IsArmSeg.arm_callsAt_ne {K : Defs} {D : XAie_DevInst} {rscs : List XAie_UserRsc}
    {ch j n : Nat} {s : List Ev} (h : IsArmSeg K D rscs ch j n s) {l : Nat}
    (hl : l ≠ 597 ∧ l ≠ 270) : callsAt l s = [] :=
  callsAt_eq_nil_of (fun e he => by
    rcases h.2 e he with h' | h'
    · rw [h'.1]; exact fun hx => hl.1 hx.symm
    · rw [h'.1]; exact fun hx => hl.2 hx.symm)

theorem Call.not_set_of_register {c : Call} (h : c.isRegister = true) :
    c.isSetTimerResetEvent = false := by
  cases c <;> simp_all [Call.isRegister, Call.isSetTimerResetEvent]

theorem IsDisSeg.dis_set_calls {K : Defs} {D : XAie_DevInst} {rscs : List XAie_UserRsc}
    {k n : Nat} {s : List Ev} (h : IsDisSeg K D rscs k n s) :
    (s.map Ev.call).filter Call.isSetTimerResetEvent =
      (List.range' k n).map (disCall K D rscs) := by
  rw [← h.1, callsAt, List.filter_map]
  congr 1
  apply List.filter_congr
  intro e he
  rcases h.2 e he with h' | h'
  · simp [h'.1, h'.2]
  · simp [h'.1, Call.not_set_of_register h'.2]

theorem IsArmSeg.arm_set_calls {K : Defs} {D : XAie_DevInst} {rscs : List XAie_UserRsc}
    {ch j n : Nat} {s : List Ev} (h : IsArmSeg K D rscs ch j n s) :
    (s.map Ev.call).filter Call.isSetTimerResetEvent =
      (List.range' j n).map (armCall K D rscs ch) := by
  rw [← h.1, callsAt, List.filter_map]
  congr 1
  apply List.filter_congr
  intro e he
  rcases h.2 e he with h' | h'
  · simp [h'.1, h'.2.2]
  · simp [h'.1, Call.not_set_of_register h'.2]

/-- A failed arming call determines the whole run. -/
theorem arm_fail_decomp {K : Defs} {D : XAie_DevInst} {rc : AieRC} {tr : List Ev}
    (hs : SyncShape K D rc tr) {e : Ev} (he : e ∈ tr) (hline : e.line = 597)
    (hrc : e.rc ≠ XAIE_OK) :
    ∃ (m rq : Ev) (cfgs arms ws dis clr : List Ev) (q : Nat),
      tr = [m, rq] ++ cfgs ++ arms ++ ws ++ [e] ++ dis ++ clr ∧ rc = e.rc ∧
      m.line = 563 ∧ rq.line = 570 ∧ rq.rc = XAIE_OK ∧ q < rq.resp.val % 2 ^ 32 ∧
      IsCfgSeg K (chanOf rq) (shimEventOf K D (chanOf rq)) 0 D.NumCols cfgs ∧
      IsArmSeg K D rq.resp.rscs (chanOf rq) 0 q arms ∧ IsWriteSeg ws ∧
      e.call = armCall K D rq.resp.rscs (chanOf rq) q ∧
      IsDisSeg K D rq.resp.rscs 0 q dis ∧
      IsClrSeg K (chanOf rq) 0 (D.NumCols % 2 ^ 8) clr := by
  cases hs with
  | mallocFail m h1 h2 h3 =>
    simp only [List.mem_singleton] at he
    subst he; omega
  | requestFail m rq h1 h2 h3 h4 h5 =>
    simp only [List.mem_cons, List.mem_singleton, List.not_mem_nil, or_false] at he
    rcases he with h | h <;> subst h <;> omega
  | started m rq _ t h1 h2 h3 h4 h5 hsh =>
    cases hsh with
    | fail k' f cfgs clr hik hk hcfg hfl hfc hfr hclr =>
      exfalso
      simp only [List.mem_append, List.mem_cons, List.mem_singleton, List.not_mem_nil,
        or_false, or_assoc] at he
      rcases he with h | h | h | h | h
      · subst h; omega
      · subst h; omega
      · have := (hcfg.2 e h).1; omega
      · subst h; omega
      · have := hclr.2 e h; omega
    | done _ cfgs t' hcfg harm =>
      cases harm with
      | fail q f arms ws dis clr hjq hq harm hws hfl hfc hfr hdis hclr =>
        simp only [List.mem_append, List.mem_cons, List.mem_singleton, List.not_mem_nil,
          or_false, or_assoc] at he
        have hef : e = f := by
          rcases he with h | h | h | h | h | h | h | h
          · subst h; omega
          · subst h; omega
          · have := (hcfg.2 e h).1; omega
          · rcases harm.2 e h with h' | h'
            · exact absurd h'.2.1 hrc
            · have := h'.1; omega
          · have := (hws e h).1; omega
          · exact h
          · rcases hdis.2 e h with h' | h'
            · have := h'.1; omega
            · have := h'.1; omega
          · have := hclr.2 e h; omega
        subst hef
        refine ⟨m, rq, cfgs, arms, ws, dis, clr, q, ?_, rfl, h1, h3, h5, hq, ?_, ?_, hws, hfc,
          hdis, hclr⟩
        · simp only [List.append_assoc]
        · simpa using hcfg
        · simpa using harm
      | done _ arms t2 harm htr =>
        exfalso
        simp only [List.mem_append, List.mem_cons, List.mem_singleton, List.not_mem_nil,
          or_false, or_assoc] at he
        rcases he with h | h | h | h | h
        · subst h; omega
        · subst h; omega
        · have := (hcfg.2 e h).1; omega
        · rcases harm.2 e h with h' | h'
          · exact absurd h'.2.1 hrc
          · have := h'.1; omega
        · have := htr.trig_lines e h; omega

theorem ShimShape.shim_lines {K : Defs} {D : XAie_DevInst} {rscs : List XAie_UserRsc}
    {U ch ev i : Nat} {rc : AieRC} {t : List Ev} (h : ShimShape K D rscs U ch ev i rc t) :
    ∀ e ∈ t, e.line = 583 ∨ e.line = 597 ∨ e.line = 610 ∨ e.line = 531 ∨ e.line = 270 ∨
      e.line = 496 ∨ e.line = 624 ∨ e.line = 630 := by
  intro e he
  cases h with
  | fail k f cfgs clr hik hk hcfg hfl hfc hfr hclr =>
    simp only [List.mem_append, List.mem_singleton] at he
    rcases he with (h | h) | h
    · exact Or.inl (hcfg.2 e h).1
    · subst h; exact Or.inl hfl
    · simp [hclr.2 e h]
  | done _ cfgs t' hcfg harm =>
    simp only [List.mem_append] at he
    rcases he with h | h
    · exact Or.inl (hcfg.2 e h).1
    · exact Or.inr (harm.armsh_lines e h)

theorem Call.not_set_of_broadcast {c : Call} (h : c.isEventBroadcast = true) :
    c.isSetTimerResetEvent = false := by
  cases c <;> simp_all [Call.isEventBroadcast, Call.isSetTimerResetEvent]

theorem IsClrSeg.clr_set_calls {K : Defs} {ch i n : Nat} {s : List Ev}
    (h : IsClrSeg K ch i n s) :
    (s.map Ev.call).filter Call.isSetTimerResetEvent = [] := by
  rw [List.filter_eq_nil_iff]
  intro c hc
  obtain ⟨e, he, hce⟩ := List.mem_map.1 hc
  rw [← hce, Call.not_set_of_broadcast (h.clr_isBroadcast he)]
  simp

/-- A trigger call determines the run up to the trigger and the shape of what
follows. -/
theorem trigger_decomp {K : Defs} {D : XAie_DevInst} {rc : AieRC} {tr : List Ev}
    (hs : SyncShape K D rc tr) {g : Ev} (hg : g ∈ tr) (hline : g.line = 610) :
    ∃ (m rq : Ev) (cfgs arms t : List Ev),
      tr = [m, rq] ++ cfgs ++ arms ++ [g] ++ t ∧
      m.line = 563 ∧ rq.line = 570 ∧ rq.rc = XAIE_OK ∧
      IsCfgSeg K (chanOf rq) (shimEventOf K D (chanOf rq)) 0 D.NumCols cfgs ∧
      IsArmSeg K D rq.resp.rscs (chanOf rq) 0 (rq.resp.val % 2 ^ 32) arms ∧
      g.call = .EventGenerate (XAie_TileLoc 0 0) K.XAIE_PL_MOD (shimEventOf K D (chanOf rq)) ∧
      ((g.rc ≠ XAIE_OK ∧ t = [] ∧ rc = g.rc) ∨
       (g.rc = XAIE_OK ∧ ∃ (rl : Ev) (dis clr fin : List Ev),
          t = dis ++ clr ++ [rl] ++ fin ∧
          IsDisSeg K D rq.resp.rscs 0 (rq.resp.val % 2 ^ 32) dis ∧
          IsClrSeg K (K.XAIE_EVENT_NONE_PL % 2 ^ 32) (D.NumCols % 2 ^ 8)
            (chanOf rq % 2 ^ 8 - D.NumCols % 2 ^ 8) clr ∧
          rl.line = 624 ∧
          rl.call = .ReleaseBroadcastChannel (rq.resp.val % 2 ^ 32) rq.resp.rscs ∧
          (∀ e ∈ fin, e.line = 630 ∧ e.call = .free) ∧ rc = rl.rc)) := by
  cases hs with
  | mallocFail m h1 h2 h3 =>
    simp only [List.mem_singleton] at hg
    subst hg; omega
  | requestFail m rq h1 h2 h3 h4 h5 =>
    simp only [List.mem_cons, List.mem_singleton, List.not_mem_nil, or_false] at hg
    rcases hg with h | h <;> subst h <;> omega
  | started m rq _ t h1 h2 h3 h4 h5 hsh =>
    cases hsh with
    | fail k' f cfgs clr hik hk hcfg hfl hfc hfr hclr =>
      exfalso
      simp only [List.mem_append, List.mem_cons, List.mem_singleton, List.not_mem_nil,
        or_false, or_assoc] at hg
      rcases hg with h | h | h | h | h
      · subst h; omega
      · subst h; omega
      · have := (hcfg.2 g h).1; omega
      · subst h; omega
      · have := hclr.2 g h; omega
    | done _ cfgs t' hcfg harm =>
      cases harm with
      | fail q f arms ws dis clr hjq hq harm hws hfl hfc hfr hdis hclr =>
        exfalso
        simp only [List.mem_append, List.mem_cons, List.mem_singleton, List.not_mem_nil,
          or_false, or_assoc] at hg
        rcases hg with h | h | h | h | h | h | h | h
        · subst h; omega
        · subst h; omega
        · have := (hcfg.2 g h).1; omega
        · rcases harm.2 g h with h' | h'
          · have := h'.1; omega
          · have := h'.1; omega
        · have := (hws g h).1; omega
        · subst h; omega
        · rcases hdis.2 g h with h' | h'
          · have := h'.1; omega
          · have := h'.1; omega
        · have := hclr.2 g h; omega
      | done _ arms t2 harm htr =>
        have hpre : ∀ x, x = m ∨ x = rq ∨ x ∈ cfgs ∨ x ∈ arms → x.line ≠ 610 := by
          intro x hx
          rcases hx with h | h | h | h
          · subst h; omega
          · subst h; omega
          · have := (hcfg.2 x h).1; omega
          · rcases harm.2 x h with h' | h'
            · have := h'.1; omega
            · have := h'.1; omega
        have hcfg' : IsCfgSeg K (chanOf rq) (shimEventOf K D (chanOf rq)) 0 D.NumCols cfgs := by
          simpa using hcfg
        have harm' : IsArmSeg K D rq.resp.rscs (chanOf rq) 0 (rq.resp.val % 2 ^ 32) arms := by
          simpa using harm
        cases htr with
        | fail g' hg1 hg2 hg3 =>
          simp only [List.mem_append, List.mem_cons, List.mem_singleton, List.not_mem_nil,
            or_false, or_assoc] at hg
          have hgg : g = g' := by
            rcases hg with h | h | h | h | h
            · exact absurd hline (hpre g (Or.inl h))
            · exact absurd hline (hpre g (Or.inr (Or.inl h)))
            · exact absurd hline (hpre g (Or.inr (Or.inr (Or.inl h))))
            · exact absurd hline (hpre g (Or.inr (Or.inr (Or.inr h))))
            · exact h
          subst hgg
          exact ⟨m, rq, cfgs, arms, [], by simp only [List.append_assoc, List.append_nil],
            h1, h3, h5, hcfg', harm', hg2, Or.inl ⟨hg3, rfl, rfl⟩⟩
        | released g' rl dis clr fin hg1 hg2 hg3 hdis hclr hr1 hr2 hfin =>
          simp only [List.mem_append, List.mem_cons, List.mem_singleton, List.not_mem_nil,
            or_false, or_assoc] at hg
          have hgg : g = g' := by
            rcases hg with h | h | h | h | h | h | h | h | h
            · exact absurd hline (hpre g (Or.inl h))
            · exact absurd hline (hpre g (Or.inr (Or.inl h)))
            · exact absurd hline (hpre g (Or.inr (Or.inr (Or.inl h))))
            · exact absurd hline (hpre g (Or.inr (Or.inr (Or.inr h))))
            · exact h
            · rcases hdis.2 g h with h' | h'
              · have := h'.1; omega
              · have := h'.1; omega
            · have := hclr.2 g h; omega
            · subst h; omega
            · have := (hfin g h).1; omega
          subst hgg
          exact ⟨m, rq, cfgs, arms, dis ++ clr ++ [rl] ++ fin,
            by simp only [List.append_assoc], h1, h3, h5, hcfg', harm', hg2,
            Or.inr ⟨hg3, rl, dis, clr, fin, rfl, hdis, hclr, hr1, hr2, hfin, rfl⟩⟩

theorem sizeLoop_eq (K : Defs) (D : XAie_DevInst) :
    ∀ (n i acc : Nat), acc < 2 ^ 32 →
      sizeLoop K D n i acc =
        (acc + ∑ t ∈ Finset.Ico i (i + n),
          if t = K.XAIEGBL_TILE_TYPE_SHIMNOC then 0
          else (D.DevMod t).NumModules * D.GetNumRows t * D.NumCols) % 2 ^ 32 := by
  intro n
  induction n with
  | zero =>
    intro i acc h
    simp only [sizeLoop, Nat.add_zero, Finset.Ico_self, Finset.sum_empty]
    exact (Nat.mod_eq_of_lt h).symm
  | succ n ih =>
    intro i acc h
    have hlt : i < i + (n + 1) := by omega
    rw [Finset.sum_eq_sum_Ico_succ_bot hlt]
    have hidx : i + (n + 1) = i + 1 + n := by omega
    by_cases hi : i = K.XAIEGBL_TILE_TYPE_SHIMNOC
    · simp only [sizeLoop, hi, if_true, Nat.zero_add]
      rw [ih _ _ h]
      rw [← hi, hidx]
    · simp only [sizeLoop, hi, if_false]
      rw [ih _ _ (Nat.mod_lt _ (by norm_num)), Nat.mod_add_mod, hidx, Nat.add_assoc]

theorem syncSize_eq (K : Defs) (D : XAie_DevInst) :
    syncSize K D =
      (∑ t ∈ (Finset.range K.XAIEGBL_TILE_TYPE_MAX).filter
          (fun t => t ≠ K.XAIEGBL_TILE_TYPE_SHIMNOC),
        (D.DevMod t).NumModules * D.GetNumRows t * D.NumCols) % 2 ^ 32 := by
  rw [syncSize, sizeLoop_eq K D _ _ _ (by norm_num), Finset.sum_filter, Finset.range_eq_Ico]
  simp only [Nat.zero_add, ne_eq, ite_not]

theorem not_request_of_line {e : Ev} (ht : e.tagged = true)
    (hl : e.line ≠ 570) : e.call.isRequest = false := by
  cases e with
  | mk l c r =>
    cases c <;> simp_all [Ev.tagged, Call.isRequest]

theorem filter_calls_eq_nil {p : Call → Bool} {s : List Ev}
    (h : ∀ e ∈ s, p e.call = false) : (s.map Ev.call).filter p = [] := by
  rw [List.filter_eq_nil_iff]
  intro c hc
  obtain ⟨e, he, hce⟩ := List.mem_map.1 hc
  rw [← hce, h e he]
  simp

theorem TrigShape.trig_primary {K : Defs} {D : XAie_DevInst} {rscs : List XAie_UserRsc}
    {U ch ev : Nat} {rc : AieRC} {t : List Ev} (h : TrigShape K D rscs U ch ev rc t)
    {e : Ev} (he : e ∈ t) (hl : e.line = 610 ∨ e.line = 624) (hrc : e.rc ≠ XAIE_OK) :
    rc = e.rc := by
  cases h with
  | fail g h1 h2 h3 =>
    simp only [List.mem_singleton] at he
    subst he; rfl
  | released g rl dis clr fin h1 h2 h3 hdis hclr h4 h5 hfin =>
    simp only [List.mem_append, List.mem_singleton] at he
    rcases he with (((h | h) | h) | h) | h
    · subst h; exact absurd h3 hrc
    · rcases hdis.2 e h with h' | h'
      · have := h'.1; omega
      · have := h'.1; omega
    · have := hclr.2 e h; omega
    · subst h; rfl
    · have := (hfin e h).1; omega

theorem ArmShape.armsh_primary {K : Defs} {D : XAie_DevInst} {rscs : List XAie_UserRsc}
    {U ch ev j : Nat} {rc : AieRC} {t : List Ev} (h : ArmShape K D rscs U ch ev j rc t)
    {e : Ev} (he : e ∈ t) (hl : e.line = 597 ∨ e.line = 610 ∨ e.line = 624)
    (hrc : e.rc ≠ XAIE_OK) : rc = e.rc := by
  cases h with
  | fail q f arms ws dis clr hjq hq harm hws hfl hfc hfr hdis hclr =>
    simp only [List.mem_append, List.mem_singleton] at he
    rcases he with (((h | h) | h) | h) | h
    · rcases harm.2 e h with h' | h'
      · exact absurd h'.2.1 hrc
      · have := h'.1; omega
    · have := (hws e h).1; omega
    · subst h; rfl
    · rcases hdis.2 e h with h' | h'
      · have := h'.1; omega
      · have := h'.1; omega
    · have := hclr.2 e h; omega
  | done _ arms t' harm htr =>
    simp only [List.mem_append] at he
    rcases he with h | h
    · rcases harm.2 e h with h' | h'
      · exact absurd h'.2.1 hrc
      · have := h'.1; omega
    · have := htr.trig_lines e h
      exact htr.trig_primary h (by omega) hrc

theorem ShimShape.shim_primary {K : Defs} {D : XAie_DevInst} {rscs : List XAie_UserRsc}
    {U ch ev i : Nat} {rc : AieRC} {t : List Ev} (h : ShimShape K D rscs U ch ev i rc t)
    {e : Ev} (he : e ∈ t)
    (hl : e.line = 583 ∨ e.line = 597 ∨ e.line = 610 ∨ e.line = 624)
    (hrc : e.rc ≠ XAIE_OK) : rc = e.rc := by
  cases h with
  | fail k f cfgs clr hik hk hcfg hfl hfc hfr hclr =>
    simp only [List.mem_append, List.mem_singleton] at he
    rcases he with (h | h) | h
    · exact absurd (hcfg.2 e h).2 hrc
    · subst h; rfl
    · have := hclr.2 e h; omega
  | done _ cfgs t' hcfg harm =>
    simp only [List.mem_append] at he
    rcases he with h | h
    · exact absurd (hcfg.2 e h).2 hrc
    · have := harm.armsh_lines e h
      exact harm.armsh_primary h (by omega) hrc

theorem waitLoop_ok (E : Env) (AddrLow AddrHigh EndVal : Nat) :
    ∀ (fuel CurVal : Nat) (tr0 tr : List Ev),
      waitLoop E AddrLow AddrHigh EndVal fuel CurVal tr0 = some (XAIE_OK, tr) →
      ∃ evs, tr = tr0 ++ evs ∧
        ((EndVal ≤ CurVal ∧ evs = []) ∨
         (CurVal < EndVal ∧ ∃ last, (timerValues evs).getLast? = some last ∧
            EndVal ≤ last)) := by
  intro fuel
  induction fuel with
  | zero =>
    intro CurVal tr0 tr h
    simp only [waitLoop] at h
    by_cases hc : CurVal < EndVal
    · simp [hc] at h
    · simp only [hc, if_false, Option.some.injEq, Prod.mk.injEq, true_and] at h
      exact ⟨[], by simp [h], Or.inl ⟨by omega, rfl⟩⟩
  | succ fuel ih =>
    intro CurVal tr0 tr h
    simp only [waitLoop, issue_fst, issue_snd] at h
    by_cases hc : CurVal < EndVal
    · simp only [hc, if_true] at h
      generalize E tr0 423 (.Read32 AddrLow) = r1 at h
      by_cases h1 : r1.rc = XAIE_OK
      · simp only [h1, ne_eq, not_true_eq_false, if_false] at h
        generalize E (tr0 ++ [⟨423, .Read32 AddrLow, r1⟩]) 430 (.Read32 AddrHigh) = r2 at h
        by_cases h2 : r2.rc = XAIE_OK
        · simp only [h2, ne_eq, not_true_eq_false, if_false] at h
          obtain ⟨evs, hevs, hcase⟩ := ih _ _ _ h
          refine ⟨⟨423, .Read32 AddrLow, r1⟩ :: ⟨430, .Read32 AddrHigh, r2⟩ :: evs,
            by simp [hevs], Or.inr ⟨hc, ?_⟩⟩
          simp only [timerValues]
          rcases hcase with ⟨hle, hnil⟩ | ⟨hlt, last, hl, hle⟩
          · subst hnil
            exact ⟨_, by simp [timerValues], hle⟩
          · refine ⟨last, ?_, hle⟩
            rw [List.getLast?_cons, hl]; rfl
        · simp only [h2, ne_eq, not_false_eq_true, if_true, Option.some.injEq,
            Prod.mk.injEq] at h
          exact h.1.elim
      · simp only [h1, ne_eq, not_false_eq_true, if_true, Option.some.injEq,
          Prod.mk.injEq] at h
        exact h.1.elim
    · simp only [hc, if_false, Option.some.injEq, Prod.mk.injEq, true_and] at h
      exact ⟨[], by simp [h], Or.inl ⟨by omega, rfl⟩⟩

theorem Call.not_timer_of_broadcast {c : Call} (h : c.isEventBroadcast = true) :
    c.isSetTimerResetEvent = false ∧ c.isEventGenerate = false := by
  cases c <;> simp_all [Call.isEventBroadcast, Call.isSetTimerResetEvent, Call.isEventGenerate]

/-! ## Claims -/

/-- C1: on the one-column example device with channel 1 granted, every call of
the run succeeds and `XAie_SyncTimer` returns `XAIE_OK`, yet the clean-up after
the trigger issues no clearing call at all: line 620 passes `NumCols` as the
start column, the channel id as the end column and `XAIE_EVENT_NONE_PL` as the
channel, so the loop runs over the empty column range `[1, 1)` and channel 1 of
shim tile (0, 0) is never set to `XAIE_EVENT_NONE_PL`. -/
theorem C1_success_path_skips_shim_clearing :
    exRunOk.1 = XAIE_OK ∧
    (∀ e ∈ exRunOk.2, e.rc = XAIE_OK) ∧
    clrCall stdDefs 1 0 ∉ exRunOk.2.map Ev.call ∧
    callsAt 496 exRunOk.2 = [] ∧
    _XAie_ClearShimBroadcast stdDefs exEnvOk (exDev 1).NumCols 1 stdDefs.XAIE_EVENT_NONE_PL [] =
      [] := by
  decide

/-- C2: in the run where the shim configuration of column 0 fails and in the run
where the arming of record 2 fails, the channel request had succeeded, the error
is returned, and `XAie_ReleaseBroadcastChannel` is never called. -/
theorem C2_error_paths_do_not_release :
    (exRunShimFail0.1 = XAIE_ERR ∧
      (∃ rq ∈ exRunShimFail0.2, rq.call.isRequest = true ∧ rq.rc = XAIE_OK) ∧
      ∀ e ∈ exRunShimFail0.2, e.call.isRelease = false) ∧
    (exRunArmFail.1 = XAIE_ERR ∧
      (∃ rq ∈ exRunArmFail.2, rq.call.isRequest = true ∧ rq.rc = XAIE_OK) ∧
      ∀ e ∈ exRunArmFail.2, e.call.isRelease = false) := by
  decide

/-- C3: if the shim broadcast configuration of column `k` (line 583) returns an
error, the run has configured columns `0..k`, issues the clearing call
`XAie_EventBroadcast((i,0), XAIE_PL_MOD, reserved channel, XAIE_EVENT_NONE_PL)` for
exactly the columns `i < k` (and no other broadcast call), never calls
`XAie_SetTimerResetEvent` or `XAie_EventGenerate`, and returns the status of the
failing configuration. -/
theorem C3_shim_failure_clears_lower_columns (K : Defs) (D : XAie_DevInst) (E : Env)
    (k md b v : Nat) (e : Ev) (hcols : D.NumCols ≤ 255)
    (he : e ∈ (XAie_SyncTimer K D E []).2) (hline : e.line = 583)
    (hcall : e.call = .EventBroadcast (XAie_TileLoc k 0) md b v) (hrc : e.rc ≠ XAIE_OK) :
    ∃ rq ∈ (XAie_SyncTimer K D E []).2, rq.line = 570 ∧ rq.rc = XAIE_OK ∧
      callsAt 583 (XAie_SyncTimer K D E []).2 =
        (List.range (k + 1)).map (cfgCall K (chanOf rq) (shimEventOf K D (chanOf rq))) ∧
      callsAt 496 (XAie_SyncTimer K D E []).2 = (List.range k).map (clrCall K (chanOf rq)) ∧
      (∀ x ∈ (XAie_SyncTimer K D E []).2, x.call.isEventBroadcast = true →
        x.line = 583 ∨ x.line = 496) ∧
      (∀ x ∈ (XAie_SyncTimer K D E []).2,
        x.call.isSetTimerResetEvent = false ∧ x.call.isEventGenerate = false) ∧
      (XAie_SyncTimer K D E []).1 = e.rc := by
  obtain ⟨rc, tr, hrun⟩ : ∃ rc tr, XAie_SyncTimer K D E [] = (rc, tr) := ⟨_, _, rfl⟩
  have hs := sync_shape K D E rc tr hrun
  rw [hrun] at he ⊢
  simp only at he ⊢
  clear hrun
  cases hs with
  | mallocFail m h1 h2 h3 =>
    simp only [List.mem_singleton] at he
    subst he; omega
  | requestFail m rq h1 h2 h3 h4 h5 =>
    simp only [List.mem_cons, List.mem_singleton, List.not_mem_nil, or_false] at he
    rcases he with h | h <;> subst h <;> omega
  | started m rq _ t h1 h2 h3 h4 h5 hsh =>
    cases hsh with
    | fail k' f cfgs clr hik hk hcfg hfl hfc hfr hclr =>
      simp only [List.mem_append, List.mem_cons, List.mem_singleton, List.not_mem_nil,
        or_false, or_assoc] at he
      have hk' : k' = k := by
        rcases he with h | h | h | h | h
        · subst h; omega
        · subst h; omega
        · exact absurd (hcfg.2 e h).2 hrc
        · subst h
          rw [hfc] at hcall
          simp only [cfgCall, XAie_TileLoc, Call.EventBroadcast.injEq,
            XAie_LocType.mk.injEq] at hcall
          exact hcall.1.2
        · have := hclr.2 e h; omega
      have hef : e.rc = f.rc := by
        rcases he with h | h | h | h | h
        · subst h; omega
        · subst h; omega
        · exact absurd (hcfg.2 e h).2 hrc
        · rw [h]
        · have := hclr.2 e h; omega
      subst hk'
      have hkm : k' % 2 ^ 8 = k' := Nat.mod_eq_of_lt (by omega)
      rw [hkm] at hclr
      refine ⟨rq, by simp, h3, h5, ?_, ?_, ?_, ?_, hef.symm⟩
      · simp only [callsAt_append, callsAt_cons, callsAt_nil, h1, h3, hfl,
          hcfg.cfg_callsAt_583, hclr.clr_callsAt_ne (by decide : (583 : Nat) ≠ 496)]
        simp [List.range_eq_range', hfc, List.range'_concat]
      · simp only [callsAt_append, callsAt_cons, callsAt_nil, h1, h3, hfl,
          hclr.clr_callsAt_496, hcfg.cfg_callsAt_ne (by decide : (496 : Nat) ≠ 583)]
        simp [List.range_eq_range']
      · intro x hx _
        simp only [List.mem_append, List.mem_cons, List.mem_singleton, List.not_mem_nil,
          or_false, or_assoc] at hx
        rcases hx with h | h | h | h | h
        · subst h; simp_all [Call.isEventBroadcast]
        · subst h; simp_all [Call.isEventBroadcast]
        · exact Or.inl (hcfg.2 x h).1
        · subst h; exact Or.inl hfl
        · exact Or.inr (hclr.2 x h)
      · intro x hx
        simp only [List.mem_append, List.mem_cons, List.mem_singleton, List.not_mem_nil,
          or_false, or_assoc] at hx
        rcases hx with h | h | h | h | h
        · subst h; simp [h2, Call.isSetTimerResetEvent, Call.isEventGenerate]
        · subst h; simp [h4, Call.isSetTimerResetEvent, Call.isEventGenerate]
        · exact Call.not_timer_of_broadcast (hcfg.cfg_isBroadcast h)
        · subst h; simp [hfc, cfgCall, Call.isSetTimerResetEvent, Call.isEventGenerate]
        · exact Call.not_timer_of_broadcast (hclr.clr_isBroadcast h)
    | done _ cfgs t' hcfg harm =>
      exfalso
      simp only [List.mem_append, List.mem_cons, List.mem_singleton, List.not_mem_nil,
        or_false, or_assoc] at he
      rcases he with h | h | h | h
      · subst h; omega
      · subst h; omega
      · exact absurd (hcfg.2 e h).2 hrc
      · have := harm.armsh_lines e h; omega

/-- C3 (witness): on the three-column device the configuration of column 2 fails;
columns 0 and 1 are cleared on channel 5 and `XAIE_ERR` is returned. -/
theorem C3_shim_failure_clears_lower_columns_witness :
    (exDev 3).NumCols ≤ 255 ∧
    (⟨583, .EventBroadcast (XAie_TileLoc 2 0) 2 5 2112, ⟨XAIE_ERR, 0, []⟩⟩ : Ev) ∈
      exRunShimFail.2 ∧
    ∃ rq ∈ exRunShimFail.2, rq.line = 570 ∧ rq.rc = XAIE_OK ∧
      callsAt 583 exRunShimFail.2 =
        (List.range (2 + 1)).map
          (cfgCall stdDefs (chanOf rq) (shimEventOf stdDefs (exDev 3) (chanOf rq))) ∧
      callsAt 496 exRunShimFail.2 = (List.range 2).map (clrCall stdDefs (chanOf rq)) ∧
      (∀ x ∈ exRunShimFail.2, x.call.isEventBroadcast = true →
        x.line = 583 ∨ x.line = 496) ∧
      (∀ x ∈ exRunShimFail.2,
        x.call.isSetTimerResetEvent = false ∧ x.call.isEventGenerate = false) ∧
      exRunShimFail.1 = XAIE_ERR :=
  ⟨by decide, by decide,
   C3_shim_failure_clears_lower_columns stdDefs (exDev 3) exEnvShimFail 2 2 5 2112
     ⟨583, .EventBroadcast (XAie_TileLoc 2 0) 2 5 2112, ⟨XAIE_ERR, 0, []⟩⟩
     (by decide) (by decide) rfl rfl (by decide)⟩

/-- C4: if arming record `j` (line 597) returns an error after `j` successful
armings, all shim columns have been configured, and before returning that error
the run (1) calls `XAie_SetTimerResetEvent` again for exactly the records
`0..j-1`, each with `EventMin` of its own event module and `XAIE_RESETDISABLE`,
and then (2) sets the reserved channel of the shim tile of every column in
`[0, NumCols)` to `XAIE_EVENT_NONE_PL`; the disarming precedes the shim clearing
and `XAie_EventGenerate` is never called. -/
theorem C4_arming_failure_disarms_then_clears (K : Defs) (D : XAie_DevInst) (E : Env)
    (j : Nat) (e : Ev) (hcols : D.NumCols ≤ 255)
    (he : e ∈ (XAie_SyncTimer K D E []).2) (hline : e.line = 597)
    (hrc : e.rc ≠ XAIE_OK)
    (hj : (callsAt 597 (XAie_SyncTimer K D E []).2).length = j + 1) :
    ∃ (rq : Ev) (pre dis clr : List Ev),
      (XAie_SyncTimer K D E []).2 = pre ++ [e] ++ dis ++ clr ∧
      rq ∈ pre ∧ rq.line = 570 ∧ rq.rc = XAIE_OK ∧
      callsAt 583 pre =
        (List.range D.NumCols).map (cfgCall K (chanOf rq) (shimEventOf K D (chanOf rq))) ∧
      (∀ x ∈ pre, x.line = 583 ∨ x.line = 597 → x.rc = XAIE_OK) ∧
      callsAt 597 pre = (List.range j).map (armCall K D rq.resp.rscs (chanOf rq)) ∧
      e.call = armCall K D rq.resp.rscs (chanOf rq) j ∧
      (∀ x ∈ pre, x.line ≠ 531 ∧ x.line ≠ 496) ∧
      (dis.map Ev.call).filter Call.isSetTimerResetEvent =
        (List.range j).map (disCall K D rq.resp.rscs) ∧
      (∀ x ∈ dis, x.call.isEventBroadcast = false) ∧
      clr.map Ev.call = (List.range D.NumCols).map (clrCall K (chanOf rq)) ∧
      (∀ x ∈ (XAie_SyncTimer K D E []).2, x.call.isEventGenerate = false) ∧
      (XAie_SyncTimer K D E []).1 = e.rc := by
  obtain ⟨rc, tr, hrun⟩ : ∃ rc tr, XAie_SyncTimer K D E [] = (rc, tr) := ⟨_, _, rfl⟩
  have hs := sync_shape K D E rc tr hrun
  rw [hrun] at he hj ⊢
  simp only at he hj ⊢
  have htag := hs.sync_tagged
  obtain ⟨m, rq, cfgs, arms, ws, dis, clr, q, htr, hrcs, h1, h3, h5, hq, hcfg, harm, hws, hfc,
    hdis, hclr⟩ := arm_fail_decomp hs he hline hrc
  rw [htr] at hj htag ⊢
  have hqj : q = j := by
    simp only [callsAt_append, callsAt_cons, callsAt_nil, h1, h3, hline,
      hcfg.cfg_callsAt_ne (by decide : (597 : Nat) ≠ 583),
      hws.wr_callsAt_ne (by decide : (597 : Nat) ≠ 270),
      hdis.dis_callsAt_ne (by decide : (597 : Nat) ≠ 531 ∧ (597 : Nat) ≠ 270),
      hclr.clr_callsAt_ne (by decide : (597 : Nat) ≠ 496), harm.1] at hj
    simpa using hj
  subst hqj
  have hcm : D.NumCols % 2 ^ 8 = D.NumCols := Nat.mod_eq_of_lt (by omega)
  rw [hcm] at hclr
  refine ⟨rq, [m, rq] ++ cfgs ++ arms ++ ws, dis, clr, rfl, by simp, h3, h5, ?_, ?_, ?_, hfc,
    ?_, ?_, ?_, ?_, ?_, hrcs⟩
  · simp only [callsAt_append, callsAt_cons, callsAt_nil, h1, h3, hcfg.cfg_callsAt_583,
      harm.arm_callsAt_ne (by decide : (583 : Nat) ≠ 597 ∧ (583 : Nat) ≠ 270),
      hws.wr_callsAt_ne (by decide : (583 : Nat) ≠ 270)]
    simp [List.range_eq_range']
  · intro x hx hl
    simp only [List.mem_append, List.mem_cons, List.mem_singleton, List.not_mem_nil,
      or_false, or_assoc] at hx
    rcases hx with h | h | h | h | h
    · subst h; omega
    · subst h; exact h5
    · exact (hcfg.2 x h).2
    · rcases harm.2 x h with h' | h'
      · exact h'.2.1
      · have := h'.1; omega
    · have := (hws x h).1; omega
  · simp only [callsAt_append, callsAt_cons, callsAt_nil, h1, h3, harm.1,
      hcfg.cfg_callsAt_ne (by decide : (597 : Nat) ≠ 583),
      hws.wr_callsAt_ne (by decide : (597 : Nat) ≠ 270)]
    simp [List.range_eq_range']
  · intro x hx
    simp only [List.mem_append, List.mem_cons, List.mem_singleton, List.not_mem_nil,
      or_false, or_assoc] at hx
    rcases hx with h | h | h | h | h
    · subst h; omega
    · subst h; omega
    · have := (hcfg.2 x h).1; omega
    · rcases harm.2 x h with h' | h'
      · have := h'.1; omega
      · have := h'.1; omega
    · have := (hws x h).1; omega
  · rw [hdis.dis_set_calls, List.range_eq_range']
  · intro x hx
    apply not_broadcast_of_line (htag x (by simp [hx]))
    rcases hdis.2 x hx with h' | h'
    · have := h'.1; omega
    · have := h'.1; omega
  · rw [hclr.1, List.range_eq_range']
  · intro x hx
    apply not_generate_of_line (htag x hx)
    simp only [List.mem_append, List.mem_cons, List.mem_singleton, List.not_mem_nil,
      or_false, or_assoc] at hx
    rcases hx with h | h | h | h | h | h | h | h
    · subst h; omega
    · subst h; omega
    · have := (hcfg.2 x h).1; omega
    · rcases harm.2 x h with h' | h'
      · have := h'.1; omega
      · have := h'.1; omega
    · have := (hws x h).1; omega
    · subst h; omega
    · rcases hdis.2 x h with h' | h'
      · have := h'.1; omega
      · have := h'.1; omega
    · have := hclr.2 x h; omega

/-- C4 (witness): on the two-column device the arming of record 2 fails; records
0 and 1 are disarmed, then columns 0 and 1 are cleared, and `XAIE_ERR` is
returned. -/
theorem C4_arming_failure_disarms_then_clears_witness :
    (exDev 2).NumCols ≤ 255 ∧
    (⟨597, armCall stdDefs (exDev 2) (exRscs 2 3) 3 2, ⟨XAIE_ERR, 0, []⟩⟩ : Ev) ∈
      exRunArmFail.2 ∧
    (callsAt 597 exRunArmFail.2).length = 2 + 1 ∧
    ∃ (rq : Ev) (pre dis clr : List Ev),
      exRunArmFail.2 =
        pre ++ [⟨597, armCall stdDefs (exDev 2) (exRscs 2 3) 3 2, ⟨XAIE_ERR, 0, []⟩⟩] ++
          dis ++ clr ∧
      rq ∈ pre ∧ rq.line = 570 ∧ rq.rc = XAIE_OK ∧
      callsAt 583 pre =
        (List.range (exDev 2).NumCols).map
          (cfgCall stdDefs (chanOf rq) (shimEventOf stdDefs (exDev 2) (chanOf rq))) ∧
      (∀ x ∈ pre, x.line = 583 ∨ x.line = 597 → x.rc = XAIE_OK) ∧
      callsAt 597 pre =
        (List.range 2).map (armCall stdDefs (exDev 2) rq.resp.rscs (chanOf rq)) ∧
      armCall stdDefs (exDev 2) (exRscs 2 3) 3 2 =
        armCall stdDefs (exDev 2) rq.resp.rscs (chanOf rq) 2 ∧
      (∀ x ∈ pre, x.line ≠ 531 ∧ x.line ≠ 496) ∧
      (dis.map Ev.call).filter Call.isSetTimerResetEvent =
        (List.range 2).map (disCall stdDefs (exDev 2) rq.resp.rscs) ∧
      (∀ x ∈ dis, x.call.isEventBroadcast = false) ∧
      clr.map Ev.call = (List.range (exDev 2).NumCols).map (clrCall stdDefs (chanOf rq)) ∧
      (∀ x ∈ exRunArmFail.2, x.call.isEventGenerate = false) ∧
      exRunArmFail.1 = XAIE_ERR :=
  ⟨by decide, by decide, by decide,
   C4_arming_failure_disarms_then_clears stdDefs (exDev 2) exEnvArmFail 2
     ⟨597, armCall stdDefs (exDev 2) (exRscs 2 3) 3 2, ⟨XAIE_ERR, 0, []⟩⟩
     (by decide) (by decide) rfl (by decide) (by decide)⟩

/-- C5: on the success path (the trigger returned `XAIE_OK`, which requires the
reservation, every shim configuration and every arming to have returned
`XAIE_OK`), after the trigger every granted record `k < R` is disarmed by
`XAie_SetTimerResetEvent(Loc_k, Mod_k, EventMin, XAIE_RESETDISABLE)`, then
`XAie_ReleaseBroadcastChannel` is called exactly once, with the record count and
the record list of the grant; nothing but `free` follows, and `XAie_SyncTimer`
returns the status of the release. -/
theorem C5_success_path_disarms_then_releases (K : Defs) (D : XAie_DevInst) (E : Env)
    (g : Ev) (hg : g ∈ (XAie_SyncTimer K D E []).2)
    (hgen : g.call.isEventGenerate = true) (hok : g.rc = XAIE_OK) :
    ∃ (rq rl : Ev) (pre mid fin : List Ev),
      (XAie_SyncTimer K D E []).2 = pre ++ [g] ++ mid ++ [rl] ++ fin ∧
      rq ∈ pre ∧ rq.line = 570 ∧ rq.rc = XAIE_OK ∧
      (mid.map Ev.call).filter Call.isSetTimerResetEvent =
        (List.range (rq.resp.val % 2 ^ 32)).map (disCall K D rq.resp.rscs) ∧
      rl.call = .ReleaseBroadcastChannel (rq.resp.val % 2 ^ 32) rq.resp.rscs ∧
      (∀ x ∈ pre ++ [g] ++ mid ++ fin, x.call.isRelease = false) ∧
      (∀ x ∈ mid ++ fin, x.line ≠ 597 ∧ x.call.isEventGenerate = false) ∧
      (∀ x ∈ fin, x.call = .free) ∧
      (XAie_SyncTimer K D E []).1 = rl.rc := by
  obtain ⟨rc, tr, hrun⟩ : ∃ rc tr, XAie_SyncTimer K D E [] = (rc, tr) := ⟨_, _, rfl⟩
  have hs := sync_shape K D E rc tr hrun
  rw [hrun] at hg ⊢
  simp only at hg ⊢
  have htag := hs.sync_tagged
  have hline := line_of_generate (htag g hg) hgen
  obtain ⟨m, rq, cfgs, arms, t, htr, h1, h3, h5, hcfg, harm, hgc, hcase⟩ :=
    trigger_decomp hs hg hline
  rcases hcase with ⟨hbad, -, -⟩ | ⟨-, rl, dis, clr, fin, ht, hdis, hclr, hr1, hr2, hfin, hrc⟩
  · exact absurd hok hbad
  subst ht
  rw [htr] at htag ⊢
  have hpre : ∀ x ∈ [m, rq] ++ cfgs ++ arms,
      x.line = 563 ∨ x.line = 570 ∨ x.line = 583 ∨ x.line = 597 ∨ x.line = 270 := by
    intro x hx
    simp only [List.mem_append, List.mem_cons, List.mem_singleton, List.not_mem_nil,
      or_false, or_assoc] at hx
    rcases hx with h | h | h | h
    · subst h; simp [h1]
    · subst h; simp [h3]
    · simp [(hcfg.2 x h).1]
    · rcases harm.2 x h with h' | h'
      · simp [h'.1]
      · simp [h'.1]
  have hmid : ∀ x ∈ dis ++ clr, x.line = 531 ∨ x.line = 270 ∨ x.line = 496 := by
    intro x hx
    simp only [List.mem_append] at hx
    rcases hx with h | h
    · rcases hdis.2 x h with h' | h'
      · simp [h'.1]
      · simp [h'.1]
    · simp [hclr.2 x h]
  refine ⟨rq, rl, [m, rq] ++ cfgs ++ arms, dis ++ clr, fin, by simp only [List.append_assoc],
    by simp, h3, h5, ?_, hr2, ?_, ?_, fun x hx => (hfin x hx).2, hrc⟩
  · rw [List.map_append, List.filter_append, hdis.dis_set_calls, hclr.clr_set_calls,
      List.append_nil, List.range_eq_range']
  · intro x hx
    have hxt : x ∈ [m, rq] ++ cfgs ++ arms ++ [g] ++ (dis ++ clr ++ [rl] ++ fin) := by
      simp only [List.mem_append, List.mem_cons, List.mem_singleton, List.not_mem_nil,
        or_false] at hx ⊢
      tauto
    apply not_release_of_line (htag x hxt)
    simp only [List.mem_append, List.mem_singleton] at hx
    rcases hx with ((h | h) | h) | h
    · have := hpre x (by simp only [List.mem_append]; exact h); omega
    · subst h; omega
    · have := hmid x (by simpa using h); omega
    · have := (hfin x h).1; omega
  · intro x hx
    have hxt : x ∈ [m, rq] ++ cfgs ++ arms ++ [g] ++ (dis ++ clr ++ [rl] ++ fin) := by
      simp only [List.mem_append, List.mem_cons, List.mem_singleton, List.not_mem_nil,
        or_false] at hx ⊢
      tauto
    have hl : x.line ≠ 597 ∧ x.line ≠ 610 := by
      simp only [List.mem_append] at hx
      rcases hx with h | h
      · have := hmid x (by simpa using h); omega
      · have := (hfin x h).1; omega
    exact ⟨hl.1, not_generate_of_line (htag x hxt) hl.2⟩

/-- C5 (witness): the successful run on the one-column device disarms its three
records after the trigger, releases the channel once and returns `XAIE_OK`. -/
theorem C5_success_path_disarms_then_releases_witness :
    (⟨610, .EventGenerate (XAie_TileLoc 0 0) 2 2108, ⟨XAIE_OK, 0, []⟩⟩ : Ev) ∈ exRunOk.2 ∧
    ∃ (rq rl : Ev) (pre mid fin : List Ev),
      exRunOk.2 =
        pre ++ [⟨610, .EventGenerate (XAie_TileLoc 0 0) 2 2108, ⟨XAIE_OK, 0, []⟩⟩] ++ mid ++
          [rl] ++ fin ∧
      rq ∈ pre ∧ rq.line = 570 ∧ rq.rc = XAIE_OK ∧
      (mid.map Ev.call).filter Call.isSetTimerResetEvent =
        (List.range (rq.resp.val % 2 ^ 32)).map (disCall stdDefs (exDev 1) rq.resp.rscs) ∧
      rl.call = .ReleaseBroadcastChannel (rq.resp.val % 2 ^ 32) rq.resp.rscs ∧
      (∀ x ∈ pre ++ [⟨610, .EventGenerate (XAie_TileLoc 0 0) 2 2108, ⟨XAIE_OK, 0, []⟩⟩] ++
          mid ++ fin, x.call.isRelease = false) ∧
      (∀ x ∈ mid ++ fin, x.line ≠ 597 ∧ x.call.isEventGenerate = false) ∧
      (∀ x ∈ fin, x.call = .free) ∧
      exRunOk.1 = rl.rc :=
  ⟨by decide,
   C5_success_path_disarms_then_releases stdDefs (exDev 1) exEnvOk
     ⟨610, .EventGenerate (XAie_TileLoc 0 0) 2 2108, ⟨XAIE_OK, 0, []⟩⟩
     (by decide) rfl rfl⟩

/-- C6 (counterexample): on the one-column example device with channel 256
granted and every call succeeding, the run returns `XAIE_OK` and its only
trigger generates event 2107, the shim broadcast base event plus 0, not the base
event plus the reserved channel id 256: `_XAie_GetBroadcastEventfromRscId`
receives the channel id as a `u8`. -/
theorem C6_trigger_event_truncates_channel :
    exRunOk256.1 = XAIE_OK ∧
    (∃ rq ∈ exRunOk256.2, rq.line = 570 ∧ rq.rc = XAIE_OK ∧
      (rq.resp.rscs.getD 0 default).RscId = 256) ∧
    (selEvntMod stdDefs (exDev 1) ((exDev 1).GetTileTypefromLoc (XAie_TileLoc 0 0))
      stdDefs.XAIE_PL_MOD).BroadcastEventMapEvent = 2107 ∧
    callsAt 610 exRunOk256.2 = [.EventGenerate (XAie_TileLoc 0 0) stdDefs.XAIE_PL_MOD 2107] ∧
    Call.EventGenerate (XAie_TileLoc 0 0) stdDefs.XAIE_PL_MOD (2107 + 256) ∉
      exRunOk256.2.map Ev.call := by
  decide

/-- C6 (amended): `XAie_EventGenerate` is invoked at most once in a run, at tile
(0, 0) with module `XAIE_PL_MOD` and the event "shim broadcast base event +
reserved channel id modulo `2 ^ 8`" (which is the base event + the reserved
channel id whenever that id is below `2 ^ 8`); when it is invoked, the channel
request returned `XAIE_OK`, the shim configuration of every column in
`[0, NumCols)` returned `XAIE_OK` and the arming (with `XAIE_RESETDISABLE`) of
every granted record returned `XAIE_OK`; if the trigger fails the run returns
its status and issues nothing further. -/
theorem C6_trigger_once_after_full_setup (K : Defs) (D : XAie_DevInst) (E : Env)
    (g : Ev) (hg : g ∈ (XAie_SyncTimer K D E []).2)
    (hgen : g.call.isEventGenerate = true) :
    ∃ (rq : Ev) (pre post : List Ev),
      (XAie_SyncTimer K D E []).2 = pre ++ [g] ++ post ∧
      (∀ x ∈ pre ++ post, x.call.isEventGenerate = false) ∧
      g.call = .EventGenerate (XAie_TileLoc 0 0) K.XAIE_PL_MOD
        ((selEvntMod K D (D.GetTileTypefromLoc (XAie_TileLoc 0 0))
            K.XAIE_PL_MOD).BroadcastEventMapEvent +
          (rq.resp.rscs.getD 0 default).RscId % 2 ^ 8) ∧
      ((rq.resp.rscs.getD 0 default).RscId < 2 ^ 8 →
        g.call = .EventGenerate (XAie_TileLoc 0 0) K.XAIE_PL_MOD
          ((selEvntMod K D (D.GetTileTypefromLoc (XAie_TileLoc 0 0))
              K.XAIE_PL_MOD).BroadcastEventMapEvent + (rq.resp.rscs.getD 0 default).RscId)) ∧
      rq ∈ pre ∧ rq.line = 570 ∧ rq.rc = XAIE_OK ∧
      callsAt 583 pre =
        (List.range D.NumCols).map (cfgCall K (chanOf rq) (shimEventOf K D (chanOf rq))) ∧
      callsAt 597 pre =
        (List.range (rq.resp.val % 2 ^ 32)).map (armCall K D rq.resp.rscs (chanOf rq)) ∧
      (∀ x ∈ pre, x.line = 583 ∨ x.line = 597 → x.rc = XAIE_OK) ∧
      (g.rc ≠ XAIE_OK → (XAie_SyncTimer K D E []).1 = g.rc ∧ post = []) := by
  obtain ⟨rc, tr, hrun⟩ : ∃ rc tr, XAie_SyncTimer K D E [] = (rc, tr) := ⟨_, _, rfl⟩
  have hs := sync_shape K D E rc tr hrun
  rw [hrun] at hg ⊢
  simp only at hg ⊢
  have htag := hs.sync_tagged
  have hline := line_of_generate (htag g hg) hgen
  obtain ⟨m, rq, cfgs, arms, t, htr, h1, h3, h5, hcfg, harm, hgc, hcase⟩ :=
    trigger_decomp hs hg hline
  rw [htr] at htag ⊢
  have hpre : ∀ x ∈ [m, rq] ++ cfgs ++ arms,
      (x.line = 563 ∨ x.line = 570 ∨ x.line = 583 ∨ x.line = 597 ∨ x.line = 270) ∧
      (x.line = 583 ∨ x.line = 597 → x.rc = XAIE_OK) := by
    intro x hx
    simp only [List.mem_append, List.mem_cons, List.mem_singleton, List.not_mem_nil,
      or_false, or_assoc] at hx
    rcases hx with h | h | h | h
    · subst h; exact ⟨by simp [h1], fun h' => by omega⟩
    · subst h; exact ⟨by simp [h3], fun _ => h5⟩
    · exact ⟨by simp [(hcfg.2 x h).1], fun _ => (hcfg.2 x h).2⟩
    · rcases harm.2 x h with h' | h'
      · exact ⟨by simp [h'.1], fun _ => h'.2.1⟩
      · exact ⟨by simp [h'.1], fun hx => by have := h'.1; omega⟩
  have hpost : ∀ x ∈ t, x.line ≠ 610 := by
    intro x hx
    rcases hcase with ⟨-, ht, -⟩ | ⟨-, rl, dis, clr, fin, ht, hdis, hclr, hr1, hr2, hfin, hrc⟩
    · subst ht; simp at hx
    · subst ht
      simp only [List.mem_append, List.mem_singleton] at hx
      rcases hx with ((h | h) | h) | h
      · rcases hdis.2 x h with h' | h'
        · have := h'.1; omega
        · have := h'.1; omega
      · have := hclr.2 x h; omega
      · subst h; omega
      · have := (hfin x h).1; omega
  have hev : shimEventOf K D (chanOf rq) =
      (selEvntMod K D (D.GetTileTypefromLoc (XAie_TileLoc 0 0))
        K.XAIE_PL_MOD).BroadcastEventMapEvent +
        (rq.resp.rscs.getD 0 default).RscId % 2 ^ 8 := by
    have h2 : (rq.resp.rscs.getD 0 default).RscId % 2 ^ 32 % 2 ^ 8 =
        (rq.resp.rscs.getD 0 default).RscId % 2 ^ 8 :=
      Nat.mod_mod_of_dvd _ (Nat.pow_dvd_pow 2 (by decide))
    simp only [shimEventOf, chanOf, _XAie_GetBroadcastEventfromRscId, h2]
  refine ⟨rq, [m, rq] ++ cfgs ++ arms, t, rfl, ?_, by rw [hgc, hev],
    fun hrid => by rw [hgc, hev, Nat.mod_eq_of_lt hrid], by simp, h3, h5, ?_, ?_,
    fun x hx => (hpre x hx).2, ?_⟩
  · intro x hx
    have hxt : x ∈ [m, rq] ++ cfgs ++ arms ++ [g] ++ t := by
      simp only [List.mem_append, List.mem_cons, List.mem_singleton, List.not_mem_nil,
        or_false] at hx ⊢
      tauto
    apply not_generate_of_line (htag x hxt)
    rcases List.mem_append.1 hx with h | h
    · have := (hpre x h).1; omega
    · exact hpost x h
  · simp only [callsAt_append, callsAt_cons, callsAt_nil, h1, h3, hcfg.cfg_callsAt_583,
      harm.arm_callsAt_ne (by decide : (583 : Nat) ≠ 597 ∧ (583 : Nat) ≠ 270)]
    simp [List.range_eq_range']
  · simp only [callsAt_append, callsAt_cons, callsAt_nil, h1, h3, harm.1,
      hcfg.cfg_callsAt_ne (by decide : (597 : Nat) ≠ 583)]
    simp [List.range_eq_range']
  · intro hbad
    rcases hcase with ⟨-, ht, hrc⟩ | ⟨hgood, -⟩
    · exact ⟨hrc, ht⟩
    · exact absurd hgood hbad

/-- C6 (witness): in the run whose trigger fails, the trigger is the last call,
it follows the configuration of the column and the arming of the three records,
and its status `XAIE_ERR` is returned. -/
theorem C6_trigger_once_after_full_setup_witness :
    (⟨610, .EventGenerate (XAie_TileLoc 0 0) 2 2108, ⟨XAIE_ERR, 0, []⟩⟩ : Ev) ∈
      exRunTrigFail.2 ∧
    ∃ (rq : Ev) (pre post : List Ev),
      exRunTrigFail.2 =
        pre ++ [⟨610, .EventGenerate (XAie_TileLoc 0 0) 2 2108, ⟨XAIE_ERR, 0, []⟩⟩] ++ post ∧
      (∀ x ∈ pre ++ post, x.call.isEventGenerate = false) ∧
      Call.EventGenerate (XAie_TileLoc 0 0) 2 2108 =
        .EventGenerate (XAie_TileLoc 0 0) stdDefs.XAIE_PL_MOD
          ((selEvntMod stdDefs (exDev 1) ((exDev 1).GetTileTypefromLoc (XAie_TileLoc 0 0))
              stdDefs.XAIE_PL_MOD).BroadcastEventMapEvent +
            (rq.resp.rscs.getD 0 default).RscId % 2 ^ 8) ∧
      ((rq.resp.rscs.getD 0 default).RscId < 2 ^ 8 →
        Call.EventGenerate (XAie_TileLoc 0 0) 2 2108 =
          .EventGenerate (XAie_TileLoc 0 0) stdDefs.XAIE_PL_MOD
            ((selEvntMod stdDefs (exDev 1) ((exDev 1).GetTileTypefromLoc (XAie_TileLoc 0 0))
                stdDefs.XAIE_PL_MOD).BroadcastEventMapEvent +
              (rq.resp.rscs.getD 0 default).RscId)) ∧
      rq ∈ pre ∧ rq.line = 570 ∧ rq.rc = XAIE_OK ∧
      callsAt 583 pre =
        (List.range (exDev 1).NumCols).map
          (cfgCall stdDefs (chanOf rq) (shimEventOf stdDefs (exDev 1) (chanOf rq))) ∧
      callsAt 597 pre =
        (List.range (rq.resp.val % 2 ^ 32)).map
          (armCall stdDefs (exDev 1) rq.resp.rscs (chanOf rq)) ∧
      (∀ x ∈ pre, x.line = 583 ∨ x.line = 597 → x.rc = XAIE_OK) ∧
      (XAIE_ERR ≠ XAIE_OK → exRunTrigFail.1 = XAIE_ERR ∧ post = []) :=
  ⟨by decide,
   C6_trigger_once_after_full_setup stdDefs (exDev 1) exEnvTrigFail
     ⟨610, .EventGenerate (XAie_TileLoc 0 0) 2 2108, ⟨XAIE_ERR, 0, []⟩⟩
     (by decide) rfl⟩

/-- C7: the record count computed before reserving is the sum, over the tile
types other than `XAIEGBL_TILE_TYPE_SHIMNOC`, of
`NumModules * NumRows * NumCols`, in 32-bit unsigned arithmetic; the run issues
at most one channel request, with that count and the argument `1`; and when the
request fails the run returns its status having issued only `malloc` and the
request. -/
theorem C7_record_count_and_single_request (K : Defs) (D : XAie_DevInst) (E : Env) :
    syncSize K D =
      (∑ t ∈ (Finset.range K.XAIEGBL_TILE_TYPE_MAX).filter
          (fun t => t ≠ K.XAIEGBL_TILE_TYPE_SHIMNOC),
        (D.DevMod t).NumModules * D.GetNumRows t * D.NumCols) % 2 ^ 32 ∧
    (((XAie_SyncTimer K D E []).2.map Ev.call).filter Call.isRequest = [] ∨
     ((XAie_SyncTimer K D E []).2.map Ev.call).filter Call.isRequest =
        [.RequestBroadcastChannel (syncSize K D) 1]) ∧
    (∀ x ∈ (XAie_SyncTimer K D E []).2, x.call.isRequest = true → x.rc ≠ XAIE_OK →
      (XAie_SyncTimer K D E []).1 = x.rc ∧
      (XAie_SyncTimer K D E []).2.map Ev.call =
        [.malloc (syncSize K D), .RequestBroadcastChannel (syncSize K D) 1]) := by
  obtain ⟨rc, tr, hrun⟩ : ∃ rc tr, XAie_SyncTimer K D E [] = (rc, tr) := ⟨_, _, rfl⟩
  have hs := sync_shape K D E rc tr hrun
  rw [hrun]
  simp only
  have htag := hs.sync_tagged
  refine ⟨syncSize_eq K D, ?_, ?_⟩
  · cases hs with
    | mallocFail m h1 h2 h3 => left; simp [h2, Call.isRequest]
    | requestFail m rq h1 h2 h3 h4 h5 => right; simp [h2, h4, Call.isRequest]
    | started m rq _ t h1 h2 h3 h4 h5 hsh =>
      right
      have ht : (t.map Ev.call).filter Call.isRequest = [] :=
        filter_calls_eq_nil (fun e he => not_request_of_line (htag e (by simp [he]))
          (by have := hsh.shim_lines e he; omega))
      rw [List.map_append, List.filter_append, ht]
      simp [h2, h4, Call.isRequest]
  · intro x hx hreq hbad
    cases hs with
    | mallocFail m h1 h2 h3 =>
      simp only [List.mem_singleton] at hx
      subst hx; simp [h2, Call.isRequest] at hreq
    | requestFail m rq h1 h2 h3 h4 h5 =>
      simp only [List.mem_cons, List.mem_singleton, List.not_mem_nil, or_false] at hx
      rcases hx with h | h
      · subst h; simp [h2, Call.isRequest] at hreq
      · subst h; exact ⟨rfl, by simp [h2, h4]⟩
    | started m rq _ t h1 h2 h3 h4 h5 hsh =>
      exfalso
      simp only [List.mem_append, List.mem_cons, List.mem_singleton, List.not_mem_nil,
        or_false, or_assoc] at hx
      rcases hx with h | h | h
      · subst h; simp [h2, Call.isRequest] at hreq
      · subst h; exact hbad h5
      · have h1' := not_request_of_line (htag x (by simp [h]))
          (by have := hsh.shim_lines x h; omega)
        rw [h1'] at hreq; exact Bool.false_ne_true hreq

/-- C7 (witness): in the run whose channel request fails, the request asks for
one channel with the computed record count 3, its status is returned, and
nothing but `malloc` and the request was issued. -/
theorem C7_record_count_and_single_request_witness :
    (⟨570, .RequestBroadcastChannel 3 1, ⟨XAIE_ERR, 3, exRscs 1 1⟩⟩ : Ev) ∈ exRunReqFail.2 ∧
    syncSize stdDefs (exDev 1) = 3 ∧
    exRunReqFail.1 = XAIE_ERR ∧
    exRunReqFail.2.map Ev.call =
      [.malloc (syncSize stdDefs (exDev 1)),
       .RequestBroadcastChannel (syncSize stdDefs (exDev 1)) 1] :=
  ⟨by decide, by decide,
   (C7_record_count_and_single_request stdDefs (exDev 1) exEnvReqFail).2.2
     ⟨570, .RequestBroadcastChannel 3 1, ⟨XAIE_ERR, 3, exRscs 1 1⟩⟩
     (by decide) rfl (by decide)⟩

/-- C8 (counterexample): in the run where every disarming call after the trigger
returns `XAIE_ERR`, `XAie_SyncTimer` still returns `XAIE_OK`. -/
theorem C8_cleanup_error_is_dropped :
    exRunDisarmFail.1 = XAIE_OK ∧
    ⟨531, disCall stdDefs (exDev 1) (exRscs 1 1) 0, ⟨XAIE_ERR, 0, []⟩⟩ ∈ exRunDisarmFail.2 ∧
    ¬ (∀ e ∈ exRunDisarmFail.2, e.rc ≠ XAIE_OK → exRunDisarmFail.1 ≠ XAIE_OK) := by
  decide

/-- C8 (amended): an error status returned by the channel request (line 570), a
shim broadcast configuration (line 583), a timer arming (line 597), the trigger
(line 610) or the channel release (line 624) is the status `XAie_SyncTimer`
returns, so the run does not return `XAIE_OK`. -/
theorem C8_protocol_step_errors_are_returned (K : Defs) (D : XAie_DevInst) (E : Env)
    (e : Ev) (he : e ∈ (XAie_SyncTimer K D E []).2)
    (hl : e.line = 570 ∨ e.line = 583 ∨ e.line = 597 ∨ e.line = 610 ∨ e.line = 624)
    (hrc : e.rc ≠ XAIE_OK) :
    (XAie_SyncTimer K D E []).1 = e.rc ∧ (XAie_SyncTimer K D E []).1 ≠ XAIE_OK := by
  obtain ⟨rc, tr, hrun⟩ : ∃ rc tr, XAie_SyncTimer K D E [] = (rc, tr) := ⟨_, _, rfl⟩
  have hs := sync_shape K D E rc tr hrun
  rw [hrun] at he ⊢
  simp only at he ⊢
  have key : rc = e.rc := by
    cases hs with
    | mallocFail m h1 h2 h3 =>
      simp only [List.mem_singleton] at he
      subst he; omega
    | requestFail m rq h1 h2 h3 h4 h5 =>
      simp only [List.mem_cons, List.mem_singleton, List.not_mem_nil, or_false] at he
      rcases he with h | h
      · subst h; omega
      · subst h; rfl
    | started m rq _ t h1 h2 h3 h4 h5 hsh =>
      simp only [List.mem_append, List.mem_cons, List.mem_singleton, List.not_mem_nil,
        or_false, or_assoc] at he
      rcases he with h | h | h
      · subst h; omega
      · subst h; exact absurd h5 hrc
      · have := hsh.shim_lines e h
        exact hsh.shim_primary h (by omega) hrc
  exact ⟨key, by rw [key]; exact hrc⟩

/-- C8 (witness): the failing trigger's status is the status of the run. -/
theorem C8_protocol_step_errors_are_returned_witness :
    (⟨610, .EventGenerate (XAie_TileLoc 0 0) 2 2108, ⟨XAIE_ERR, 0, []⟩⟩ : Ev) ∈
      exRunTrigFail.2 ∧
    exRunTrigFail.1 = XAIE_ERR ∧ exRunTrigFail.1 ≠ XAIE_OK :=
  ⟨by decide,
   C8_protocol_step_errors_are_returned stdDefs (exDev 1) exEnvTrigFail
     ⟨610, .EventGenerate (XAie_TileLoc 0 0) 2 2108, ⟨XAIE_ERR, 0, []⟩⟩
     (by decide) (by decide) (by decide)⟩

/-- C9 (counterexample): with the timer reading 0 and `CycleCnt = 0`,
`XAie_WaitCycles` returns `XAIE_OK` after the initial read alone: no further read
of the timer is performed. -/
theorem C9_no_further_read_at_zero :
    ∃ tr, XAie_WaitCycles stdDefs (exDev 1) (timerEnv [0, 0]) 5 ⟨1, 0⟩ 0 0 [] =
        some (XAIE_OK, tr) ∧
      timerValues tr = [0] ∧ tr.length = 2 :=
  ⟨_, rfl, by decide, by decide⟩

/-- C9 (amended): when `XAie_WaitCycles` returns `XAIE_OK`, the cycle count is at
most `0xFFFFFFFFFFFF` and the run starts with a composed timer read `T`; if
`0 < T + CycleCnt < 2 ^ 64` the run read the timer again and the last composed
value it read is at least `T + CycleCnt`; if `T + CycleCnt = 0` the run performed
no further read. -/
theorem C9_wait_ends_at_or_after_target (K : Defs) (D : XAie_DevInst) (E : Env)
    (fuel : Nat) (Loc : XAie_LocType) (Module CycleCnt : Nat) (tr : List Ev)
    (h : XAie_WaitCycles K D E fuel Loc Module CycleCnt [] = some (XAIE_OK, tr)) :
    ∃ T vs, timerValues tr = T :: vs ∧ CycleCnt ≤ XAIE_WAIT_CYCLE_MAX_VAL ∧
      (T + CycleCnt = 0 → vs = []) ∧
      (0 < T + CycleCnt → T + CycleCnt < 2 ^ 64 →
        ∃ last, vs.getLast? = some last ∧ T + CycleCnt ≤ last) := by
  unfold XAie_WaitCycles at h
  simp only [issue_fst, issue_snd, List.nil_append] at h
  by_cases c1 : D.IsReady = K.XAIE_COMPONENT_IS_READY
  swap
  · simp [c1] at h
  by_cases c2 : D.GetTileTypefromLoc Loc = K.XAIEGBL_TILE_TYPE_MAX
  · simp [c1, c2] at h
  by_cases c3 : D.CheckModule Loc Module = XAIE_OK
  swap
  · simp [c1, c2, c3] at h
  by_cases c4 : CycleCnt > XAIE_WAIT_CYCLE_MAX_VAL
  · simp [c1, c2, c3, c4] at h
  simp only [c1, c2, c3, c4, ne_eq, not_true_eq_false, if_false] at h
  generalize (D.GetTileAddr Loc.Row Loc.Col +
    (selTimerMod K D (D.GetTileTypefromLoc Loc) Module).LowOff) % 2 ^ 64 = aL at h
  generalize (D.GetTileAddr Loc.Row Loc.Col +
    (selTimerMod K D (D.GetTileTypefromLoc Loc) Module).HighOff) % 2 ^ 64 = aH at h
  generalize E [] 406 (.Read32 aL) = r1 at h
  by_cases h1 : r1.rc = XAIE_OK
  swap
  · simp only [h1, not_false_eq_true, if_true, Option.some.injEq, Prod.mk.injEq] at h
    exact h.1.elim
  simp only [h1, not_true_eq_false, if_false] at h
  generalize E [⟨406, .Read32 aL, r1⟩] 412 (.Read32 aH) = r2 at h
  by_cases h2 : r2.rc = XAIE_OK
  swap
  · simp only [h2, not_false_eq_true, if_true, Option.some.injEq, Prod.mk.injEq] at h
    exact h.1.elim
  simp only [h2, not_true_eq_false, if_false] at h
  obtain ⟨evs, hevs, hcase⟩ := waitLoop_ok E _ _ _ _ _ _ _ h
  subst hevs
  refine ⟨((r2.val % 2 ^ 32) <<< XAIE_TIMER_32BIT_SHIFT) % 2 ^ 64 ||| (r1.val % 2 ^ 32),
    timerValues evs, ?_, by omega, ?_, ?_⟩
  · rfl
  · intro h0
    rcases hcase with ⟨-, hnil⟩ | ⟨hlt, -⟩
    · subst hnil; rfl
    · rw [h0] at hlt; simp at hlt
  · intro hpos hlt
    rw [Nat.mod_eq_of_lt hlt] at hcase
    rcases hcase with ⟨hle, -⟩ | ⟨-, last, hl, hle⟩
    · omega
    · exact ⟨last, hl, hle⟩

/-- C9 (witness): the timer reads 5, then 7, then 20; a wait of 10 cycles ends
after the read of 20. -/
theorem C9_wait_ends_at_or_after_target_witness :
    XAie_WaitCycles stdDefs (exDev 1) (timerEnv [5, 7, 20]) 5 ⟨1, 0⟩ 0 10 [] =
      some (XAIE_OK,
        [⟨406, .Read32 475384, ⟨XAIE_OK, 5, []⟩⟩, ⟨412, .Read32 475388, ⟨XAIE_OK, 0, []⟩⟩,
         ⟨423, .Read32 475384, ⟨XAIE_OK, 7, []⟩⟩, ⟨430, .Read32 475388, ⟨XAIE_OK, 0, []⟩⟩,
         ⟨423, .Read32 475384, ⟨XAIE_OK, 20, []⟩⟩, ⟨430, .Read32 475388, ⟨XAIE_OK, 0, []⟩⟩]) ∧
    ∃ T vs,
      timerValues
        [⟨406, .Read32 475384, ⟨XAIE_OK, 5, []⟩⟩, ⟨412, .Read32 475388, ⟨XAIE_OK, 0, []⟩⟩,
         ⟨423, .Read32 475384, ⟨XAIE_OK, 7, []⟩⟩, ⟨430, .Read32 475388, ⟨XAIE_OK, 0, []⟩⟩,
         ⟨423, .Read32 475384, ⟨XAIE_OK, 20, []⟩⟩, ⟨430, .Read32 475388, ⟨XAIE_OK, 0, []⟩⟩] =
        T :: vs ∧
      10 ≤ XAIE_WAIT_CYCLE_MAX_VAL ∧
      (T + 10 = 0 → vs = []) ∧
      (0 < T + 10 → T + 10 < 2 ^ 64 → ∃ last, vs.getLast? = some last ∧ T + 10 ≤ last) :=
  ⟨by decide,
   C9_wait_ends_at_or_after_target stdDefs (exDev 1) (timerEnv [5, 7, 20]) 5 ⟨1, 0⟩ 0 10 _
     (by decide)⟩

/-- C10: with the timer reading `2 ^ 64 - 1` and the accepted `CycleCnt = 1`, the
64-bit sum `EndVal` wraps to 0 instead of `2 ^ 64`: `XAie_WaitCycles` returns
`XAIE_OK` at once, having read the timer only for the start value. -/
theorem C10_end_value_wraps :
    (1 ≤ XAIE_WAIT_CYCLE_MAX_VAL) ∧
    (∃ tr, XAie_WaitCycles stdDefs (exDev 1) (timerEnv [2 ^ 64 - 1, 2 ^ 64 - 1]) 5
        ⟨1, 0⟩ 0 1 [] = some (XAIE_OK, tr) ∧
      timerValues tr = [2 ^ 64 - 1] ∧ tr.length = 2) ∧
    ¬ ((2 ^ 64 - 1) + 1 < 2 ^ 64) ∧ ((2 ^ 64 - 1) + 1) % 2 ^ 64 = 0 :=
  ⟨by decide, ⟨_, rfl, by decide, by decide⟩, by decide, by decide⟩

theorem waitLoop_extends (E : Env) (AddrLow AddrHigh EndVal : Nat) :
    ∀ (fuel CurVal : Nat) (tr0 : List Ev) (rc : AieRC) (tr : List Ev),
      waitLoop E AddrLow AddrHigh EndVal fuel CurVal tr0 = some (rc, tr) →
      ∃ evs, tr = tr0 ++ evs := by
  intro fuel
  induction fuel with
  | zero =>
    intro CurVal tr0 rc tr h
    simp only [waitLoop] at h
    by_cases hc : CurVal < EndVal
    · simp [hc] at h
    · simp only [hc, if_false, Option.some.injEq, Prod.mk.injEq] at h
      exact ⟨[], by simp [h.2]⟩
  | succ fuel ih =>
    intro CurVal tr0 rc tr h
    simp only [waitLoop, issue_fst, issue_snd] at h
    by_cases hc : CurVal < EndVal
    · simp only [hc, if_true] at h
      generalize E tr0 423 (.Read32 AddrLow) = r1 at h
      by_cases h1 : r1.rc = XAIE_OK
      · simp only [h1, ne_eq, not_true_eq_false, if_false] at h
        generalize E (tr0 ++ [⟨423, .Read32 AddrLow, r1⟩]) 430 (.Read32 AddrHigh) = r2 at h
        by_cases h2 : r2.rc = XAIE_OK
        · simp only [h2, ne_eq, not_true_eq_false, if_false] at h
          obtain ⟨evs, hevs⟩ := ih _ _ _ _ h
          exact ⟨⟨423, .Read32 AddrLow, r1⟩ :: ⟨430, .Read32 AddrHigh, r2⟩ :: evs,
            by simp [hevs]⟩
        · simp only [h2, ne_eq, not_false_eq_true, if_true, Option.some.injEq,
            Prod.mk.injEq] at h
          exact ⟨[⟨423, .Read32 AddrLow, r1⟩, ⟨430, .Read32 AddrHigh, r2⟩], by simp [← h.2]⟩
      · simp only [h1, ne_eq, not_false_eq_true, if_true, Option.some.injEq,
          Prod.mk.injEq] at h
        exact ⟨[⟨423, .Read32 AddrLow, r1⟩], by simp [← h.2]⟩
    · simp only [hc, if_false, Option.some.injEq, Prod.mk.injEq] at h
      exact ⟨[], by simp [h.2]⟩

/-- C11: for a ready device and a valid tile and module, `XAie_WaitCycles`
returns `XAIE_INVALID_ARGS` with the trace unchanged (no register read)
whenever `CycleCnt > 0xFFFFFFFFFFFF = 2 ^ 48 - 1`; with
`CycleCnt = 0xFFFFFFFFFFFF` it is not rejected: whatever it returns, it has
first read the timer-low register (line 406), and if that read fails its status
is returned. -/
theorem C11_cycle_count_ceiling (K : Defs) (D : XAie_DevInst) (E : Env) (fuel : Nat)
    (Loc : XAie_LocType) (Module CycleCnt : Nat) (tr : List Ev)
    (hready : D.IsReady = K.XAIE_COMPONENT_IS_READY)
    (htile : D.GetTileTypefromLoc Loc ≠ K.XAIEGBL_TILE_TYPE_MAX)
    (hmod : D.CheckModule Loc Module = XAIE_OK) :
    XAIE_WAIT_CYCLE_MAX_VAL = 2 ^ 48 - 1 ∧
    (XAIE_WAIT_CYCLE_MAX_VAL < CycleCnt →
      XAie_WaitCycles K D E fuel Loc Module CycleCnt tr = some (XAIE_INVALID_ARGS, tr)) ∧
    (∀ rc tr1, XAie_WaitCycles K D E fuel Loc Module XAIE_WAIT_CYCLE_MAX_VAL tr =
        some (rc, tr1) →
      ∃ r rest, tr1 = tr ++ ⟨406, .Read32 ((D.GetTileAddr Loc.Row Loc.Col +
          (selTimerMod K D (D.GetTileTypefromLoc Loc) Module).LowOff) % 2 ^ 64), r⟩ :: rest) ∧
    XAie_WaitCycles K D E fuel Loc Module XAIE_WAIT_CYCLE_MAX_VAL tr ≠
      some (XAIE_INVALID_ARGS, tr) ∧
    ((E tr 406 (.Read32 ((D.GetTileAddr Loc.Row Loc.Col +
          (selTimerMod K D (D.GetTileTypefromLoc Loc) Module).LowOff) % 2 ^ 64))).rc ≠
        XAIE_OK →
      ∃ tr1, XAie_WaitCycles K D E fuel Loc Module XAIE_WAIT_CYCLE_MAX_VAL tr =
        some ((E tr 406 (.Read32 ((D.GetTileAddr Loc.Row Loc.Col +
          (selTimerMod K D (D.GetTileTypefromLoc Loc) Module).LowOff) % 2 ^ 64))).rc, tr1)) := by
  have hshape : ∀ rc tr1,
      XAie_WaitCycles K D E fuel Loc Module XAIE_WAIT_CYCLE_MAX_VAL tr = some (rc, tr1) →
      ∃ r rest, tr1 = tr ++ ⟨406, .Read32 ((D.GetTileAddr Loc.Row Loc.Col +
          (selTimerMod K D (D.GetTileTypefromLoc Loc) Module).LowOff) % 2 ^ 64), r⟩ :: rest := by
    intro rc tr1 h
    unfold XAie_WaitCycles at h
    simp only [issue_fst, issue_snd, hready, htile, hmod, ne_eq, not_true_eq_false,
      if_false, gt_iff_lt, Nat.lt_irrefl] at h
    generalize (D.GetTileAddr Loc.Row Loc.Col +
      (selTimerMod K D (D.GetTileTypefromLoc Loc) Module).LowOff) % 2 ^ 64 = aL at h ⊢
    generalize (D.GetTileAddr Loc.Row Loc.Col +
      (selTimerMod K D (D.GetTileTypefromLoc Loc) Module).HighOff) % 2 ^ 64 = aH at h
    generalize E tr 406 (.Read32 aL) = r1 at h
    by_cases h1 : r1.rc = XAIE_OK
    swap
    · simp only [h1, not_false_eq_true, if_true, Option.some.injEq, Prod.mk.injEq] at h
      exact ⟨r1, [], h.2.symm⟩
    simp only [h1, not_true_eq_false, if_false] at h
    generalize E (tr ++ [⟨406, .Read32 aL, r1⟩]) 412 (.Read32 aH) = r2 at h
    by_cases h2 : r2.rc = XAIE_OK
    swap
    · simp only [h2, not_false_eq_true, if_true, Option.some.injEq, Prod.mk.injEq] at h
      exact ⟨r1, [⟨412, .Read32 aH, r2⟩], by simp [← h.2]⟩
    simp only [h2, not_true_eq_false, if_false] at h
    obtain ⟨evs, hevs⟩ := waitLoop_extends E _ _ _ _ _ _ _ _ h
    exact ⟨r1, ⟨412, .Read32 aH, r2⟩ :: evs, by simp [hevs]⟩
  refine ⟨by decide, ?_, hshape, ?_, ?_⟩
  · intro hgt
    unfold XAie_WaitCycles
    simp [hready, htile, hmod, hgt]
  · intro hbad
    obtain ⟨r, rest, hr⟩ := hshape _ _ hbad
    have := congrArg List.length hr
    simp at this
  · intro hfail
    unfold XAie_WaitCycles
    simp only [issue_fst, issue_snd, hready, htile, hmod, ne_eq, not_true_eq_false,
      if_false, gt_iff_lt, Nat.lt_irrefl, hfail, not_false_eq_true, if_true]
    exact ⟨_, rfl⟩

/-- C11 (witness): on the example device the AIE tile (row 1, column 0) with the
memory module is valid; the boundary count `0xFFFFFFFFFFFF` is accepted and the
wait ends with `XAIE_OK` once the timer, read as 0 at the start, reads
`2 ^ 48`. -/
theorem C11_cycle_count_ceiling_witness :
    (exDev 1).IsReady = stdDefs.XAIE_COMPONENT_IS_READY ∧
    (exDev 1).GetTileTypefromLoc ⟨1, 0⟩ ≠ stdDefs.XAIEGBL_TILE_TYPE_MAX ∧
    (exDev 1).CheckModule ⟨1, 0⟩ 0 = XAIE_OK ∧
    XAIE_WAIT_CYCLE_MAX_VAL < 2 ^ 48 ∧
    XAie_WaitCycles stdDefs (exDev 1) (timerEnv [0, 2 ^ 48]) 5 ⟨1, 0⟩ 0 (2 ^ 48) [] =
      some (XAIE_INVALID_ARGS, []) ∧
    XAie_WaitCycles stdDefs (exDev 1) (timerEnv [0, 2 ^ 48]) 5 ⟨1, 0⟩ 0
      XAIE_WAIT_CYCLE_MAX_VAL [] ≠ some (XAIE_INVALID_ARGS, []) ∧
    (∃ tr1, XAie_WaitCycles stdDefs (exDev 1) (timerEnv [0, 2 ^ 48]) 5 ⟨1, 0⟩ 0
      XAIE_WAIT_CYCLE_MAX_VAL [] = some (XAIE_OK, tr1) ∧ tr1.length = 4) :=
  ⟨by decide, by decide, by decide, by decide,
   (C11_cycle_count_ceiling stdDefs (exDev 1) (timerEnv [0, 2 ^ 48]) 5 ⟨1, 0⟩ 0 (2 ^ 48) []
     (by decide) (by decide) (by decide)).2.1 (by decide),
   (C11_cycle_count_ceiling stdDefs (exDev 1) (timerEnv [0, 2 ^ 48]) 5 ⟨1, 0⟩ 0 (2 ^ 48) []
     (by decide) (by decide) (by decide)).2.2.2.1,
   ⟨_, rfl, by decide⟩⟩

theorem compose_halves (high low : Nat) (hh : high < 2 ^ 32) (hl : low < 2 ^ 32) :
    (high <<< XAIE_TIMER_32BIT_SHIFT) % 2 ^ 64 ||| low = high * 2 ^ 32 + low := by
  have h1 : high <<< XAIE_TIMER_32BIT_SHIFT = 2 ^ 32 * high := by
    rw [Nat.shiftLeft_eq, XAIE_TIMER_32BIT_SHIFT, Nat.mul_comm]
  have h2 : 2 ^ 32 * high < 2 ^ 64 := by omega
  rw [h1, Nat.mod_eq_of_lt h2, ← Nat.mul_add_lt_is_or hl, Nat.mul_comm]

/-- C12: for a ready device and a valid tile and module, `XAie_ReadTimer` reads
the register at `LowOff`, then the register at `HighOff`; when both reads succeed
with 32-bit values `low` and `high` it returns `XAIE_OK` and stores
`(high << 32) | low = high * 2 ^ 32 + low`, whose upper 32 bits are `high` and
whose lower 32 bits are `low`; when a read fails its status is returned and
nothing is stored. -/
theorem C12_read_timer_composes_halves (K : Defs) (D : XAie_DevInst) (E : Env)
    (Loc : XAie_LocType) (Module : Nat) (tr : List Ev) (aL aH : Nat) (r1 r2 : Resp)
    (hready : D.IsReady = K.XAIE_COMPONENT_IS_READY)
    (htile : D.GetTileTypefromLoc Loc ≠ K.XAIEGBL_TILE_TYPE_MAX)
    (hmod : D.CheckModule Loc Module = XAIE_OK)
    (haL : aL = (D.GetTileAddr Loc.Row Loc.Col +
      (selTimerMod K D (D.GetTileTypefromLoc Loc) Module).LowOff) % 2 ^ 64)
    (haH : aH = (D.GetTileAddr Loc.Row Loc.Col +
      (selTimerMod K D (D.GetTileTypefromLoc Loc) Module).HighOff) % 2 ^ 64)
    (hr1 : r1 = E tr 328 (.Read32 aL))
    (hr2 : r2 = E (tr ++ [⟨328, .Read32 aL, r1⟩]) 334 (.Read32 aH)) :
    (r1.rc ≠ XAIE_OK →
      XAie_ReadTimer K D E Loc Module tr = (r1.rc, tr ++ [⟨328, .Read32 aL, r1⟩], none)) ∧
    (r1.rc = XAIE_OK → r2.rc ≠ XAIE_OK →
      XAie_ReadTimer K D E Loc Module tr =
        (r2.rc, tr ++ [⟨328, .Read32 aL, r1⟩, ⟨334, .Read32 aH, r2⟩], none)) ∧
    (r1.rc = XAIE_OK → r2.rc = XAIE_OK → r1.val < 2 ^ 32 → r2.val < 2 ^ 32 →
      XAie_ReadTimer K D E Loc Module tr =
        (XAIE_OK, tr ++ [⟨328, .Read32 aL, r1⟩, ⟨334, .Read32 aH, r2⟩],
          some (r2.val <<< 32 ||| r1.val)) ∧
      r2.val <<< 32 ||| r1.val = r2.val * 2 ^ 32 + r1.val ∧
      (r2.val <<< 32 ||| r1.val) / 2 ^ 32 = r2.val ∧
      (r2.val <<< 32 ||| r1.val) % 2 ^ 32 = r1.val) := by
  subst haL haH hr1 hr2
  refine ⟨?_, ?_, ?_⟩
  · intro h1
    unfold XAie_ReadTimer
    simp only [issue_fst, issue_snd, hready, htile, hmod, ne_eq, not_true_eq_false,
      if_false, h1, not_false_eq_true, if_true]
  · intro h1 h2
    unfold XAie_ReadTimer
    simp only [issue_fst, issue_snd, hready, htile, hmod, ne_eq, not_true_eq_false,
      if_false, h1, h2, not_false_eq_true, if_true, List.append_assoc, List.singleton_append]
  · intro h1 h2 hl hh
    have hc := compose_halves _ _ hh hl
    have hs : (E (tr ++ [⟨328, .Read32 ((D.GetTileAddr Loc.Row Loc.Col +
          (selTimerMod K D (D.GetTileTypefromLoc Loc) Module).LowOff) % 2 ^ 64),
          E tr 328 (.Read32 ((D.GetTileAddr Loc.Row Loc.Col +
          (selTimerMod K D (D.GetTileTypefromLoc Loc) Module).LowOff) % 2 ^ 64))⟩]) 334
        (.Read32 ((D.GetTileAddr Loc.Row Loc.Col +
          (selTimerMod K D (D.GetTileTypefromLoc Loc) Module).HighOff) % 2 ^ 64))).val <<< 32 <
        2 ^ 64 := by
      rw [Nat.shiftLeft_eq]; omega
    simp only [XAIE_TIMER_32BIT_SHIFT, Nat.mod_eq_of_lt hs] at hc
    refine ⟨?_, hc, ?_, ?_⟩
    · unfold XAie_ReadTimer
      simp only [issue_fst, issue_snd, hready, htile, hmod, ne_eq, not_true_eq_false,
        if_false, h1, h2, List.append_assoc, List.singleton_append, Nat.mod_eq_of_lt hl,
        Nat.mod_eq_of_lt hh, Nat.mod_eq_of_lt hs, XAIE_TIMER_32BIT_SHIFT]
    · rw [hc]; omega
    · rw [hc]; omega

/-- C12 (witness): on the example device the timer of the AIE tile reads
`0x0000000500000007`; the halves 7 and 5 are read in that order and composed. -/
theorem C12_read_timer_composes_halves_witness :
    (exDev 1).IsReady = stdDefs.XAIE_COMPONENT_IS_READY ∧
    (exDev 1).GetTileTypefromLoc ⟨1, 0⟩ ≠ stdDefs.XAIEGBL_TILE_TYPE_MAX ∧
    (exDev 1).CheckModule ⟨1, 0⟩ 0 = XAIE_OK ∧
    XAie_ReadTimer stdDefs (exDev 1) (timerEnv [0x0000000500000007]) ⟨1, 0⟩ 0 [] =
      (XAIE_OK,
        [] ++ [⟨328, .Read32 475384, ⟨XAIE_OK, 7, []⟩⟩, ⟨334, .Read32 475388, ⟨XAIE_OK, 5, []⟩⟩],
        some (5 <<< 32 ||| 7)) ∧
    5 <<< 32 ||| 7 = 5 * 2 ^ 32 + 7 ∧
    (5 <<< 32 ||| 7) / 2 ^ 32 = 5 ∧
    (5 <<< 32 ||| 7) % 2 ^ 32 = 7 :=
  ⟨by decide, by decide, by decide,
   (C12_read_timer_composes_halves stdDefs (exDev 1) (timerEnv [0x0000000500000007]) ⟨1, 0⟩ 0
     [] 475384 475388 ⟨XAIE_OK, 7, []⟩ ⟨XAIE_OK, 5, []⟩ (by decide) (by decide) (by decide)
     (by decide) (by decide) (by decide) (by decide)).2.2 rfl rfl (by decide) (by decide)⟩

/-- C13: `XAie_SetTimerResetEvent` returns an error and leaves the trace
unchanged (no register write) whenever `Reset > XAIE_RESETENABLE`, or `Event` is
outside `[EventMin, EventMax]` of the target event module, or the (8-bit) table
entry `XAie_EventNumber[Event - EventMin]` is `XAIE_EVENT_INVALID`; for a ready
device and a valid tile and module with none of these, exactly one register
write is issued, and its status is returned. -/
theorem C13_reset_event_validation (K : Defs) (D : XAie_DevInst) (E : Env)
    (Loc : XAie_LocType) (Module Event Reset : Nat) (tr : List Ev) :
    ((Reset > K.XAIE_RESETENABLE ∨
      Event < (selEvntMod K D (D.GetTileTypefromLoc Loc) Module).EventMin ∨
      Event > (selEvntMod K D (D.GetTileTypefromLoc Loc) Module).EventMax ∨
      ((selEvntMod K D (D.GetTileTypefromLoc Loc) Module).XAie_EventNumber
          (Event - (selEvntMod K D (D.GetTileTypefromLoc Loc) Module).EventMin) =
            K.XAIE_EVENT_INVALID ∧
        (selEvntMod K D (D.GetTileTypefromLoc Loc) Module).XAie_EventNumber
          (Event - (selEvntMod K D (D.GetTileTypefromLoc Loc) Module).EventMin) < 2 ^ 8)) →
      (XAie_SetTimerResetEvent K D E Loc Module Event Reset tr).1 ≠ XAIE_OK ∧
      (XAie_SetTimerResetEvent K D E Loc Module Event Reset tr).2 = tr) ∧
    (D.IsReady = K.XAIE_COMPONENT_IS_READY →
      D.GetTileTypefromLoc Loc ≠ K.XAIEGBL_TILE_TYPE_MAX →
      D.CheckModule Loc Module = XAIE_OK →
      Reset ≤ K.XAIE_RESETENABLE →
      (selEvntMod K D (D.GetTileTypefromLoc Loc) Module).EventMin ≤ Event →
      Event ≤ (selEvntMod K D (D.GetTileTypefromLoc Loc) Module).EventMax →
      (selEvntMod K D (D.GetTileTypefromLoc Loc) Module).XAie_EventNumber
          (Event - (selEvntMod K D (D.GetTileTypefromLoc Loc) Module).EventMin) ≠
            K.XAIE_EVENT_INVALID →
      (selEvntMod K D (D.GetTileTypefromLoc Loc) Module).XAie_EventNumber
          (Event - (selEvntMod K D (D.GetTileTypefromLoc Loc) Module).EventMin) < 2 ^ 8 →
      ∃ a v r, (XAie_SetTimerResetEvent K D E Loc Module Event Reset tr).2 =
          tr ++ [⟨270, .Write32 a v, r⟩] ∧
        (XAie_SetTimerResetEvent K D E Loc Module Event Reset tr).1 = r.rc) := by
  constructor
  · intro h
    unfold XAie_SetTimerResetEvent
    simp only [issue_fst, issue_snd]
    split_ifs with c1 c2 c3 c4 c5 c6
    · simp
    · simp
    · simp
    · simp
    · simp
    · simp
    · exfalso
      rcases h with h | h | h | ⟨h, hlt⟩
      · exact c2 h
      · exact c5 (Or.inl h)
      · exact c5 (Or.inr h)
      · rw [Nat.mod_eq_of_lt hlt] at c6
        exact c6 h
  · intro hready htile hmod hreset hmin hmax hval hlt
    unfold XAie_SetTimerResetEvent
    have hr : ¬ Reset > K.XAIE_RESETENABLE := by omega
    have hrange : ¬ (Event < (selEvntMod K D (D.GetTileTypefromLoc Loc) Module).EventMin ∨
        Event > (selEvntMod K D (D.GetTileTypefromLoc Loc) Module).EventMax) := by omega
    simp only [issue_fst, issue_snd, hready, htile, hmod, hr, hrange, ne_eq,
      not_true_eq_false, if_false, Nat.mod_eq_of_lt hlt, hval]
    exact ⟨_, _, _, rfl, rfl⟩

/-- C13 (witness): on the example device, `Reset = 2` is refused without a
write, and the valid call for the broadcast event 1110 of the memory module
issues one write. -/
theorem C13_reset_event_validation_witness :
    (2 > stdDefs.XAIE_RESETENABLE) ∧
    ((XAie_SetTimerResetEvent stdDefs (exDev 1) exEnvPlain ⟨1, 0⟩ 0 1110 2 []).1 ≠ XAIE_OK ∧
      (XAie_SetTimerResetEvent stdDefs (exDev 1) exEnvPlain ⟨1, 0⟩ 0 1110 2 []).2 = []) ∧
    (∃ a v r, (XAie_SetTimerResetEvent stdDefs (exDev 1) exEnvPlain ⟨1, 0⟩ 0 1110 0 []).2 =
        [] ++ [⟨270, .Write32 a v, r⟩] ∧
      (XAie_SetTimerResetEvent stdDefs (exDev 1) exEnvPlain ⟨1, 0⟩ 0 1110 0 []).1 = r.rc) :=
  ⟨by decide,
   (C13_reset_event_validation stdDefs (exDev 1) exEnvPlain ⟨1, 0⟩ 0 1110 2 []).1
     (Or.inl (by decide)),
   (C13_reset_event_validation stdDefs (exDev 1) exEnvPlain ⟨1, 0⟩ 0 1110 0 []).2
     (by decide) (by decide) (by decide) (by decide) (by decide) (by decide) (by decide)
     (by decide)⟩

theorem or_mod_two_pow (a b n : Nat) : (a % 2 ^ n ||| b) % 2 ^ n = (a ||| b) % 2 ^ n := by
  apply Nat.eq_of_testBit_eq
  intro i
  simp only [Nat.testBit_mod_two_pow, Nat.testBit_or]
  cases decide (i < n) <;> simp

/-- C14: when `XAie_SetTimerResetEvent` returns `XAIE_OK` it has issued a single
32-bit write to the timer control register (tile address + `CtrlOff`) with the
value `((IntEvent << CtrlResetEvent.Lsb) & CtrlResetEvent.Mask) |
((Reset << CtrlReset.Lsb) & CtrlReset.Mask)`, where `IntEvent` is the 8-bit table
entry `XAie_EventNumber[Event - EventMin]`; every bit of the written value
outside the two field masks is zero. -/
theorem C14_reset_event_register_value (K : Defs) (D : XAie_DevInst) (E : Env)
    (Loc : XAie_LocType) (Module Event Reset : Nat) (tr : List Ev)
    (hok : (XAie_SetTimerResetEvent K D E Loc Module Event Reset tr).1 = XAIE_OK) :
    ∃ v r, (XAie_SetTimerResetEvent K D E Loc Module Event Reset tr).2 =
        tr ++ [⟨270, .Write32 ((D.GetTileAddr Loc.Row Loc.Col +
          (selTimerMod K D (D.GetTileTypefromLoc Loc) Module).CtrlOff) % 2 ^ 64) v, r⟩] ∧
      r.rc = XAIE_OK ∧
      v = (XAie_SetField
            ((selEvntMod K D (D.GetTileTypefromLoc Loc) Module).XAie_EventNumber
              (Event - (selEvntMod K D (D.GetTileTypefromLoc Loc) Module).EventMin) % 2 ^ 8)
            (selTimerMod K D (D.GetTileTypefromLoc Loc) Module).CtrlResetEvent.Lsb
            (selTimerMod K D (D.GetTileTypefromLoc Loc) Module).CtrlResetEvent.Mask |||
          XAie_SetField Reset
            (selTimerMod K D (D.GetTileTypefromLoc Loc) Module).CtrlReset.Lsb
            (selTimerMod K D (D.GetTileTypefromLoc Loc) Module).CtrlReset.Mask) % 2 ^ 32 ∧
      ((selTimerMod K D (D.GetTileTypefromLoc Loc) Module).CtrlResetEvent.Mask < 2 ^ 32 →
        (selTimerMod K D (D.GetTileTypefromLoc Loc) Module).CtrlReset.Mask < 2 ^ 32 →
        v = ((((selEvntMod K D (D.GetTileTypefromLoc Loc) Module).XAie_EventNumber
              (Event - (selEvntMod K D (D.GetTileTypefromLoc Loc) Module).EventMin) % 2 ^ 8) <<<
              (selTimerMod K D (D.GetTileTypefromLoc Loc) Module).CtrlResetEvent.Lsb) &&&
            (selTimerMod K D (D.GetTileTypefromLoc Loc) Module).CtrlResetEvent.Mask) |||
          ((Reset <<< (selTimerMod K D (D.GetTileTypefromLoc Loc) Module).CtrlReset.Lsb) &&&
            (selTimerMod K D (D.GetTileTypefromLoc Loc) Module).CtrlReset.Mask)) ∧
      (∀ i, v.testBit i = true →
        (selTimerMod K D (D.GetTileTypefromLoc Loc) Module).CtrlResetEvent.Mask.testBit i = true ∨
        (selTimerMod K D (D.GetTileTypefromLoc Loc) Module).CtrlReset.Mask.testBit i = true) := by
  unfold XAie_SetTimerResetEvent at hok ⊢
  simp only [issue_fst, issue_snd] at hok ⊢
  split_ifs at hok ⊢ with c1 c2 c3 c4 c5 c6
  refine ⟨_, _, rfl, hok, or_mod_two_pow _ _ _, ?_, ?_⟩
  · intro hm1 hm2
    rw [or_mod_two_pow]
    apply Nat.mod_eq_of_lt
    apply Nat.or_lt_two_pow
    · exact Nat.lt_of_le_of_lt Nat.and_le_right hm1
    · exact Nat.lt_of_le_of_lt Nat.and_le_right hm2
  · intro i hi
    rw [or_mod_two_pow] at hi
    simp only [XAie_SetField, Nat.testBit_mod_two_pow, Nat.testBit_or, Nat.testBit_and,
      Bool.and_eq_true, Bool.or_eq_true, decide_eq_true_eq] at hi
    rcases hi.2 with h | h
    · exact Or.inl h.2
    · exact Or.inr h.2

/-- C14 (witness): arming the memory module of the AIE tile of the example device
with event 1110 writes `110 << 8 = 28160` to the control register at
`0x74000 = 475136`. -/
theorem C14_reset_event_register_value_witness :
    (XAie_SetTimerResetEvent stdDefs (exDev 1) exEnvPlain ⟨1, 0⟩ 0 1110 0 []).1 = XAIE_OK ∧
    (XAie_SetTimerResetEvent stdDefs (exDev 1) exEnvPlain ⟨1, 0⟩ 0 1110 0 []).2 =
      [⟨270, .Write32 475136 28160, ⟨XAIE_OK, 0, []⟩⟩] ∧
    ∃ v r, (XAie_SetTimerResetEvent stdDefs (exDev 1) exEnvPlain ⟨1, 0⟩ 0 1110 0 []).2 =
        [] ++ [⟨270, .Write32 ((((exDev 1).GetTileAddr 1 0) +
          (selTimerMod stdDefs (exDev 1) ((exDev 1).GetTileTypefromLoc ⟨1, 0⟩) 0).CtrlOff) %
            2 ^ 64) v, r⟩] ∧
      r.rc = XAIE_OK ∧
      (∀ i, v.testBit i = true →
        (selTimerMod stdDefs (exDev 1) ((exDev 1).GetTileTypefromLoc ⟨1, 0⟩)
          0).CtrlResetEvent.Mask.testBit i = true ∨
        (selTimerMod stdDefs (exDev 1) ((exDev 1).GetTileTypefromLoc ⟨1, 0⟩)
          0).CtrlReset.Mask.testBit i = true) :=
  ⟨by decide, by decide,
   match C14_reset_event_register_value stdDefs (exDev 1) exEnvPlain ⟨1, 0⟩ 0 1110 0 []
     (by decide) with
   | ⟨v, r, h1, h2, _, _, h5⟩ => ⟨v, r, h1, h2, h5⟩⟩

theorem timer_ops_bad_module (K : Defs) (D : XAie_DevInst) (E : Env)
    (fuel : Nat) (Loc : XAie_LocType) (Module a b : Nat) (tr : List Ev)
    (hready : D.IsReady = K.XAIE_COMPONENT_IS_READY)
    (htile : D.GetTileTypefromLoc Loc ≠ K.XAIEGBL_TILE_TYPE_MAX)
    (hmod : D.CheckModule Loc Module ≠ XAIE_OK) :
    XAie_SetTimerTrigEventVal K D E Loc Module a b tr = (XAIE_INVALID_ARGS, tr) ∧
    XAie_ResetTimer K D E Loc Module tr = (XAIE_INVALID_ARGS, tr) ∧
    XAie_SetTimerResetEvent K D E Loc Module a b tr = (XAIE_INVALID_ARGS, tr) ∧
    XAie_ReadTimer K D E Loc Module tr = (XAIE_INVALID_ARGS, tr, none) ∧
    XAie_WaitCycles K D E fuel Loc Module a tr = some (XAIE_INVALID_ARGS, tr) := by
  refine ⟨?_, ?_, ?_, ?_, ?_⟩
  · unfold XAie_SetTimerTrigEventVal
    simp only [hready, htile, hmod, ne_eq, not_true_eq_false, not_false_eq_true, if_false,
      if_true]
  · unfold XAie_ResetTimer
    simp only [hready, htile, hmod, ne_eq, not_true_eq_false, not_false_eq_true, if_false,
      if_true]
  · unfold XAie_SetTimerResetEvent
    by_cases hr : b > K.XAIE_RESETENABLE
    · simp only [hready, hr, ne_eq, not_true_eq_false, if_false, if_true]
    · simp only [hready, htile, hmod, hr, ne_eq, not_true_eq_false, not_false_eq_true,
        if_false, if_true]
  · unfold XAie_ReadTimer
    simp only [hready, htile, hmod, ne_eq, not_true_eq_false, not_false_eq_true, if_false,
      if_true]
  · unfold XAie_WaitCycles
    simp only [hready, htile, hmod, ne_eq, not_true_eq_false, not_false_eq_true, if_false,
      if_true]

theorem timer_ops_not_ready (K : Defs) (D : XAie_DevInst) (E : Env)
    (fuel : Nat) (Loc : XAie_LocType) (Module a b : Nat) (tr : List Ev)
    (hready : D.IsReady ≠ K.XAIE_COMPONENT_IS_READY) :
    XAie_SetTimerTrigEventVal K D E Loc Module a b tr = (XAIE_INVALID_ARGS, tr) ∧
    XAie_ResetTimer K D E Loc Module tr = (XAIE_INVALID_ARGS, tr) ∧
    XAie_SetTimerResetEvent K D E Loc Module a b tr = (XAIE_INVALID_ARGS, tr) ∧
    XAie_ReadTimer K D E Loc Module tr = (XAIE_INVALID_ARGS, tr, none) ∧
    XAie_WaitCycles K D E fuel Loc Module a tr = some (XAIE_INVALID_ARGS, tr) := by
  refine ⟨?_, ?_, ?_, ?_, ?_⟩
  · unfold XAie_SetTimerTrigEventVal
    simp only [hready, ne_eq, not_false_eq_true, if_true]
  · unfold XAie_ResetTimer
    simp only [hready, ne_eq, not_false_eq_true, if_true]
  · unfold XAie_SetTimerResetEvent
    simp only [hready, ne_eq, not_false_eq_true, if_true]
  · unfold XAie_ReadTimer
    simp only [hready, ne_eq, not_false_eq_true, if_true]
  · unfold XAie_WaitCycles
    simp only [hready, ne_eq, not_false_eq_true, if_true]

theorem timer_ops_bad_tile (K : Defs) (D : XAie_DevInst) (E : Env)
    (fuel : Nat) (Loc : XAie_LocType) (Module a b : Nat) (tr : List Ev)
    (hready : D.IsReady = K.XAIE_COMPONENT_IS_READY)
    (htile : D.GetTileTypefromLoc Loc = K.XAIEGBL_TILE_TYPE_MAX) :
    XAie_SetTimerTrigEventVal K D E Loc Module a b tr = (XAIE_INVALID_TILE, tr) ∧
    XAie_ResetTimer K D E Loc Module tr = (XAIE_INVALID_TILE, tr) ∧
    (XAie_SetTimerResetEvent K D E Loc Module a b tr = (XAIE_INVALID_ARGS, tr) ∨
      XAie_SetTimerResetEvent K D E Loc Module a b tr = (XAIE_INVALID_TILE, tr)) ∧
    XAie_ReadTimer K D E Loc Module tr = (XAIE_INVALID_TILE, tr, none) ∧
    XAie_WaitCycles K D E fuel Loc Module a tr = some (XAIE_INVALID_TILE, tr) := by
  refine ⟨?_, ?_, ?_, ?_, ?_⟩
  · unfold XAie_SetTimerTrigEventVal
    simp only [hready, htile, ne_eq, not_true_eq_false, if_false, if_true]
  · unfold XAie_ResetTimer
    simp only [hready, htile, ne_eq, not_true_eq_false, if_false, if_true]
  · unfold XAie_SetTimerResetEvent
    by_cases hr : b > K.XAIE_RESETENABLE
    · left; simp only [hready, hr, ne_eq, not_true_eq_false, if_false, if_true]
    · right; simp only [hready, htile, hr, ne_eq, not_true_eq_false, if_false, if_true]
  · unfold XAie_ReadTimer
    simp only [hready, htile, ne_eq, not_true_eq_false, if_false, if_true]
  · unfold XAie_WaitCycles
    simp only [hready, htile, ne_eq, not_true_eq_false, if_false, if_true]

/-- C15 (counterexample): on the example device whose event table has no entry
for event 5 of the core module, the in-range but unmapped event 5 and the
out-of-range event 200 are both refused with the same status
`XAIE_INVALID_ARGS`. -/
theorem C15_unmapped_event_same_status :
    (selEvntMod stdDefs exDevGap (exDevGap.GetTileTypefromLoc ⟨1, 0⟩) 1).EventMin ≤ 5 ∧
    5 ≤ (selEvntMod stdDefs exDevGap (exDevGap.GetTileTypefromLoc ⟨1, 0⟩) 1).EventMax ∧
    (selEvntMod stdDefs exDevGap (exDevGap.GetTileTypefromLoc ⟨1, 0⟩) 1).XAie_EventNumber
      (5 - (selEvntMod stdDefs exDevGap (exDevGap.GetTileTypefromLoc ⟨1, 0⟩) 1).EventMin) =
        stdDefs.XAIE_EVENT_INVALID ∧
    (selEvntMod stdDefs exDevGap (exDevGap.GetTileTypefromLoc ⟨1, 0⟩) 1).EventMax < 200 ∧
    XAie_SetTimerResetEvent stdDefs exDevGap exEnvPlain ⟨1, 0⟩ 1 5 0 [] =
      (XAIE_INVALID_ARGS, []) ∧
    XAie_SetTimerResetEvent stdDefs exDevGap exEnvPlain ⟨1, 0⟩ 1 200 0 [] =
      (XAIE_INVALID_ARGS, []) ∧
    (XAie_SetTimerResetEvent stdDefs exDevGap exEnvPlain ⟨1, 0⟩ 1 5 0 []).1 =
      (XAie_SetTimerResetEvent stdDefs exDevGap exEnvPlain ⟨1, 0⟩ 1 200 0 []).1 := by
  decide

/-- C15 (amended): for a ready device, a valid tile and module and a valid
`Reset`, an event outside `[EventMin, EventMax]` and an in-range event whose
(8-bit) table entry is `XAIE_EVENT_INVALID` are both reported with
`XAIE_INVALID_ARGS`, without a register write. -/
theorem C15_event_errors_are_invalid_args (K : Defs) (D : XAie_DevInst) (E : Env)
    (Loc : XAie_LocType) (Module Event Reset : Nat) (tr : List Ev)
    (hready : D.IsReady = K.XAIE_COMPONENT_IS_READY)
    (htile : D.GetTileTypefromLoc Loc ≠ K.XAIEGBL_TILE_TYPE_MAX)
    (hmod : D.CheckModule Loc Module = XAIE_OK)
    (hreset : Reset ≤ K.XAIE_RESETENABLE) :
    ((Event < (selEvntMod K D (D.GetTileTypefromLoc Loc) Module).EventMin ∨
      Event > (selEvntMod K D (D.GetTileTypefromLoc Loc) Module).EventMax) →
      XAie_SetTimerResetEvent K D E Loc Module Event Reset tr = (XAIE_INVALID_ARGS, tr)) ∧
    ((selEvntMod K D (D.GetTileTypefromLoc Loc) Module).EventMin ≤ Event →
      Event ≤ (selEvntMod K D (D.GetTileTypefromLoc Loc) Module).EventMax →
      (selEvntMod K D (D.GetTileTypefromLoc Loc) Module).XAie_EventNumber
          (Event - (selEvntMod K D (D.GetTileTypefromLoc Loc) Module).EventMin) =
            K.XAIE_EVENT_INVALID →
      (selEvntMod K D (D.GetTileTypefromLoc Loc) Module).XAie_EventNumber
          (Event - (selEvntMod K D (D.GetTileTypefromLoc Loc) Module).EventMin) < 2 ^ 8 →
      XAie_SetTimerResetEvent K D E Loc Module Event Reset tr = (XAIE_INVALID_ARGS, tr)) := by
  have hr : ¬ Reset > K.XAIE_RESETENABLE := by omega
  constructor
  · intro h
    unfold XAie_SetTimerResetEvent
    simp only [hready, htile, hmod, hr, h, ne_eq, not_true_eq_false, if_false, if_true]
  · intro hmin hmax hval hlt
    have hrange : ¬ (Event < (selEvntMod K D (D.GetTileTypefromLoc Loc) Module).EventMin ∨
        Event > (selEvntMod K D (D.GetTileTypefromLoc Loc) Module).EventMax) := by omega
    unfold XAie_SetTimerResetEvent
    simp only [hready, htile, hmod, hr, hrange, ne_eq, not_true_eq_false, if_false,
      Nat.mod_eq_of_lt hlt]
    simp only [hval, if_true]

/-- C15 (witness): the two refusals on the example device with the gap in its
event table. -/
theorem C15_event_errors_are_invalid_args_witness :
    exDevGap.IsReady = stdDefs.XAIE_COMPONENT_IS_READY ∧
    exDevGap.GetTileTypefromLoc ⟨1, 0⟩ ≠ stdDefs.XAIEGBL_TILE_TYPE_MAX ∧
    exDevGap.CheckModule ⟨1, 0⟩ 1 = XAIE_OK ∧
    0 ≤ stdDefs.XAIE_RESETENABLE ∧
    XAie_SetTimerResetEvent stdDefs exDevGap exEnvPlain ⟨1, 0⟩ 1 200 0 [] =
      (XAIE_INVALID_ARGS, []) ∧
    XAie_SetTimerResetEvent stdDefs exDevGap exEnvPlain ⟨1, 0⟩ 1 5 0 [] =
      (XAIE_INVALID_ARGS, []) :=
  ⟨by decide, by decide, by decide, by decide,
   (C15_event_errors_are_invalid_args stdDefs exDevGap exEnvPlain ⟨1, 0⟩ 1 200 0 []
     (by decide) (by decide) (by decide) (by decide)).1 (Or.inr (by decide)),
   (C15_event_errors_are_invalid_args stdDefs exDevGap exEnvPlain ⟨1, 0⟩ 1 5 0 []
     (by decide) (by decide) (by decide) (by decide)).2 (by decide) (by decide) (by decide)
     (by decide)⟩

/-- C16 (counterexample): on the ready example device the shim tile (row 0,
column 0) has a valid tile type but does not support the memory module 0; each of
the five timer operations returns `XAIE_INVALID_ARGS`, not
`XAIE_INVALID_TILE`. -/
theorem C16_unsupported_module_is_invalid_args :
    (exDev 1).IsReady = stdDefs.XAIE_COMPONENT_IS_READY ∧
    (exDev 1).GetTileTypefromLoc ⟨0, 0⟩ ≠ stdDefs.XAIEGBL_TILE_TYPE_MAX ∧
    (exDev 1).CheckModule ⟨0, 0⟩ 0 ≠ XAIE_OK ∧
    (XAie_SetTimerTrigEventVal stdDefs (exDev 1) exEnvPlain ⟨0, 0⟩ 0 1 2 []).1 ≠
      XAIE_INVALID_TILE ∧
    (XAie_ResetTimer stdDefs (exDev 1) exEnvPlain ⟨0, 0⟩ 0 []).1 ≠ XAIE_INVALID_TILE ∧
    (XAie_SetTimerResetEvent stdDefs (exDev 1) exEnvPlain ⟨0, 0⟩ 0 1110 0 []).1 ≠
      XAIE_INVALID_TILE ∧
    (XAie_ReadTimer stdDefs (exDev 1) exEnvPlain ⟨0, 0⟩ 0 []).1 ≠ XAIE_INVALID_TILE ∧
    XAie_WaitCycles stdDefs (exDev 1) exEnvPlain 5 ⟨0, 0⟩ 0 10 [] =
      some (XAIE_INVALID_ARGS, []) := by
  decide

/-- C16 (amended): on a ready device, when the location has a valid tile type
but `_XAie_CheckModule` fails, each of the five timer operations returns
`XAIE_INVALID_ARGS` (the status for an invalid argument, not the
`XAIE_INVALID_TILE` of an unsupported tile type) and issues no call. -/
theorem C16_unsupported_module_status (K : Defs) (D : XAie_DevInst) (E : Env)
    (fuel : Nat) (Loc : XAie_LocType) (Module a b : Nat) (tr : List Ev)
    (hready : D.IsReady = K.XAIE_COMPONENT_IS_READY)
    (htile : D.GetTileTypefromLoc Loc ≠ K.XAIEGBL_TILE_TYPE_MAX)
    (hmod : D.CheckModule Loc Module ≠ XAIE_OK) :
    XAie_SetTimerTrigEventVal K D E Loc Module a b tr = (XAIE_INVALID_ARGS, tr) ∧
    XAie_ResetTimer K D E Loc Module tr = (XAIE_INVALID_ARGS, tr) ∧
    XAie_SetTimerResetEvent K D E Loc Module a b tr = (XAIE_INVALID_ARGS, tr) ∧
    XAie_ReadTimer K D E Loc Module tr = (XAIE_INVALID_ARGS, tr, none) ∧
    XAie_WaitCycles K D E fuel Loc Module a tr = some (XAIE_INVALID_ARGS, tr) :=
  timer_ops_bad_module K D E fuel Loc Module a b tr hready htile hmod

/-- C16 (witness): the shim tile of the example device with the memory module. -/
theorem C16_unsupported_module_status_witness :
    (exDev 1).IsReady = stdDefs.XAIE_COMPONENT_IS_READY ∧
    (exDev 1).GetTileTypefromLoc ⟨0, 0⟩ ≠ stdDefs.XAIEGBL_TILE_TYPE_MAX ∧
    (exDev 1).CheckModule ⟨0, 0⟩ 0 ≠ XAIE_OK ∧
    XAie_SetTimerTrigEventVal stdDefs (exDev 1) exEnvPlain ⟨0, 0⟩ 0 1110 0 [] =
      (XAIE_INVALID_ARGS, []) ∧
    XAie_ResetTimer stdDefs (exDev 1) exEnvPlain ⟨0, 0⟩ 0 [] = (XAIE_INVALID_ARGS, []) ∧
    XAie_SetTimerResetEvent stdDefs (exDev 1) exEnvPlain ⟨0, 0⟩ 0 1110 0 [] =
      (XAIE_INVALID_ARGS, []) ∧
    XAie_ReadTimer stdDefs (exDev 1) exEnvPlain ⟨0, 0⟩ 0 [] = (XAIE_INVALID_ARGS, [], none) ∧
    XAie_WaitCycles stdDefs (exDev 1) exEnvPlain 5 ⟨0, 0⟩ 0 1110 [] =
      some (XAIE_INVALID_ARGS, []) :=
  ⟨by decide, by decide, by decide,
   C16_unsupported_module_status stdDefs (exDev 1) exEnvPlain 5 ⟨0, 0⟩ 0 1110 0 []
     (by decide) (by decide) (by decide)⟩

/-- C17: each of the five timer operations fails fast: if the device instance is
not ready, or the tile type of the location is `XAIEGBL_TILE_TYPE_MAX`, or the
module is not applicable to the tile, the operation returns `XAIE_INVALID_ARGS`
or `XAIE_INVALID_TILE`, the trace is unchanged (no register read, write or
mask-write), and `XAie_ReadTimer` stores nothing. -/
theorem C17_timer_operations_fail_fast (K : Defs) (D : XAie_DevInst) (E : Env)
    (fuel : Nat) (Loc : XAie_LocType) (Module a b : Nat) (tr : List Ev)
    (h : D.IsReady ≠ K.XAIE_COMPONENT_IS_READY ∨
      D.GetTileTypefromLoc Loc = K.XAIEGBL_TILE_TYPE_MAX ∨
      D.CheckModule Loc Module ≠ XAIE_OK) :
    (XAie_SetTimerTrigEventVal K D E Loc Module a b tr = (XAIE_INVALID_ARGS, tr) ∨
      XAie_SetTimerTrigEventVal K D E Loc Module a b tr = (XAIE_INVALID_TILE, tr)) ∧
    (XAie_ResetTimer K D E Loc Module tr = (XAIE_INVALID_ARGS, tr) ∨
      XAie_ResetTimer K D E Loc Module tr = (XAIE_INVALID_TILE, tr)) ∧
    (XAie_SetTimerResetEvent K D E Loc Module a b tr = (XAIE_INVALID_ARGS, tr) ∨
      XAie_SetTimerResetEvent K D E Loc Module a b tr = (XAIE_INVALID_TILE, tr)) ∧
    (XAie_ReadTimer K D E Loc Module tr = (XAIE_INVALID_ARGS, tr, none) ∨
      XAie_ReadTimer K D E Loc Module tr = (XAIE_INVALID_TILE, tr, none)) ∧
    (XAie_WaitCycles K D E fuel Loc Module a tr = some (XAIE_INVALID_ARGS, tr) ∨
      XAie_WaitCycles K D E fuel Loc Module a tr = some (XAIE_INVALID_TILE, tr)) := by
  by_cases c1 : D.IsReady = K.XAIE_COMPONENT_IS_READY
  swap
  · obtain ⟨h1, h2, h3, h4, h5⟩ := timer_ops_not_ready K D E fuel Loc Module a b tr c1
    exact ⟨Or.inl h1, Or.inl h2, Or.inl h3, Or.inl h4, Or.inl h5⟩
  by_cases c2 : D.GetTileTypefromLoc Loc = K.XAIEGBL_TILE_TYPE_MAX
  · obtain ⟨h1, h2, h3, h4, h5⟩ := timer_ops_bad_tile K D E fuel Loc Module a b tr c1 c2
    exact ⟨Or.inr h1, Or.inr h2, h3, Or.inr h4, Or.inr h5⟩
  have c3 : D.CheckModule Loc Module ≠ XAIE_OK := by
    rcases h with h | h | h
    · exact absurd c1 h
    · exact absurd h c2
    · exact h
  obtain ⟨h1, h2, h3, h4, h5⟩ := timer_ops_bad_module K D E fuel Loc Module a b tr c1 c2 c3
  exact ⟨Or.inl h1, Or.inl h2, Or.inl h3, Or.inl h4, Or.inl h5⟩

/-- C17 (witness): on the example device that is not ready, and on the ready
device at a location outside the array (tile type `XAIEGBL_TILE_TYPE_MAX`), the
operations return at once. -/
theorem C17_timer_operations_fail_fast_witness :
    exDevNotReady.IsReady ≠ stdDefs.XAIE_COMPONENT_IS_READY ∧
    (exDev 1).GetTileTypefromLoc ⟨1, 7⟩ = stdDefs.XAIEGBL_TILE_TYPE_MAX ∧
    XAie_ResetTimer stdDefs exDevNotReady exEnvPlain ⟨1, 0⟩ 0 [] = (XAIE_INVALID_ARGS, []) ∧
    XAie_ReadTimer stdDefs (exDev 1) exEnvPlain ⟨1, 7⟩ 0 [] = (XAIE_INVALID_TILE, [], none) ∧
    (XAie_WaitCycles stdDefs (exDev 1) exEnvPlain 5 ⟨1, 7⟩ 0 3 [] =
        some (XAIE_INVALID_ARGS, []) ∨
      XAie_WaitCycles stdDefs (exDev 1) exEnvPlain 5 ⟨1, 7⟩ 0 3 [] =
        some (XAIE_INVALID_TILE, [])) :=
  ⟨by decide, by decide, by decide, by decide,
   (C17_timer_operations_fail_fast stdDefs (exDev 1) exEnvPlain 5 ⟨1, 7⟩ 0 3 0 []
     (Or.inr (Or.inl (by decide)))).2.2.2.2⟩

theorem lock_value_field (v : Nat) :
    (v &&& XAIEML_LOCK_VALUE_MASK) <<< XAIEML_LOCK_VALUE_SHIFT = (v % 128) * 4 := by
  have h : XAIEML_LOCK_VALUE_MASK = 2 ^ 7 - 1 := by decide
  rw [h, Nat.and_pow_two_sub_one_eq_mod, Nat.shiftLeft_eq]
  rfl

/-- C18: the register offset polled by `_XAieMl_LockRelease` is
`BaseAddr + LockId * LockIdOff + ((LockVal & 0x7F) << 2)` modulo `2 ^ 32`, the one
polled by `_XAieMl_LockAcquire` is that quantity plus `RelAcqOff` modulo
`2 ^ 32`, and the polled address is device base + tile address + that offset (in
64 bits); only the low 7 bits of the lock value enter the address. -/
theorem C18_lock_register_address (D : XAie_DevInst) (E : Env) (LockMod : XAie_LockMod)
    (Loc : XAie_LocType) (LockId LockVal TimeOut : Nat) (tr : List Ev) :
    (∃ m x t r, (_XAieMl_LockRelease D E LockMod Loc ⟨LockId, LockVal⟩ TimeOut tr).2 =
      tr ++ [⟨75, .MaskPoll ((D.BaseAddr + D.GetTileAddr Loc.Row Loc.Col +
        (LockMod.BaseAddr + LockId * LockMod.LockIdOff + ((LockVal &&& 0x7F) <<< 2)) %
          2 ^ 32) % 2 ^ 64) m x t, r⟩]) ∧
    (∃ m x t r, (_XAieMl_LockAcquire D E LockMod Loc ⟨LockId, LockVal⟩ TimeOut tr).2 =
      tr ++ [⟨123, .MaskPoll ((D.BaseAddr + D.GetTileAddr Loc.Row Loc.Col +
        ((LockMod.BaseAddr + LockId * LockMod.LockIdOff + ((LockVal &&& 0x7F) <<< 2)) %
          2 ^ 32 + LockMod.RelAcqOff) % 2 ^ 32) % 2 ^ 64) m x t, r⟩]) ∧
    (LockVal &&& 0x7F) <<< 2 = (LockVal % 2 ^ 7) * 4 ∧
    _XAieMl_LockRelease D E LockMod Loc ⟨LockId, LockVal⟩ TimeOut tr =
      _XAieMl_LockRelease D E LockMod Loc ⟨LockId, LockVal % 2 ^ 7⟩ TimeOut tr ∧
    _XAieMl_LockAcquire D E LockMod Loc ⟨LockId, LockVal⟩ TimeOut tr =
      _XAieMl_LockAcquire D E LockMod Loc ⟨LockId, LockVal % 2 ^ 7⟩ TimeOut tr := by
  have hf := lock_value_field LockVal
  have hf2 := lock_value_field (LockVal % 2 ^ 7)
  have hmm : LockVal % 2 ^ 7 % 128 = LockVal % 128 := by omega
  refine ⟨?_, ?_, hf, ?_, ?_⟩
  · unfold _XAieMl_LockRelease
    simp only [issue_fst, issue_snd]
    split_ifs <;> exact ⟨_, _, _, _, rfl⟩
  · unfold _XAieMl_LockAcquire
    simp only [issue_fst, issue_snd, hf]
    have ho : (LockMod.BaseAddr + LockId * LockMod.LockIdOff + LockMod.RelAcqOff +
        LockVal % 128 * 4) % 2 ^ 32 =
        ((LockMod.BaseAddr + LockId * LockMod.LockIdOff + ((LockVal &&& 0x7F) <<< 2)) %
          2 ^ 32 + LockMod.RelAcqOff) % 2 ^ 32 := by
      have := hf
      simp only [XAIEML_LOCK_VALUE_MASK, XAIEML_LOCK_VALUE_SHIFT] at this
      rw [this]
      omega
    rw [ho]
    split_ifs <;> exact ⟨_, _, _, _, rfl⟩
  · unfold _XAieMl_LockRelease
    simp only [hf, hf2, hmm]
  · unfold _XAieMl_LockAcquire
    simp only [hf, hf2, hmm]

/-- C19: for every timeout, `_XAieMl_LockRelease` and `_XAieMl_LockAcquire` each
issue exactly one call, a mask-poll with mask `0x1`, expected value `0x1` and the
caller's `TimeOut`, and no register write; each returns `XAIE_OK` exactly when
the poll returns 0 and `XAIE_LOCK_RESULT_FAILED` otherwise. -/
theorem C19_lock_single_poll (D : XAie_DevInst) (E : Env) (LockMod : XAie_LockMod)
    (Loc : XAie_LocType) (Lock : XAie_Lock) (TimeOut : Nat) (tr : List Ev) :
    (∃ a r, (_XAieMl_LockRelease D E LockMod Loc Lock TimeOut tr).2 =
        tr ++ [⟨75, .MaskPoll a 0x1 0x1 TimeOut, r⟩] ∧
      r = E tr 75 (.MaskPoll a 0x1 0x1 TimeOut) ∧
      ((_XAieMl_LockRelease D E LockMod Loc Lock TimeOut tr).1 = XAIE_OK ↔ r.val = 0) ∧
      ((_XAieMl_LockRelease D E LockMod Loc Lock TimeOut tr).1 = XAIE_LOCK_RESULT_FAILED ↔
        r.val ≠ 0)) ∧
    (∃ a r, (_XAieMl_LockAcquire D E LockMod Loc Lock TimeOut tr).2 =
        tr ++ [⟨123, .MaskPoll a 0x1 0x1 TimeOut, r⟩] ∧
      r = E tr 123 (.MaskPoll a 0x1 0x1 TimeOut) ∧
      ((_XAieMl_LockAcquire D E LockMod Loc Lock TimeOut tr).1 = XAIE_OK ↔ r.val = 0) ∧
      ((_XAieMl_LockAcquire D E LockMod Loc Lock TimeOut tr).1 = XAIE_LOCK_RESULT_FAILED ↔
        r.val ≠ 0)) := by
  have hm : XAIEML_LOCK_RESULT_MASK = 1 := by decide
  have hs : XAIEML_LOCK_RESULT_SUCCESS <<< XAIEML_LOCK_RESULT_LSB = 1 := by decide
  constructor
  · unfold _XAieMl_LockRelease
    simp only [issue_fst, issue_snd, hm, hs]
    refine ⟨(D.BaseAddr + D.GetTileAddr Loc.Row Loc.Col +
      (LockMod.BaseAddr + Lock.LockId * LockMod.LockIdOff +
        ((Lock.LockVal &&& XAIEML_LOCK_VALUE_MASK) <<< XAIEML_LOCK_VALUE_SHIFT)) % 2 ^ 32) %
      2 ^ 64, _, ?_, rfl, ?_, ?_⟩
    · split_ifs <;> rfl
    · by_cases h : (E tr 75 (.MaskPoll ((D.BaseAddr + D.GetTileAddr Loc.Row Loc.Col +
        (LockMod.BaseAddr + Lock.LockId * LockMod.LockIdOff +
          ((Lock.LockVal &&& XAIEML_LOCK_VALUE_MASK) <<< XAIEML_LOCK_VALUE_SHIFT)) % 2 ^ 32) %
        2 ^ 64) 1 1 TimeOut)).val = 0
      · simp only [h, ne_eq, not_true_eq_false, if_false]
      · simp only [h, ne_eq, not_false_eq_true, if_true, iff_false]
        decide
    · by_cases h : (E tr 75 (.MaskPoll ((D.BaseAddr + D.GetTileAddr Loc.Row Loc.Col +
        (LockMod.BaseAddr + Lock.LockId * LockMod.LockIdOff +
          ((Lock.LockVal &&& XAIEML_LOCK_VALUE_MASK) <<< XAIEML_LOCK_VALUE_SHIFT)) % 2 ^ 32) %
        2 ^ 64) 1 1 TimeOut)).val = 0
      · simp only [h, ne_eq, not_true_eq_false, if_false, iff_false]
        decide
      · simp only [h, ne_eq, not_false_eq_true, if_true]
  · unfold _XAieMl_LockAcquire
    simp only [issue_fst, issue_snd, hm, hs]
    refine ⟨(D.BaseAddr + D.GetTileAddr Loc.Row Loc.Col +
      (LockMod.BaseAddr + Lock.LockId * LockMod.LockIdOff + LockMod.RelAcqOff +
        ((Lock.LockVal &&& XAIEML_LOCK_VALUE_MASK) <<< XAIEML_LOCK_VALUE_SHIFT)) % 2 ^ 32) %
      2 ^ 64, _, ?_, rfl, ?_, ?_⟩
    · split_ifs <;> rfl
    · by_cases h : (E tr 123 (.MaskPoll ((D.BaseAddr + D.GetTileAddr Loc.Row Loc.Col +
        (LockMod.BaseAddr + Lock.LockId * LockMod.LockIdOff + LockMod.RelAcqOff +
          ((Lock.LockVal &&& XAIEML_LOCK_VALUE_MASK) <<< XAIEML_LOCK_VALUE_SHIFT)) % 2 ^ 32) %
        2 ^ 64) 1 1 TimeOut)).val = 0
      · simp only [h, ne_eq, not_true_eq_false, if_false]
      · simp only [h, ne_eq, not_false_eq_true, if_true, iff_false]
        decide
    · by_cases h : (E tr 123 (.MaskPoll ((D.BaseAddr + D.GetTileAddr Loc.Row Loc.Col +
        (LockMod.BaseAddr + Lock.LockId * LockMod.LockIdOff + LockMod.RelAcqOff +
          ((Lock.LockVal &&& XAIEML_LOCK_VALUE_MASK) <<< XAIEML_LOCK_VALUE_SHIFT)) % 2 ^ 32) %
        2 ^ 64) 1 1 TimeOut)).val = 0
      · simp only [h, ne_eq, not_true_eq_false, if_false, iff_false]
        decide
      · simp only [h, ne_eq, not_false_eq_true, if_true]

/-- C20: for a ready device and a valid tile and module,
`XAie_SetTimerTrigEventVal` first writes `LowEventValue` to the trigger-low
register; if that write fails it returns its status and issues nothing more;
otherwise it writes `HighEventValue` to the trigger-high register and returns
the status of that write, whatever it is. -/
theorem C20_trigger_values_low_then_high (K : Defs) (D : XAie_DevInst) (E : Env)
    (Loc : XAie_LocType) (Module LowEventValue HighEventValue : Nat) (tr : List Ev)
    (hready : D.IsReady = K.XAIE_COMPONENT_IS_READY)
    (htile : D.GetTileTypefromLoc Loc ≠ K.XAIEGBL_TILE_TYPE_MAX)
    (hmod : D.CheckModule Loc Module = XAIE_OK) :
    ∃ e1 rest,
      (XAie_SetTimerTrigEventVal K D E Loc Module LowEventValue HighEventValue tr).2 =
        tr ++ e1 :: rest ∧
      e1.line = 105 ∧
      e1.call = .Write32 ((D.GetTileAddr Loc.Row Loc.Col +
        (selTimerMod K D (D.GetTileTypefromLoc Loc) Module).TrigEventLowValOff) % 2 ^ 64)
        LowEventValue ∧
      (e1.rc ≠ XAIE_OK → rest = [] ∧
        (XAie_SetTimerTrigEventVal K D E Loc Module LowEventValue HighEventValue tr).1 =
          e1.rc) ∧
      (e1.rc = XAIE_OK → ∃ e2, rest = [e2] ∧ e2.line = 113 ∧
        e2.call = .Write32 ((D.GetTileAddr Loc.Row Loc.Col +
          (selTimerMod K D (D.GetTileTypefromLoc Loc) Module).TrigEventHighValOff) % 2 ^ 64)
          HighEventValue ∧
        (XAie_SetTimerTrigEventVal K D E Loc Module LowEventValue HighEventValue tr).1 =
          e2.rc) := by
  unfold XAie_SetTimerTrigEventVal
  simp only [issue_fst, issue_snd, hready, htile, hmod, ne_eq, not_true_eq_false, if_false]
  generalize E tr 105 (.Write32 ((D.GetTileAddr Loc.Row Loc.Col +
    (selTimerMod K D (D.GetTileTypefromLoc Loc) Module).TrigEventLowValOff) % 2 ^ 64)
    LowEventValue) = w1
  by_cases h1 : w1.rc = XAIE_OK
  · simp only [h1, not_true_eq_false, if_false]
    refine ⟨⟨105, _, w1⟩, [⟨113, _, _⟩], by simp, rfl, rfl, fun h => absurd h1 h, fun _ =>
      ⟨_, rfl, rfl, rfl, rfl⟩⟩
  · simp only [h1, not_false_eq_true, if_true]
    exact ⟨⟨105, _, w1⟩, [], rfl, rfl, rfl, fun _ => ⟨rfl, rfl⟩, fun h => absurd h h1⟩

/-- C20 (witness): on the example device, when the write of the trigger-high
register fails, both writes have been issued in order and the status of the
second is returned; when the write of the trigger-low register fails it is the
only write. -/
theorem C20_trigger_values_low_then_high_witness :
    (exDev 1).IsReady = stdDefs.XAIE_COMPONENT_IS_READY ∧
    (exDev 1).GetTileTypefromLoc ⟨1, 0⟩ ≠ stdDefs.XAIEGBL_TILE_TYPE_MAX ∧
    (exDev 1).CheckModule ⟨1, 0⟩ 0 = XAIE_OK ∧
    XAie_SetTimerTrigEventVal stdDefs (exDev 1) exEnvHighFail ⟨1, 0⟩ 0 11 22 [] =
      (XAIE_ERR, [⟨105, .Write32 475140 11, ⟨XAIE_OK, 0, []⟩⟩,
        ⟨113, .Write32 475144 22, ⟨XAIE_ERR, 0, []⟩⟩]) ∧
    XAie_SetTimerTrigEventVal stdDefs (exDev 1) exEnvLowFail ⟨1, 0⟩ 0 11 22 [] =
      (XAIE_ERR, [⟨105, .Write32 475140 11, ⟨XAIE_ERR, 0, []⟩⟩]) ∧
    ∃ e1 rest,
      (XAie_SetTimerTrigEventVal stdDefs (exDev 1) exEnvLowFail ⟨1, 0⟩ 0 11 22 []).2 =
        [] ++ e1 :: rest ∧
      e1.line = 105 ∧
      e1.call = .Write32 (((exDev 1).GetTileAddr 1 0 +
        (selTimerMod stdDefs (exDev 1) ((exDev 1).GetTileTypefromLoc ⟨1, 0⟩)
          0).TrigEventLowValOff) % 2 ^ 64) 11 ∧
      (e1.rc ≠ XAIE_OK → rest = [] ∧
        (XAie_SetTimerTrigEventVal stdDefs (exDev 1) exEnvLowFail ⟨1, 0⟩ 0 11 22 []).1 =
          e1.rc) :=
  ⟨by decide, by decide, by decide, by decide, by decide,
   match C20_trigger_values_low_then_high stdDefs (exDev 1) exEnvLowFail ⟨1, 0⟩ 0 11 22 []
     (by decide) (by decide) (by decide) with
   | ⟨e1, rest, h1, h2, h3, h4, _⟩ => ⟨e1, rest, h1, h2, h3, h4⟩⟩

theorem maskWrite_keeps_bit (old Mask Value i : Nat) (hold : old < 2 ^ 32)
    (hbit : Mask.testBit i = false) :
    (maskWrite32Result old Mask Value).testBit i = old.testBit i := by
  unfold maskWrite32Result
  rw [Nat.testBit_or, Nat.testBit_and, Nat.testBit_and, Nat.testBit_xor, hbit,
    Nat.testBit_two_pow_sub_one]
  by_cases hi : i < 32
  · simp [hi]
  · have h0 : old.testBit i = false :=
      Nat.testBit_lt_two_pow (lt_of_lt_of_le hold (Nat.pow_le_pow_right (by decide) (by omega)))
    simp [h0]

theorem maskWrite_keeps_field (old Mask Value fld : Nat) (hold : old < 2 ^ 32)
    (hdis : fld &&& Mask = 0) :
    maskWrite32Result old Mask Value &&& fld = old &&& fld := by
  apply Nat.eq_of_testBit_eq
  intro i
  rw [Nat.testBit_and, Nat.testBit_and]
  by_cases hf : fld.testBit i = true
  · have hm : Mask.testBit i = false := by
      have := congrArg (fun x => Nat.testBit x i) hdis
      simp only [Nat.testBit_and, hf, Bool.true_and, Nat.zero_testBit] at this
      exact this
    rw [maskWrite_keeps_bit old Mask Value i hold hm]
  · simp only [Bool.not_eq_true] at hf
    simp [hf]

/-- C21: for a ready device and a valid tile and module, `XAie_ResetTimer`
issues exactly one call, a mask-write (line 174) to the control register at tile
address + `CtrlOff`, with the 32-bit mask `CtrlReset.Mask` and the value
`(XAIE_RESETENABLE << CtrlReset.Lsb) & mask`, and returns the status of that
mask-write.  With the mask-write semantics `new = (old & ~mask) | (value & mask)`
every bit of the 32-bit register outside the mask keeps its value, and so does
every field disjoint from the mask, such as the reset-event field. -/
theorem C21_reset_timer_single_mask_write (K : Defs) (D : XAie_DevInst) (E : Env)
    (Loc : XAie_LocType) (Module : Nat) (tr : List Ev) (TM : XAie_TimerMod)
    (hready : D.IsReady = K.XAIE_COMPONENT_IS_READY)
    (htile : D.GetTileTypefromLoc Loc ≠ K.XAIEGBL_TILE_TYPE_MAX)
    (hmod : D.CheckModule Loc Module = XAIE_OK)
    (hTM : TM = selTimerMod K D (D.GetTileTypefromLoc Loc) Module) :
    ∃ m v r,
      XAie_ResetTimer K D E Loc Module tr =
        (r.rc, tr ++ [⟨174, .MaskWrite32 ((D.GetTileAddr Loc.Row Loc.Col + TM.CtrlOff) % 2 ^ 64)
          m v, r⟩]) ∧
      m = TM.CtrlReset.Mask % 2 ^ 32 ∧
      v = (K.XAIE_RESETENABLE <<< TM.CtrlReset.Lsb) &&& m ∧
      (TM.CtrlReset.Mask < 2 ^ 32 → m = TM.CtrlReset.Mask ∧
        v = (K.XAIE_RESETENABLE <<< TM.CtrlReset.Lsb) &&& TM.CtrlReset.Mask) ∧
      (∀ old i, old < 2 ^ 32 → m.testBit i = false →
        (maskWrite32Result old m v).testBit i = old.testBit i) ∧
      (∀ old, old < 2 ^ 32 → TM.CtrlResetEvent.Mask &&& m = 0 →
        maskWrite32Result old m v &&& TM.CtrlResetEvent.Mask =
          old &&& TM.CtrlResetEvent.Mask) := by
  subst hTM
  have hv : (XAie_SetField K.XAIE_RESETENABLE
      (selTimerMod K D (D.GetTileTypefromLoc Loc) Module).CtrlReset.Lsb
      ((selTimerMod K D (D.GetTileTypefromLoc Loc) Module).CtrlReset.Mask % 2 ^ 32)) % 2 ^ 32 =
      (K.XAIE_RESETENABLE <<< (selTimerMod K D (D.GetTileTypefromLoc Loc) Module).CtrlReset.Lsb)
        &&& ((selTimerMod K D (D.GetTileTypefromLoc Loc) Module).CtrlReset.Mask % 2 ^ 32) := by
    unfold XAie_SetField
    exact Nat.mod_eq_of_lt (lt_of_le_of_lt Nat.and_le_right (Nat.mod_lt _ (by decide)))
  refine ⟨(selTimerMod K D (D.GetTileTypefromLoc Loc) Module).CtrlReset.Mask % 2 ^ 32,
    (K.XAIE_RESETENABLE <<< (selTimerMod K D (D.GetTileTypefromLoc Loc) Module).CtrlReset.Lsb)
      &&& ((selTimerMod K D (D.GetTileTypefromLoc Loc) Module).CtrlReset.Mask % 2 ^ 32),
    E tr 174 (.MaskWrite32 ((D.GetTileAddr Loc.Row Loc.Col +
      (selTimerMod K D (D.GetTileTypefromLoc Loc) Module).CtrlOff) % 2 ^ 64)
      ((selTimerMod K D (D.GetTileTypefromLoc Loc) Module).CtrlReset.Mask % 2 ^ 32)
      ((K.XAIE_RESETENABLE <<< (selTimerMod K D (D.GetTileTypefromLoc Loc) Module).CtrlReset.Lsb)
        &&& ((selTimerMod K D (D.GetTileTypefromLoc Loc) Module).CtrlReset.Mask % 2 ^ 32))),
    ?_, rfl, rfl, ?_, ?_, ?_⟩
  · unfold XAie_ResetTimer
    simp only [issue_fst, issue_snd, hready, htile, hmod, ne_eq, not_true_eq_false, if_false,
      hv]
  · intro hlt
    rw [Nat.mod_eq_of_lt hlt]
    exact ⟨rfl, rfl⟩
  · intro old i hold hbit
    exact maskWrite_keeps_bit old _ _ i hold hbit
  · intro old hold hdis
    exact maskWrite_keeps_field old _ _ _ hold hdis

/-- C21 (witness): on the example device, resetting the timer of the memory
module of tile (row 1, column 0) issues the single mask-write of `0x80000000`
under the mask `0x80000000` to the control register. -/
theorem C21_reset_timer_single_mask_write_witness :
    (exDev 1).IsReady = stdDefs.XAIE_COMPONENT_IS_READY ∧
    (exDev 1).GetTileTypefromLoc ⟨1, 0⟩ ≠ stdDefs.XAIEGBL_TILE_TYPE_MAX ∧
    (exDev 1).CheckModule ⟨1, 0⟩ 0 = XAIE_OK ∧
    XAie_ResetTimer stdDefs (exDev 1) exEnvPlain ⟨1, 0⟩ 0 [] =
      (XAIE_OK, [⟨174, .MaskWrite32 475136 0x80000000 0x80000000, ⟨XAIE_OK, 0, []⟩⟩]) ∧
    maskWrite32Result 0x00001200 0x80000000 0x80000000 = 0x80001200 ∧
    ∃ m v r,
      XAie_ResetTimer stdDefs (exDev 1) exEnvPlain ⟨1, 0⟩ 0 [] =
        (r.rc, [] ++ [⟨174, .MaskWrite32 (((exDev 1).GetTileAddr 1 0 + exTimerMod.CtrlOff) %
          2 ^ 64) m v, r⟩]) ∧
      m = exTimerMod.CtrlReset.Mask % 2 ^ 32 ∧
      (∀ old i, old < 2 ^ 32 → m.testBit i = false →
        (maskWrite32Result old m v).testBit i = old.testBit i) :=
  ⟨by decide, by decide, by decide, by decide, by decide,
   match C21_reset_timer_single_mask_write stdDefs (exDev 1) exEnvPlain ⟨1, 0⟩ 0 [] exTimerMod
     (by decide) (by decide) (by decide) rfl with
   | ⟨m, v, r, h1, h2, _, _, h5, _⟩ => ⟨m, v, r, h1, h2, h5⟩⟩

theorem waitLoop_done (E : Env) (AddrLow AddrHigh EndVal CurVal : Nat) (tr : List Ev)
    (h : EndVal ≤ CurVal) (fuel : Nat) :
    waitLoop E AddrLow AddrHigh EndVal fuel CurVal tr = some (XAIE_OK, tr) := by
  have hc : ¬ CurVal < EndVal := by omega
  cases fuel <;> simp only [waitLoop, hc, if_false]

theorem waitLoop_poll (E : Env) (AddrLow AddrHigh EndVal CurVal : Nat) (tr0 : List Ev)
    (k fuel : Nat) (hc : CurVal < EndVal) :
    waitLoop E AddrLow AddrHigh EndVal (fuel + 1) CurVal (pollTrace E AddrLow AddrHigh tr0 k) =
      if (pollLow E AddrLow AddrHigh tr0 k).rc ≠ XAIE_OK then
        some ((pollLow E AddrLow AddrHigh tr0 k).rc, pollTrace E AddrLow AddrHigh tr0 k ++
          [⟨423, .Read32 AddrLow, pollLow E AddrLow AddrHigh tr0 k⟩])
      else if (pollHigh E AddrLow AddrHigh tr0 k).rc ≠ XAIE_OK then
        some ((pollHigh E AddrLow AddrHigh tr0 k).rc, pollTrace E AddrLow AddrHigh tr0 k ++
          [⟨423, .Read32 AddrLow, pollLow E AddrLow AddrHigh tr0 k⟩,
           ⟨430, .Read32 AddrHigh, pollHigh E AddrLow AddrHigh tr0 k⟩])
      else waitLoop E AddrLow AddrHigh EndVal fuel (pollVal E AddrLow AddrHigh tr0 k)
        (pollTrace E AddrLow AddrHigh tr0 (k + 1)) := by
  simp only [waitLoop, hc, if_true, pollLow, pollHigh, pollVal, pollTrace, issue_fst, issue_snd,
    List.append_assoc, List.singleton_append]

theorem waitLoop_polls_below (E : Env) (AddrLow AddrHigh EndVal : Nat) (tr0 : List Ev) :
    ∀ (m fuel CurVal : Nat), CurVal < EndVal →
      (∀ k < m, (pollLow E AddrLow AddrHigh tr0 k).rc = XAIE_OK ∧
        (pollHigh E AddrLow AddrHigh tr0 k).rc = XAIE_OK ∧
        pollVal E AddrLow AddrHigh tr0 k < EndVal) →
      ∃ c, c < EndVal ∧
        waitLoop E AddrLow AddrHigh EndVal (m + fuel) CurVal tr0 =
          waitLoop E AddrLow AddrHigh EndVal fuel c (pollTrace E AddrLow AddrHigh tr0 m) := by
  intro m
  induction m with
  | zero =>
    intro fuel CurVal hc _
    exact ⟨CurVal, hc, by rw [Nat.zero_add]; rfl⟩
  | succ m ih =>
    intro fuel CurVal hc hall
    obtain ⟨c, hcl, heq⟩ := ih (fuel + 1) CurVal hc (fun k hk => hall k (by omega))
    obtain ⟨h1, h2, h3⟩ := hall m (by omega)
    refine ⟨_, h3, ?_⟩
    have hf : m + 1 + fuel = m + (fuel + 1) := by omega
    rw [hf, heq, waitLoop_poll E AddrLow AddrHigh EndVal c tr0 m fuel hcl]
    simp only [h1, h2, ne_eq, not_true_eq_false, if_false]

theorem pollTrace_length (E : Env) (AddrLow AddrHigh : Nat) (tr0 : List Ev) (n : Nat) :
    (pollTrace E AddrLow AddrHigh tr0 n).length = tr0.length + 2 * n := by
  induction n with
  | zero => rfl
  | succ n ih =>
    simp only [pollTrace, issue_snd, List.length_append, List.length_singleton, ih]
    omega

theorem waitLoop_first_qualifying (E : Env) (AddrLow AddrHigh EndVal : Nat) (tr0 : List Ev)
    (n fuel : Nat) (hpos : 0 < EndVal) (hn : 1 ≤ n) (hfuel : n ≤ fuel)
    (hok : ∀ k < n, (pollLow E AddrLow AddrHigh tr0 k).rc = XAIE_OK ∧
      (pollHigh E AddrLow AddrHigh tr0 k).rc = XAIE_OK)
    (hlow : ∀ k, k + 1 < n → pollVal E AddrLow AddrHigh tr0 k < EndVal)
    (hhit : EndVal ≤ pollVal E AddrLow AddrHigh tr0 (n - 1)) :
    waitLoop E AddrLow AddrHigh EndVal fuel 0 tr0 =
      some (XAIE_OK, pollTrace E AddrLow AddrHigh tr0 n) := by
  obtain ⟨m, rfl⟩ : ∃ m, n = m + 1 := ⟨n - 1, by omega⟩
  obtain ⟨f, rfl⟩ : ∃ f, fuel = m + (f + 1) := ⟨fuel - (m + 1), by omega⟩
  obtain ⟨c, hcl, heq⟩ := waitLoop_polls_below E AddrLow AddrHigh EndVal tr0 m (f + 1) 0 hpos
    (fun k hk => ⟨(hok k (by omega)).1, (hok k (by omega)).2, hlow k (by omega)⟩)
  rw [heq, waitLoop_poll E AddrLow AddrHigh EndVal c tr0 m f hcl]
  obtain ⟨h1, h2⟩ := hok m (by omega)
  simp only [h1, h2, ne_eq, not_true_eq_false, if_false]
  exact waitLoop_done E AddrLow AddrHigh EndVal _ _ (by simpa using hhit) f

theorem waitLoop_read_failure (E : Env) (AddrLow AddrHigh EndVal : Nat) (tr0 : List Ev)
    (m fuel : Nat) (hpos : 0 < EndVal) (hfuel : m < fuel)
    (hall : ∀ k < m, (pollLow E AddrLow AddrHigh tr0 k).rc = XAIE_OK ∧
      (pollHigh E AddrLow AddrHigh tr0 k).rc = XAIE_OK ∧
      pollVal E AddrLow AddrHigh tr0 k < EndVal) :
    ((pollLow E AddrLow AddrHigh tr0 m).rc ≠ XAIE_OK →
      waitLoop E AddrLow AddrHigh EndVal fuel 0 tr0 =
        some ((pollLow E AddrLow AddrHigh tr0 m).rc, pollTrace E AddrLow AddrHigh tr0 m ++
          [⟨423, .Read32 AddrLow, pollLow E AddrLow AddrHigh tr0 m⟩])) ∧
    ((pollLow E AddrLow AddrHigh tr0 m).rc = XAIE_OK →
      (pollHigh E AddrLow AddrHigh tr0 m).rc ≠ XAIE_OK →
      waitLoop E AddrLow AddrHigh EndVal fuel 0 tr0 =
        some ((pollHigh E AddrLow AddrHigh tr0 m).rc, pollTrace E AddrLow AddrHigh tr0 m ++
          [⟨423, .Read32 AddrLow, pollLow E AddrLow AddrHigh tr0 m⟩,
           ⟨430, .Read32 AddrHigh, pollHigh E AddrLow AddrHigh tr0 m⟩])) := by
  obtain ⟨f, rfl⟩ : ∃ f, fuel = m + (f + 1) := ⟨fuel - (m + 1), by omega⟩
  obtain ⟨c, hcl, heq⟩ := waitLoop_polls_below E AddrLow AddrHigh EndVal tr0 m (f + 1) 0 hpos hall
  rw [heq, waitLoop_poll E AddrLow AddrHigh EndVal c tr0 m f hcl]
  constructor
  · intro h1
    simp only [h1, ne_eq, not_false_eq_true, if_true]
  · intro h1 h2
    simp only [h1, h2, ne_eq, not_true_eq_false, not_false_eq_true, if_false, if_true]

/-- C22: for a ready device, a valid tile and module and
`CycleCnt ≤ 0xFFFFFFFFFFFF`, let the start reads (lines 406 and 412) succeed
with composed value `v_0` and let `EndVal = (v_0 + CycleCnt) mod 2 ^ 64 > 0`.
Writing `pollVal k` for the value composed by poll `k + 1`: if the reads of the
first `n ≥ 1` polls succeed, the values of the polls before the `n`-th are below
`EndVal` and the `n`-th is at least `EndVal`, then `XAie_WaitCycles` (followed
for at least `n` iterations) returns `XAIE_OK` after exactly `n` polls, its
trace being the start reads followed by the `2 n` reads of those polls.  If
instead the low or the high read of poll `m + 1` fails after `m` polls below
`EndVal`, the function returns the status of that read and its trace ends with
it. -/
theorem C22_wait_stops_at_first_qualifying_read (K : Defs) (D : XAie_DevInst) (E : Env)
    (fuel : Nat) (Loc : XAie_LocType) (Module CycleCnt : Nat) (tr : List Ev)
    (aL aH : Nat) (r1 r2 : Resp) (EndVal : Nat) (tr0 : List Ev)
    (hready : D.IsReady = K.XAIE_COMPONENT_IS_READY)
    (htile : D.GetTileTypefromLoc Loc ≠ K.XAIEGBL_TILE_TYPE_MAX)
    (hmod : D.CheckModule Loc Module = XAIE_OK)
    (hcnt : CycleCnt ≤ XAIE_WAIT_CYCLE_MAX_VAL)
    (haL : aL = (D.GetTileAddr Loc.Row Loc.Col +
      (selTimerMod K D (D.GetTileTypefromLoc Loc) Module).LowOff) % 2 ^ 64)
    (haH : aH = (D.GetTileAddr Loc.Row Loc.Col +
      (selTimerMod K D (D.GetTileTypefromLoc Loc) Module).HighOff) % 2 ^ 64)
    (hr1 : r1 = E tr 406 (.Read32 aL))
    (hr2 : r2 = E (tr ++ [⟨406, .Read32 aL, r1⟩]) 412 (.Read32 aH))
    (hok1 : r1.rc = XAIE_OK) (hok2 : r2.rc = XAIE_OK)
    (htr0 : tr0 = tr ++ [⟨406, .Read32 aL, r1⟩, ⟨412, .Read32 aH, r2⟩])
    (hEnd : EndVal = ((((r2.val % 2 ^ 32) <<< 32) % 2 ^ 64 ||| (r1.val % 2 ^ 32)) + CycleCnt) %
      2 ^ 64)
    (hpos : 0 < EndVal) :
    (∀ n, 1 ≤ n → n ≤ fuel →
      (∀ k < n, (pollLow E aL aH tr0 k).rc = XAIE_OK ∧ (pollHigh E aL aH tr0 k).rc = XAIE_OK) →
      (∀ k, k + 1 < n → pollVal E aL aH tr0 k < EndVal) →
      EndVal ≤ pollVal E aL aH tr0 (n - 1) →
      XAie_WaitCycles K D E fuel Loc Module CycleCnt tr =
        some (XAIE_OK, pollTrace E aL aH tr0 n) ∧
      (pollTrace E aL aH tr0 n).length = tr.length + 2 + 2 * n) ∧
    (∀ m, m < fuel →
      (∀ k < m, (pollLow E aL aH tr0 k).rc = XAIE_OK ∧ (pollHigh E aL aH tr0 k).rc = XAIE_OK ∧
        pollVal E aL aH tr0 k < EndVal) →
      ((pollLow E aL aH tr0 m).rc ≠ XAIE_OK →
        XAie_WaitCycles K D E fuel Loc Module CycleCnt tr =
          some ((pollLow E aL aH tr0 m).rc, pollTrace E aL aH tr0 m ++
            [⟨423, .Read32 aL, pollLow E aL aH tr0 m⟩])) ∧
      ((pollLow E aL aH tr0 m).rc = XAIE_OK → (pollHigh E aL aH tr0 m).rc ≠ XAIE_OK →
        XAie_WaitCycles K D E fuel Loc Module CycleCnt tr =
          some ((pollHigh E aL aH tr0 m).rc, pollTrace E aL aH tr0 m ++
            [⟨423, .Read32 aL, pollLow E aL aH tr0 m⟩,
             ⟨430, .Read32 aH, pollHigh E aL aH tr0 m⟩]))) := by
  have hrun : XAie_WaitCycles K D E fuel Loc Module CycleCnt tr =
      waitLoop E aL aH EndVal fuel 0 tr0 := by
    have hc : ¬ CycleCnt > XAIE_WAIT_CYCLE_MAX_VAL := by omega
    have hok1e : (E tr 406 (.Read32 aL)).rc = XAIE_OK := hr1 ▸ hok1
    have hok2e : (E (tr ++ [⟨406, .Read32 aL, E tr 406 (.Read32 aL)⟩]) 412 (.Read32 aH)).rc =
        XAIE_OK := by
      rw [← hr1, ← hr2]; exact hok2
    unfold XAie_WaitCycles
    simp only [issue_fst, issue_snd, hready, htile, hmod, hc, ne_eq, not_true_eq_false,
      if_false, ← haL, ← haH, hok1e, hok2e]
    rw [← hr1, ← hr2, hEnd, htr0]
    simp only [XAIE_TIMER_32BIT_SHIFT, List.append_assoc, List.singleton_append]
  rw [hrun]
  refine ⟨fun n hn hfuel hok hlow hhit => ⟨?_, ?_⟩, fun m hm hall => ?_⟩
  · exact waitLoop_first_qualifying E aL aH EndVal tr0 n fuel hpos hn hfuel hok hlow hhit
  · rw [pollTrace_length, htr0]
    simp only [List.length_append, List.length_cons, List.length_nil]
  · exact waitLoop_read_failure E aL aH EndVal tr0 m fuel hpos hm hall

/-- C22 (witness): the timer of the example tile reads 5 at the start, then 7,
then 20; a wait of 10 cycles has `EndVal = 15` and returns `XAIE_OK` after
exactly two polls (six register reads in all), although two more iterations
were available. -/
theorem C22_wait_stops_at_first_qualifying_read_witness :
    (exDev 1).IsReady = stdDefs.XAIE_COMPONENT_IS_READY ∧
    (exDev 1).GetTileTypefromLoc ⟨1, 0⟩ ≠ stdDefs.XAIEGBL_TILE_TYPE_MAX ∧
    (exDev 1).CheckModule ⟨1, 0⟩ 0 = XAIE_OK ∧
    10 ≤ XAIE_WAIT_CYCLE_MAX_VAL ∧
    pollVal (timerEnv [5, 7, 20, 30, 40]) 475384 475388
      [⟨406, .Read32 475384, ⟨XAIE_OK, 5, []⟩⟩, ⟨412, .Read32 475388, ⟨XAIE_OK, 0, []⟩⟩] 0 = 7 ∧
    pollVal (timerEnv [5, 7, 20, 30, 40]) 475384 475388
      [⟨406, .Read32 475384, ⟨XAIE_OK, 5, []⟩⟩, ⟨412, .Read32 475388, ⟨XAIE_OK, 0, []⟩⟩] 1 = 20 ∧
    XAie_WaitCycles stdDefs (exDev 1) (timerEnv [5, 7, 20, 30, 40]) 4 ⟨1, 0⟩ 0 10 [] =
      some (XAIE_OK,
        [⟨406, .Read32 475384, ⟨XAIE_OK, 5, []⟩⟩, ⟨412, .Read32 475388, ⟨XAIE_OK, 0, []⟩⟩,
         ⟨423, .Read32 475384, ⟨XAIE_OK, 7, []⟩⟩, ⟨430, .Read32 475388, ⟨XAIE_OK, 0, []⟩⟩,
         ⟨423, .Read32 475384, ⟨XAIE_OK, 20, []⟩⟩, ⟨430, .Read32 475388, ⟨XAIE_OK, 0, []⟩⟩]) ∧
    XAie_WaitCycles stdDefs (exDev 1) (timerEnvFail [5, 7, 20, 30, 40] 4) 4 ⟨1, 0⟩ 0 10 [] =
      some (XAIE_ERR,
        [⟨406, .Read32 475384, ⟨XAIE_OK, 5, []⟩⟩, ⟨412, .Read32 475388, ⟨XAIE_OK, 0, []⟩⟩,
         ⟨423, .Read32 475384, ⟨XAIE_OK, 7, []⟩⟩, ⟨430, .Read32 475388, ⟨XAIE_OK, 0, []⟩⟩,
         ⟨423, .Read32 475384, ⟨XAIE_ERR, 20, []⟩⟩]) ∧
    (XAie_WaitCycles stdDefs (exDev 1) (timerEnv [5, 7, 20, 30, 40]) 4 ⟨1, 0⟩ 0 10 [] =
      some (XAIE_OK, pollTrace (timerEnv [5, 7, 20, 30, 40]) 475384 475388
        [⟨406, .Read32 475384, ⟨XAIE_OK, 5, []⟩⟩, ⟨412, .Read32 475388, ⟨XAIE_OK, 0, []⟩⟩] 2) ∧
     (pollTrace (timerEnv [5, 7, 20, 30, 40]) 475384 475388
        [⟨406, .Read32 475384, ⟨XAIE_OK, 5, []⟩⟩, ⟨412, .Read32 475388, ⟨XAIE_OK, 0, []⟩⟩]
        2).length = ([] : List Ev).length + 2 + 2 * 2) :=
  ⟨by decide, by decide, by decide, by decide, by decide, by decide, by decide, by decide,
   (C22_wait_stops_at_first_qualifying_read stdDefs (exDev 1) (timerEnv [5, 7, 20, 30, 40]) 4
     ⟨1, 0⟩ 0 10 [] 475384 475388 ⟨XAIE_OK, 5, []⟩ ⟨XAIE_OK, 0, []⟩ 15
     [⟨406, .Read32 475384, ⟨XAIE_OK, 5, []⟩⟩, ⟨412, .Read32 475388, ⟨XAIE_OK, 0, []⟩⟩]
     (by decide) (by decide) (by decide) (by decide) (by decide) (by decide) (by decide)
     (by decide) (by decide) (by decide) (by decide) (by decide) (by decide)).1 2
     (by decide) (by decide) (by decide)
     (fun k hk => by
       have hk0 : k = 0 := by omega
       subst hk0
       decide)
     (by decide)⟩

/-- C23: on the one-column example device with channel 3 granted and every call
succeeding, `XAie_SyncTimer` returns `XAIE_OK`, but the clean-up after the
trigger (line 620, which passes `NumCols` as start column, the channel id as end
column and `XAIE_EVENT_NONE_PL` as channel) issues `XAie_EventBroadcast` for the
shim tiles of columns 1 and 2, which lie outside the partition `[0, 1)`, with
channel argument `XAIE_EVENT_NONE_PL = 2000` instead of the reserved channel 3. -/
theorem C23_clearing_leaves_the_partition :
    exRunOk3.1 = XAIE_OK ∧
    (exDev 1).NumCols = 1 ∧
    ((exRscs 1 3).getD 0 default).RscId = 3 ∧
    callsAt 583 exRunOk3.2 = [.EventBroadcast ⟨0, 0⟩ stdDefs.XAIE_PL_MOD 3 2110] ∧
    callsAt 496 exRunOk3.2 =
      [.EventBroadcast ⟨0, 1⟩ stdDefs.XAIE_PL_MOD stdDefs.XAIE_EVENT_NONE_PL
          stdDefs.XAIE_EVENT_NONE_PL,
       .EventBroadcast ⟨0, 2⟩ stdDefs.XAIE_PL_MOD stdDefs.XAIE_EVENT_NONE_PL
          stdDefs.XAIE_EVENT_NONE_PL] ∧
    (∃ e ∈ exRunOk3.2, e.call = .EventBroadcast ⟨0, 2⟩ 2 2000 2000 ∧
      ¬ (2 < (exDev 1).NumCols) ∧ (2000 : Nat) ≠ ((exRscs 1 3).getD 0 default).RscId) ∧
    _XAie_ClearShimBroadcast stdDefs exEnvOk3 (exDev 1).NumCols 3 stdDefs.XAIE_EVENT_NONE_PL
      [] =
      [⟨496, .EventBroadcast ⟨0, 1⟩ 2 2000 2000, ⟨XAIE_OK, 0, []⟩⟩,
       ⟨496, .EventBroadcast ⟨0, 2⟩ 2 2000 2000, ⟨XAIE_OK, 0, []⟩⟩] := by
  refine ⟨by decide, by decide, by decide, by decide, by decide, ?_, by decide⟩
  exact ⟨⟨496, .EventBroadcast ⟨0, 2⟩ 2 2000 2000, ⟨XAIE_OK, 0, []⟩⟩, by decide, rfl,
    by decide, by decide⟩

end XAie
